import Mathlib

/-!
# Greybus power management: interfaces and bundles

A shallow embedding of the power-state operations of `src/interface.c` and
`src/bundle.c`.

* An interface owns its bundles (`intf->bundles`), a bundle owns its
  connections (`bundle->connections`).  A bundle is addressed by its position
  in the list of its owning interface, so `bundle->intf` is the interface the
  list belongs to.
* The control requests `gb_control_bundle_power_state_set`,
  `gb_control_interface_power_state_set` and the SVC requests
  `gb_svc_intf_refclk_state_set`, `gb_svc_intf_power_state_set` are external:
  every request is appended to a trace and its return value is read from an
  environment that sees the whole history of requests.  They touch nothing
  but the trace.
* `dev_err` logging is not part of the model.
* Creation, enumeration, registration and teardown (`gb_bundle_create`,
  `gb_interface_enable`, `gb_interface_add`, `gb_interface_disable`, ...) use
  the same state.  The kernel device model, the allocator, the connection
  layer, `gb_operation_sync`, the manifest decoder `gb_manifest_parse` and
  `gb_control_get_bundle_versions` are external: their calls are recorded in
  the trace and their results are read from the environment, and they change
  nothing but what is said at their definitions.  Logging, `dev_set_name`, the
  set-up of the embedded device and `kfree` are not recorded.  The host
  device's list of interfaces is outside the state.
* The suspend callback of a connection (`connection->suspend`) is external
  code as well: `gb_connection.suspend` says whether one is registered, its
  invocation is recorded in the trace, its return value is read from the
  environment, and it changes no power state and no list.
-/

namespace Greybus

/-! ## Data model -/

/-- The three power states shared by `CONNECTION_PWR_*`, `BUNDLE_PWR_*` and
`INTERFACE_PWR_*`. -/
inductive PwrState
  | OFF
  | SUSPEND
  | ON
  deriving DecidableEq, Repr

/-- Rank of a power state in the order `OFF < SUSPEND < ON`. -/
def PwrState.rank : PwrState → Nat
  | .OFF => 0
  | .SUSPEND => 1
  | .ON => 2

/-- A connection of a bundle (`struct gb_connection`): its interface cport,
its power state and whether a `suspend` callback is registered. -/
structure gb_connection where
  intf_cport_id : Nat
  pwr_state : PwrState
  suspend : Bool
  deriving DecidableEq, Repr

/-- A bundle (`struct gb_bundle`), with the list `bundle->connections`. -/
structure gb_bundle where
  id : Nat
  bundle_class : Nat
  pwr_state : PwrState
  connections : List gb_connection
  deriving DecidableEq, Repr

/-- An interface (`struct gb_interface`), with the list `intf->bundles`. -/
structure gb_interface where
  interface_id : Nat
  device_id : Nat
  version_major : Nat
  version_minor : Nat
  boot_over_unipro : Bool
  disconnected : Bool
  pwr_state : PwrState
  bundles : List gb_bundle
  deriving DecidableEq, Repr

/-! ## External requests -/

/-- Argument `GB_SVC_INTF_REFCLK_DISABLE` of `gb_svc_intf_refclk_state_set`
(`false` stands for disable). -/
def GB_SVC_INTF_REFCLK_DISABLE : Bool := false

/-- Argument `GB_SVC_INTF_PWR_DISABLE` of `gb_svc_intf_power_state_set`
(`false` stands for disable). -/
def GB_SVC_INTF_PWR_DISABLE : Bool := false

/-- A kernel device embedded in an entity: `&intf->dev` or `&bundle->dev`. -/
inductive Dev
  | intf (interface_id : Nat)
  | bundle (interface_id bundle_id : Nat)
  deriving DecidableEq, Repr

/-- The structure a `kzalloc` call allocates. -/
inductive Alloc
  | gb_bundle
  | gb_interface
  | gb_control
  deriving DecidableEq, Repr

/-- The operation types of the control protocol used by `src/control.c` during
enumeration. -/
inductive ControlType
  | GB_CONTROL_TYPE_GET_MANIFEST_SIZE
  | GB_CONTROL_TYPE_GET_MANIFEST
  | GB_CONTROL_TYPE_INTERFACE_VERSION
  deriving DecidableEq, Repr

/-- The requests sent to the remote module (control protocol) and to the
fabric controller (SVC), the calls into the kernel device model, the
allocator, the connection layer and the manifest decoder, and the invocation
`connection->suspend(connection)` of the suspend callback of a connection. -/
inductive Call
  | gb_control_bundle_power_state_set (interface_id bundle_id : Nat) (st : PwrState)
  | gb_control_interface_power_state_set (interface_id : Nat) (st : PwrState)
  | gb_svc_intf_refclk_state_set (intf_id : Nat) (enable : Bool)
  | gb_svc_intf_power_state_set (intf_id : Nat) (enable : Bool)
  | kzalloc (obj : Alloc)
  | kmalloc (size : Nat)
  | device_add (dev : Dev)
  | device_is_registered (dev : Dev)
  | device_del (dev : Dev)
  | put_device (dev : Dev)
  | gb_connection_create_dynamic (interface_id : Nat)
  | gb_connection_legacy_init (interface_id : Nat)
  | gb_connection_legacy_exit (interface_id : Nat)
  | gb_operation_sync (interface_id : Nat) (type : ControlType) (response_size : Nat)
  | gb_manifest_parse (interface_id : Nat) (size : Nat)
  | gb_control_get_bundle_versions (interface_id : Nat)
  | connection_suspend (interface_id bundle_id intf_cport_id : Nat)
  deriving DecidableEq, Repr

/-- Whether a request is a control (remote set-power-state) request. -/
def Call.isControl : Call → Bool
  | .gb_control_bundle_power_state_set _ _ _ => true
  | .gb_control_interface_power_state_set _ _ => true
  | _ => false

/-- Whether a request is a fabric (SVC refclk / power) request. -/
def Call.isFabric : Call → Bool
  | .gb_svc_intf_refclk_state_set _ _ => true
  | .gb_svc_intf_power_state_set _ _ => true
  | _ => false

/-- Whether a request is a bundle set-power-state request. -/
def Call.isBundleReq : Call → Bool
  | .gb_control_bundle_power_state_set _ _ _ => true
  | _ => false

/-- The outside world: the return value of a request, given the requests
issued before it (oldest first). -/
abbrev Remote := List Call → Call → Int

/-- The state the power operations act on: one interface with its bundles and
connections, and the requests issued so far (oldest first). -/
structure PmState where
  intf : gb_interface
  trace : List Call
  deriving DecidableEq, Repr

/-- Issue one external request: read its return value and record it. -/
def PmState.call (env : Remote) (s : PmState) (c : Call) : Int × PmState :=
  (env s.trace c, { s with trace := s.trace ++ [c] })

/-- The assignment `interface->pwr_state = st`. -/
def PmState.set_intf_pwr_state (s : PmState) (st : PwrState) : PmState :=
  { s with intf := { s.intf with pwr_state := st } }

/-- The assignment `bundle->pwr_state = st` for the bundle at position `i`. -/
def PmState.set_bundle_pwr_state (s : PmState) (i : Nat) (bundle : gb_bundle)
    (st : PwrState) : PmState :=
  { s with intf := { s.intf with
      bundles := s.intf.bundles.set i { bundle with pwr_state := st } } }

/-! ## `src/interface.c` -/

/-- Embedding of `gb_interface_pm_power_on` (interface.c:104). -/
def gb_interface_pm_power_on (env : Remote) (s : PmState) : Int × PmState :=
  if s.intf.pwr_state = PwrState.ON then (0, s)
  else
    let (ret, s1) := s.call env
      (Call.gb_control_interface_power_state_set s.intf.interface_id PwrState.ON)
    if ret ≠ 0 then (ret, s1)
    else (0, s1.set_intf_pwr_state PwrState.ON)

/-- Embedding of `gb_interface_pm_power_suspend` (interface.c:140). -/
def gb_interface_pm_power_suspend (env : Remote) (s : PmState) : Int × PmState :=
  if s.intf.pwr_state = PwrState.SUSPEND then (0, s)
  else if s.intf.pwr_state = PwrState.OFF then (-1, s)
  else if s.intf.bundles.any (fun bundle => bundle.pwr_state = PwrState.ON) then (0, s)
  else
    let (ret, s1) := s.call env
      (Call.gb_control_interface_power_state_set s.intf.interface_id PwrState.SUSPEND)
    if ret ≠ 0 then (ret, s1)
    else
      let (_, s2) := s1.call env
        (Call.gb_svc_intf_refclk_state_set s1.intf.interface_id GB_SVC_INTF_REFCLK_DISABLE)
      (0, s2.set_intf_pwr_state PwrState.SUSPEND)

/-- Embedding of `gb_interface_pm_power_off` (interface.c:197). -/
def gb_interface_pm_power_off (env : Remote) (s : PmState) : Int × PmState :=
  if s.intf.pwr_state = PwrState.OFF then (0, s)
  else if s.intf.pwr_state = PwrState.SUSPEND then (-1, s)
  else if s.intf.bundles.any (fun bundle =>
      bundle.pwr_state = PwrState.ON ∨ bundle.pwr_state = PwrState.SUSPEND) then (0, s)
  else
    let (ret, s1) := s.call env
      (Call.gb_control_interface_power_state_set s.intf.interface_id PwrState.OFF)
    if ret ≠ 0 then (ret, s1)
    else
      let (_, s2) := s1.call env
        (Call.gb_svc_intf_refclk_state_set s1.intf.interface_id GB_SVC_INTF_REFCLK_DISABLE)
      let (_, s3) := s2.call env
        (Call.gb_svc_intf_power_state_set s2.intf.interface_id GB_SVC_INTF_PWR_DISABLE)
      (0, s3.set_intf_pwr_state PwrState.OFF)

/-! ## `src/bundle.c` -/

/-- Embedding of `gb_bundle_pm_power_on` (bundle.c:104) for the bundle at
position `i` of the interface; `none` when there is no such bundle. -/
def gb_bundle_pm_power_on (env : Remote) (s : PmState) (i : Nat) : Option (Int × PmState) :=
  match s.intf.bundles[i]? with
  | none => none
  | some bundle =>
    if bundle.pwr_state = PwrState.ON then some (0, s)
    else
      let (ret, s1) := gb_interface_pm_power_on env s
      if ret ≠ 0 then some (ret, s1)
      else
        let (ret, s2) := s1.call env
          (Call.gb_control_bundle_power_state_set s1.intf.interface_id bundle.id PwrState.ON)
        if ret ≠ 0 then some (ret, s2)
        else some (0, s2.set_bundle_pwr_state i bundle PwrState.ON)

/-- Embedding of `gb_bundle_pm_power_suspend` (bundle.c:133) for the bundle at
position `i` of the interface; `none` when there is no such bundle. -/
def gb_bundle_pm_power_suspend (env : Remote) (s : PmState) (i : Nat) :
    Option (Int × PmState) :=
  match s.intf.bundles[i]? with
  | none => none
  | some bundle =>
    if bundle.pwr_state = PwrState.SUSPEND then some (0, s)
    else if bundle.pwr_state = PwrState.OFF then some (-1, s)
    else if bundle.connections.any (fun connection =>
        connection.pwr_state = PwrState.ON) then some (0, s)
    else
      let (ret, s1) := s.call env
        (Call.gb_control_bundle_power_state_set s.intf.interface_id bundle.id PwrState.SUSPEND)
      if ret ≠ 0 then some (ret, s1)
      else
        let s2 := s1.set_bundle_pwr_state i bundle PwrState.SUSPEND
        let (_, s3) := gb_interface_pm_power_suspend env s2
        some (0, s3)

/-- Embedding of `gb_bundle_pm_power_off` (bundle.c:177) for the bundle at
position `i` of the interface; `none` when there is no such bundle. -/
def gb_bundle_pm_power_off (env : Remote) (s : PmState) (i : Nat) :
    Option (Int × PmState) :=
  match s.intf.bundles[i]? with
  | none => none
  | some bundle =>
    if bundle.pwr_state = PwrState.OFF then some (0, s)
    else if bundle.pwr_state = PwrState.SUSPEND then some (-1, s)
    else if bundle.connections.any (fun connection =>
        connection.pwr_state = PwrState.ON ∨ connection.pwr_state = PwrState.SUSPEND)
      then some (0, s)
    else
      let (ret, s1) := s.call env
        (Call.gb_control_bundle_power_state_set s.intf.interface_id bundle.id PwrState.OFF)
      if ret ≠ 0 then some (ret, s1)
      else
        let s2 := s1.set_bundle_pwr_state i bundle PwrState.OFF
        let (_, s3) := gb_interface_pm_power_off env s2
        some (0, s3)

/-- The loop `list_for_each_entry(connection, &bundle->connections,
bundle_links)` of `gb_bundle_suspend` (bundle.c:231) over the connections
still to visit.  A non-zero result is the error of the callback that made the
function return; 0 says that the loop ran to its end. -/
def gb_bundle_suspend_notify (env : Remote) (interface_id bundle_id : Nat) :
    List gb_connection → PmState → Int × PmState
  | [], s => (0, s)
  | connection :: rest, s =>
    if connection.suspend then
      let (ret, s1) := s.call env
        (Call.connection_suspend interface_id bundle_id connection.intf_cport_id)
      if ret ≠ 0 then (ret, s1)
      else gb_bundle_suspend_notify env interface_id bundle_id rest s1
    else gb_bundle_suspend_notify env interface_id bundle_id rest s

/-- Embedding of `gb_bundle_suspend` (bundle.c:224) for the bundle at position
`i` of the interface; `none` when there is no such bundle. -/
def gb_bundle_suspend (env : Remote) (s : PmState) (i : Nat) : Option (Int × PmState) :=
  match s.intf.bundles[i]? with
  | none => none
  | some bundle =>
    let (ret, s1) :=
      gb_bundle_suspend_notify env s.intf.interface_id bundle.id bundle.connections s
    if ret ≠ 0 then some (ret, s1)
    else
      match s1.intf.bundles[i]? with
      | none => none
      | some bundle1 =>
        if bundle1.pwr_state = PwrState.SUSPEND then
          match gb_bundle_pm_power_on env s1 i with
          | none => none
          | some (ret, s2) =>
            if ret ≠ 0 then some (ret, s2)
            else gb_bundle_pm_power_off env s2 i
        else gb_bundle_pm_power_off env s1 i

/-! ## Creation, registration and teardown of bundles (`src/bundle.c`) -/

/-- The outside world of enumeration: the return values of the calls, the
response bytes of `gb_operation_sync`, and the manifest decoder, which answers
with its verdict and the bundle list it leaves on the interface. -/
structure Env where
  remote : Remote
  response : List Call → Call → List Nat
  manifest_parse : List Call → gb_interface → List Nat → Bool × List gb_bundle

/-- Error number `EINVAL` of the kernel. -/
def EINVAL : Int := 22

/-- Error number `ENOMEM` of the kernel. -/
def ENOMEM : Int := 12

/-- Modelled from the spec: the sentinel device id that means "unassigned".
`GB_DEVICE_ID_BAD` is not defined under src/; the value is that of the Greybus
headers. -/
def GB_DEVICE_ID_BAD : Nat := 0xff

/-- Modelled from the spec: decoding of a little-endian 16-bit field from its
two bytes (`le16_to_cpu`, not defined under src/). -/
def le16_to_cpu (lo hi : Nat) : Nat := lo % 256 + 256 * (hi % 256)

/-- Embedding of `gb_bundle_find` (bundle.c:82): the first bundle of
`intf->bundles` with the given id. -/
def gb_bundle_find (intf : gb_interface) (bundle_id : Nat) : Option gb_bundle :=
  intf.bundles.find? (fun bundle => bundle.id = bundle_id)

/-- Embedding of `gb_bundle_create` (bundle.c:272).  The arguments are `u8`.
The result is the new bundle (`none` for `NULL`); `list_add` puts it at the
head of `intf->bundles`. -/
def gb_bundle_create (env : Remote) (s : PmState) (bundle_id bundle_class : Nat) :
    Option gb_bundle × PmState :=
  let bundle_id := bundle_id % 256
  let bundle_class := bundle_class % 256
  if (gb_bundle_find s.intf bundle_id).isSome then (none, s)
  else
    let (p, s1) := s.call env (Call.kzalloc Alloc.gb_bundle)
    if p = 0 then (none, s1)
    else
      let bundle : gb_bundle :=
        { id := bundle_id, bundle_class := bundle_class,
          pwr_state := PwrState.ON, connections := [] }
      (some bundle, { s1 with intf := { s1.intf with bundles := bundle :: s1.intf.bundles } })

/-- Embedding of `gb_bundle_add` (bundle.c:310). -/
def gb_bundle_add (env : Remote) (s : PmState) (bundle : gb_bundle) : Int × PmState :=
  let (ret, s1) := s.call env (Call.device_add (Dev.bundle s.intf.interface_id bundle.id))
  if ret ≠ 0 then (ret, s1)
  else (0, s1)

/-- Embedding of `gb_bundle_destroy` (bundle.c:326) for the bundle `bundle`
at position `i` of the interface; `list_del` removes that position. -/
def gb_bundle_destroy (env : Remote) (s : PmState) (i : Nat) (bundle : gb_bundle) : PmState :=
  let dev := Dev.bundle s.intf.interface_id bundle.id
  let (registered, s1) := s.call env (Call.device_is_registered dev)
  let s2 := if registered ≠ 0 then (s1.call env (Call.device_del dev)).2 else s1
  let s3 := { s2 with intf := { s2.intf with bundles := s2.intf.bundles.eraseIdx i } }
  (s3.call env (Call.put_device dev)).2

/-- The loop `list_for_each_entry_safe(bundle, tmp, &intf->bundles, links)
gb_bundle_destroy(bundle)` over the bundles `bundles` still to visit: each
visited bundle is the head of the list when it is destroyed. -/
def gb_interface_destroy_bundles (env : Remote) : List gb_bundle → PmState → PmState
  | [], s => s
  | bundle :: rest, s =>
    gb_interface_destroy_bundles env rest (gb_bundle_destroy env s 0 bundle)

/-! ## The control endpoint (`src/control.c`) -/

/-- Modelled from the spec: the synchronous request/response exchange
`gb_operation_sync` (not under src/) on the control connection of the
interface.  The return value and the response bytes come from the
environment. -/
def gb_operation_sync (env : Env) (s : PmState) (type : ControlType) (response_size : Nat) :
    Int × List Nat × PmState :=
  let c := Call.gb_operation_sync s.intf.interface_id type response_size
  (env.remote s.trace c, env.response s.trace c, { s with trace := s.trace ++ [c] })

/-- Embedding of `gb_control_get_manifest_size_operation` (control.c:16); the
response is one little-endian 16-bit size. -/
def gb_control_get_manifest_size_operation (env : Env) (s : PmState) : Int × PmState :=
  let (ret, response, s1) :=
    gb_operation_sync env s ControlType.GB_CONTROL_TYPE_GET_MANIFEST_SIZE 2
  if ret ≠ 0 then (ret, s1)
  else ((le16_to_cpu (response.getD 0 0) (response.getD 1 0) : Nat), s1)

/-- Embedding of `gb_control_get_manifest_operation` (control.c:34): the
return value and the manifest bytes. -/
def gb_control_get_manifest_operation (env : Env) (s : PmState) (size : Nat) :
    Int × List Nat × PmState :=
  gb_operation_sync env s ControlType.GB_CONTROL_TYPE_GET_MANIFEST size

/-- Embedding of `gb_control_get_interface_version_operation` (control.c:62);
the response is a little-endian 16-bit major followed by a 16-bit minor. -/
def gb_control_get_interface_version_operation (env : Env) (s : PmState) : Int × PmState :=
  if s.intf.boot_over_unipro then (0, s)
  else
    let (ret, response, s1) :=
      gb_operation_sync env s ControlType.GB_CONTROL_TYPE_INTERFACE_VERSION 4
    if ret ≠ 0 then (0, s1)
    else
      (0, { s1 with intf := { s1.intf with
        version_major := le16_to_cpu (response.getD 0 0) (response.getD 1 0),
        version_minor := le16_to_cpu (response.getD 2 0) (response.getD 3 0) } })

/-- Embedding of `gb_control_create` (control.c:91): whether the control
endpoint could be created, and the calls made. -/
def gb_control_create (env : Remote) (trace : List Call) (interface_id : Nat) :
    Bool × List Call :=
  let control := env trace (Call.kzalloc Alloc.gb_control)
  let t1 := trace ++ [Call.kzalloc Alloc.gb_control]
  if control = 0 then (false, t1)
  else
    let connection := env t1 (Call.gb_connection_create_dynamic interface_id)
    let t2 := t1 ++ [Call.gb_connection_create_dynamic interface_id]
    if connection = 0 then (false, t2)
    else (true, t2)

/-- Embedding of `gb_control_enable` (control.c:113). -/
def gb_control_enable (env : Remote) (s : PmState) : Int × PmState :=
  let (ret, s1) := s.call env (Call.gb_connection_legacy_init s.intf.interface_id)
  if ret ≠ 0 then (ret, s1)
  else (0, s1)

/-- Embedding of `gb_control_disable` (control.c:130). -/
def gb_control_disable (env : Remote) (s : PmState) : PmState :=
  (s.call env (Call.gb_connection_legacy_exit s.intf.interface_id)).2

/-! ## Creation, enumeration, registration and teardown of interfaces
(`src/interface.c`) -/

/-- Embedding of `gb_interface_create` (interface.c:273).  The argument is a
`u8`; `kzalloc` zeroes the fields that are not assigned.  The result is the
new interface (`none` for `NULL`) and the calls made. -/
def gb_interface_create (env : Remote) (trace : List Call) (interface_id : Nat) :
    Option gb_interface × List Call :=
  let interface_id := interface_id % 256
  let intf := env trace (Call.kzalloc Alloc.gb_interface)
  let t1 := trace ++ [Call.kzalloc Alloc.gb_interface]
  if intf = 0 then (none, t1)
  else
    let (control, t2) := gb_control_create env t1 interface_id
    if !control then (none, t2 ++ [Call.put_device (Dev.intf interface_id)])
    else
      (some { interface_id := interface_id, device_id := GB_DEVICE_ID_BAD,
              version_major := 0, version_minor := 0,
              boot_over_unipro := false, disconnected := false,
              pwr_state := PwrState.ON, bundles := [] }, t2)

/-- Modelled from the spec: the manifest decoder `gb_manifest_parse` (not
under src/) attaches bundles with their connections to the interface and
reports success or failure.  Its verdict and the bundle list it leaves on the
interface come from the environment; the invocation is recorded. -/
def gb_manifest_parse (env : Env) (s : PmState) (manifest : List Nat) (size : Nat) :
    Bool × PmState :=
  let r := env.manifest_parse s.trace s.intf manifest
  (r.1, { intf := { s.intf with bundles := r.2 },
          trace := s.trace ++ [Call.gb_manifest_parse s.intf.interface_id size] })

/-- Label `err_disable_control` of `gb_interface_enable` (interface.c:379). -/
def gb_interface_enable_err_disable_control (env : Env) (ret : Int) (s : PmState) :
    Int × PmState :=
  (ret, gb_control_disable env.remote s)

/-- Label `err_free_manifest` of `gb_interface_enable` (interface.c:377). -/
def gb_interface_enable_err_free_manifest (env : Env) (ret : Int) (s : PmState) :
    Int × PmState :=
  gb_interface_enable_err_disable_control env ret s

/-- Label `err_destroy_bundles` of `gb_interface_enable` (interface.c:374). -/
def gb_interface_enable_err_destroy_bundles (env : Env) (ret : Int) (s : PmState) :
    Int × PmState :=
  gb_interface_enable_err_free_manifest env ret
    (gb_interface_destroy_bundles env.remote s.intf.bundles s)

/-- Embedding of `gb_interface_enable` (interface.c:315). -/
def gb_interface_enable (env : Env) (s : PmState) : Int × PmState :=
  let (ret, s1) := gb_control_enable env.remote s
  if ret ≠ 0 then (ret, s1)
  else
    let (size, s2) := gb_control_get_manifest_size_operation env s1
    if size ≤ 0 then
      gb_interface_enable_err_disable_control env (if size ≠ 0 then size else -EINVAL) s2
    else
      let (manifest, s3) := s2.call env.remote (Call.kmalloc size.toNat)
      if manifest = 0 then gb_interface_enable_err_disable_control env (-ENOMEM) s3
      else
        let (ret, bytes, s4) := gb_control_get_manifest_operation env s3 size.toNat
        if ret ≠ 0 then gb_interface_enable_err_free_manifest env ret s4
        else
          let (parsed, s5) := gb_manifest_parse env s4 bytes size.toNat
          if !parsed then gb_interface_enable_err_destroy_bundles env (-EINVAL) s5
          else
            let (ret, s6) := gb_control_get_interface_version_operation env s5
            if ret ≠ 0 then gb_interface_enable_err_destroy_bundles env ret s6
            else
              let (ret, s7) := s6.call env.remote
                (Call.gb_control_get_bundle_versions s6.intf.interface_id)
              if ret ≠ 0 then gb_interface_enable_err_destroy_bundles env ret s7
              else (0, s7)

/-- Embedding of `gb_interface_disable` (interface.c:386). -/
def gb_interface_disable (env : Remote) (s : PmState) : PmState :=
  let s1 := if s.intf.disconnected then gb_control_disable env s else s
  let s2 := gb_interface_destroy_bundles env s1.intf.bundles s1
  gb_control_disable env s2

/-- The loop `list_for_each_entry_safe_reverse(bundle, tmp, &intf->bundles,
links)` of `gb_interface_add` over the bundles still to visit, last of the
list first: the visited bundle `bundle` sits at position `rest.length`, behind
the bundles not yet visited. -/
def gb_interface_add_bundles (env : Remote) : List gb_bundle → PmState → PmState
  | [], s => s
  | bundle :: rest, s =>
    let (ret, s1) := gb_bundle_add env s bundle
    if ret ≠ 0 then
      gb_interface_add_bundles env rest (gb_bundle_destroy env s1 rest.length bundle)
    else gb_interface_add_bundles env rest s1

/-- Embedding of `gb_interface_add` (interface.c:405). -/
def gb_interface_add (env : Remote) (s : PmState) : Int × PmState :=
  let (ret, s1) := s.call env (Call.device_add (Dev.intf s.intf.interface_id))
  if ret ≠ 0 then (ret, s1)
  else (0, gb_interface_add_bundles env s1.intf.bundles.reverse s1)

/-! ## Derived notions used by the statements -/

/-- Power state of the bundle at position `i`, if there is one. -/
def PmState.bundle_pwr_state (s : PmState) (i : Nat) : Option PwrState :=
  (s.intf.bundles[i]?).map (fun bundle => bundle.pwr_state)

/-- The hierarchical power invariant: no connection is more powered than its
bundle and no bundle is more powered than its interface. -/
def PowerInv (intf : gb_interface) : Prop :=
  ∀ bundle ∈ intf.bundles,
    bundle.pwr_state.rank ≤ intf.pwr_state.rank ∧
    ∀ connection ∈ bundle.connections,
      connection.pwr_state.rank ≤ bundle.pwr_state.rank

instance (intf : gb_interface) : Decidable (PowerInv intf) := by
  unfold PowerInv
  infer_instance

/-- Whether a call belongs to the destruction of a bundle. -/
def Call.isDestroy : Call → Bool
  | .device_is_registered _ => true
  | .device_del _ => true
  | .put_device _ => true
  | _ => false

/-- Whether a call is the registration of a bundle (`gb_bundle_add`). -/
def Call.isBundleAdd : Call → Bool
  | .device_add (Dev.bundle _ _) => true
  | _ => false

/-- Whether a call releases a bundle (the last step of `gb_bundle_destroy`). -/
def Call.isBundlePut : Call → Bool
  | .put_device (Dev.bundle _ _) => true
  | _ => false

/-- The calls `cs` issued after the calls `pre`, each with the value the
environment returned for it. -/
def outcomes (env : Remote) : List Call → List Call → List (Call × Int)
  | _, [] => []
  | pre, c :: cs => (c, env pre c) :: outcomes env (pre ++ [c]) cs

/-- Successive `gb_bundle_create` calls for the descriptors `(id, class)` in
the order given (the discovery order): the bundles the calls returned, in call
order, and the final state.  A failed call returns no bundle. -/
def create_in_order (env : Remote) : List (Nat × Nat) → PmState → List gb_bundle × PmState
  | [], s => ([], s)
  | d :: rest, s =>
    match gb_bundle_create env s d.1 d.2 with
    | (some bundle, s1) =>
      (bundle :: (create_in_order env rest s1).1, (create_in_order env rest s1).2)
    | (none, s1) => create_in_order env rest s1

/-- The registrations and releases expected of the registration loop for the
bundles visited, each paired with the result of its registration: one
registration per bundle, followed at once by the release of that bundle when
the result is not 0. -/
def registration_calls (interface_id : Nat) : List (gb_bundle × Int) → List Call
  | [] => []
  | x :: rest =>
    Call.device_add (Dev.bundle interface_id x.1.id) ::
      ((if x.2 = 0 then [] else [Call.put_device (Dev.bundle interface_id x.1.id)]) ++
        registration_calls interface_id rest)

/-- The bundle a successful `gb_bundle_create` makes from a descriptor. -/
def new_bundle (d : Nat × Nat) : gb_bundle :=
  { id := d.1 % 256, bundle_class := d.2 % 256, pwr_state := PwrState.ON, connections := [] }

/-- The legal direct transitions of a power state: OFF to ON, SUSPEND to ON,
ON to SUSPEND and ON to OFF. -/
def legal_transition : PwrState → PwrState → Bool
  | PwrState.OFF, PwrState.ON => true
  | PwrState.SUSPEND, PwrState.ON => true
  | PwrState.ON, PwrState.SUSPEND => true
  | PwrState.ON, PwrState.OFF => true
  | _, _ => false

/-- A power state did not change or changed by a legal direct transition. -/
def legal_step (a b : PwrState) : Prop := a = b ∨ legal_transition a b = true

instance (a b : PwrState) : Decidable (legal_step a b) := by
  unfold legal_step
  infer_instance

/-- The invocations of the suspend callbacks of the connections `cs` of a
bundle, in list order, the connections without a callback left out. -/
def suspend_calls (interface_id bundle_id : Nat) (cs : List gb_connection) : List Call :=
  (cs.filter (fun c => c.suspend)).map
    (fun c => Call.connection_suspend interface_id bundle_id c.intf_cport_id)

/-- The state once the suspend callbacks of all connections of `bundle` have
been invoked. -/
def PmState.notified (s : PmState) (bundle : gb_bundle) : PmState :=
  { s with trace := s.trace ++
      suspend_calls s.intf.interface_id bundle.id bundle.connections }

/-! ## Sample data -/

/-- An environment in which every request succeeds. -/
def envOk : Remote := fun _ _ => 0

/-- An environment in which every request fails with `-5`. -/
def envFail : Remote := fun _ _ => -5

/-- An environment in which bundle requests fail with `-5` and every other
request succeeds. -/
def envBundleFail : Remote := fun _ c => if c.isBundleReq then -5 else 0

/-- A connection with the given power state. -/
def mkConn (st : PwrState) : gb_connection :=
  { intf_cport_id := 1, pwr_state := st, suspend := false }

/-- A bundle with id 1, the given power state and connections. -/
def mkBundle (st : PwrState) (cs : List gb_connection) : gb_bundle :=
  { id := 1, bundle_class := 10, pwr_state := st, connections := cs }

/-- An interface with id 3, the given power state and bundles, nothing issued yet. -/
def mkState (st : PwrState) (bs : List gb_bundle) : PmState :=
  { intf := { interface_id := 3, device_id := 255, version_major := 0, version_minor := 0,
              boot_over_unipro := false, disconnected := false,
              pwr_state := st, bundles := bs },
    trace := [] }

/-- An environment in which the fabric (SVC) requests fail with `-5` and the
control requests succeed. -/
def envFabricFail : Remote := fun _ c => if c.isFabric then -5 else 0

/-- Return values with which allocation and connection creation succeed
(non-null), every other call returns 0 and no device is registered. -/
def envAlloc : Remote := fun _ c =>
  match c with
  | .kzalloc _ => 1
  | .kmalloc _ => 1
  | .gb_connection_create_dynamic _ => 1
  | _ => 0

/-- A bundle with the given id and number of connections, all ON. -/
def mkBundleN (id n : Nat) : gb_bundle :=
  { id := id, bundle_class := 10, pwr_state := PwrState.ON,
    connections := List.replicate n (mkConn PwrState.ON) }

/-- An enumeration environment: every call succeeds, the manifest has 4 bytes,
the version response says 1.2, and the decoder attaches bundle 1 with one
connection and then bundle 2 with three connections. -/
def envManifest : Env where
  remote := envAlloc
  response := fun _ c =>
    match c with
    | .gb_operation_sync _ ControlType.GB_CONTROL_TYPE_GET_MANIFEST_SIZE _ => [4, 0]
    | .gb_operation_sync _ ControlType.GB_CONTROL_TYPE_INTERFACE_VERSION _ => [1, 0, 2, 0]
    | _ => [0, 0, 0, 0]
  manifest_parse := fun _ intf _ => (true, mkBundleN 2 3 :: mkBundleN 1 1 :: intf.bundles)

/-- The environment `envManifest` with a failing bundle-version query. -/
def envVersionsFail : Env where
  remote := fun tr c =>
    match c with
    | .gb_control_get_bundle_versions _ => -5
    | _ => envAlloc tr c
  response := envManifest.response
  manifest_parse := envManifest.manifest_parse

/-- The environment `envManifest` with a decoder that attaches bundle 1 and
then fails. -/
def envParseFail : Env where
  remote := envAlloc
  response := envManifest.response
  manifest_parse := fun _ intf _ => (false, mkBundleN 1 1 :: intf.bundles)

/-- The environment `envManifest` with a failing enable of the control
endpoint (every call returns `-5`). -/
def envEnableFail : Env where
  remote := envFail
  response := envManifest.response
  manifest_parse := envManifest.manifest_parse

/-- The environment `envManifest` with every `gb_operation_sync` failing with
`-7`. -/
def envSizeFail : Env where
  remote := fun tr c =>
    match c with
    | .gb_operation_sync _ _ _ => -7
    | _ => envAlloc tr c
  response := envManifest.response
  manifest_parse := envManifest.manifest_parse

/-- The environment `envManifest` with a manifest size of 0. -/
def envSizeZero : Env where
  remote := envAlloc
  response := fun _ _ => [0, 0]
  manifest_parse := envManifest.manifest_parse

/-- The environment `envManifest` with a failing version request on
interface 3. -/
def envVersionFail : Env where
  remote := fun tr c =>
    if c = Call.gb_operation_sync 3 ControlType.GB_CONTROL_TYPE_INTERFACE_VERSION 4 then -5
    else envAlloc tr c
  response := envManifest.response
  manifest_parse := envManifest.manifest_parse

/-- Return values with which the registration of bundle 2 of interface 3 fails
with `-5` and every other call returns 0. -/
def envAddFail : Remote := fun _ c =>
  if c = Call.device_add (Dev.bundle 3 2) then -5 else 0

/-- Interface 3 in ON with the bundles 1, 2, 3 (no connections). -/
def stateThree : PmState :=
  mkState PwrState.ON [mkBundleN 1 0, mkBundleN 2 0, mkBundleN 3 0]

/-- A connection with the given cport, power state and callback flag. -/
def mkConnC (cport : Nat) (st : PwrState) (cb : Bool) : gb_connection :=
  { intf_cport_id := cport, pwr_state := st, suspend := cb }

/-- Return values with which the suspend callback of cport 2 fails with `-5`
and every other call returns 0. -/
def envCallbackFail : Remote := fun _ c =>
  match c with
  | .connection_suspend _ _ 2 => -5
  | _ => 0

/-- A suspended bundle with the connections 1 (callback), 5 (no callback),
2 (callback) and 4 (callback), all OFF. -/
def bundleCallbacks : gb_bundle :=
  mkBundle PwrState.SUSPEND
    [mkConnC 1 PwrState.OFF true, mkConnC 5 PwrState.OFF false,
     mkConnC 2 PwrState.OFF true, mkConnC 4 PwrState.OFF true]

/-- Interface 3 in ON with the bundle `bundleCallbacks`. -/
def stateCallbacks : PmState := mkState PwrState.ON [bundleCallbacks]

/-- Interface 3 in SUSPEND with one suspended bundle whose only connection
is ON. -/
def stateRaise : PmState :=
  mkState PwrState.SUSPEND [mkBundle PwrState.SUSPEND [mkConn PwrState.ON]]

/-- A bundle with the given id and power state and no connection. -/
def mkBundleS (id : Nat) (st : PwrState) : gb_bundle :=
  { id := id, bundle_class := 10, pwr_state := st, connections := [] }

/-- An interface that is ON with bundle 1 ON and bundle 2 in the given state. -/
def stateTwo (st : PwrState) : PmState :=
  mkState PwrState.ON [mkBundleS 1 PwrState.ON, mkBundleS 2 st]

/-- The state `gb_bundle_pm_power_suspend` leaves when it is called on bundle 1
of `stateTwo st` and every request succeeds. -/
def stateTwoSuspend (st : PwrState) : PmState :=
  match gb_bundle_pm_power_suspend envOk (stateTwo st) 0 with
  | some (_, s1) => s1
  | none => stateTwo st

/-- The state `gb_bundle_pm_power_off` leaves when it is called on bundle 1 of
`stateTwo st` and every request succeeds. -/
def stateTwoOff (st : PwrState) : PmState :=
  match gb_bundle_pm_power_off envOk (stateTwo st) 0 with
  | some (_, s1) => s1
  | none => stateTwo st

/-! ## Frame lemmas for the interface operations -/

/-- The requests `gb_interface_pm_power_on` adds, and what it leaves alone. -/
theorem gb_interface_pm_power_on_frame (env : Remote) (s : PmState) :
    (gb_interface_pm_power_on env s).2.intf.bundles = s.intf.bundles ∧
    (gb_interface_pm_power_on env s).2.intf.interface_id = s.intf.interface_id ∧
    ((gb_interface_pm_power_on env s).2.trace = s.trace ∨
     (gb_interface_pm_power_on env s).2.trace = s.trace ++
        [Call.gb_control_interface_power_state_set s.intf.interface_id PwrState.ON]) := by
  unfold gb_interface_pm_power_on
  simp only [PmState.call, PmState.set_intf_pwr_state]
  split_ifs <;> simp

/-- The requests `gb_interface_pm_power_suspend` adds, and what it leaves alone. -/
theorem gb_interface_pm_power_suspend_frame (env : Remote) (s : PmState) :
    (gb_interface_pm_power_suspend env s).2.intf.bundles = s.intf.bundles ∧
    (gb_interface_pm_power_suspend env s).2.intf.interface_id = s.intf.interface_id ∧
    ((gb_interface_pm_power_suspend env s).2.trace = s.trace ∨
     (gb_interface_pm_power_suspend env s).2.trace = s.trace ++
        [Call.gb_control_interface_power_state_set s.intf.interface_id PwrState.SUSPEND] ∨
     (gb_interface_pm_power_suspend env s).2.trace = s.trace ++
        [Call.gb_control_interface_power_state_set s.intf.interface_id PwrState.SUSPEND,
         Call.gb_svc_intf_refclk_state_set s.intf.interface_id GB_SVC_INTF_REFCLK_DISABLE]) := by
  unfold gb_interface_pm_power_suspend
  simp only [PmState.call, PmState.set_intf_pwr_state]
  split_ifs <;> simp

/-- The requests `gb_interface_pm_power_off` adds, and what it leaves alone. -/
theorem gb_interface_pm_power_off_frame (env : Remote) (s : PmState) :
    (gb_interface_pm_power_off env s).2.intf.bundles = s.intf.bundles ∧
    (gb_interface_pm_power_off env s).2.intf.interface_id = s.intf.interface_id ∧
    ((gb_interface_pm_power_off env s).2.trace = s.trace ∨
     (gb_interface_pm_power_off env s).2.trace = s.trace ++
        [Call.gb_control_interface_power_state_set s.intf.interface_id PwrState.OFF] ∨
     (gb_interface_pm_power_off env s).2.trace = s.trace ++
        [Call.gb_control_interface_power_state_set s.intf.interface_id PwrState.OFF,
         Call.gb_svc_intf_refclk_state_set s.intf.interface_id GB_SVC_INTF_REFCLK_DISABLE,
         Call.gb_svc_intf_power_state_set s.intf.interface_id GB_SVC_INTF_PWR_DISABLE]) := by
  unfold gb_interface_pm_power_off
  simp only [PmState.call, PmState.set_intf_pwr_state]
  split_ifs <;> simp

/-- The courtesy `gb_interface_pm_power_suspend` adds no bundle request. -/
theorem gb_interface_pm_power_suspend_trace (env : Remote) (s : PmState) :
    ∃ rest, (gb_interface_pm_power_suspend env s).2.trace = s.trace ++ rest ∧
      ∀ c ∈ rest, c.isBundleReq = false := by
  rcases (gb_interface_pm_power_suspend_frame env s).2.2 with h | h | h
  · exact ⟨[], by simp [h], by simp⟩
  · exact ⟨_, h, by simp [Call.isBundleReq]⟩
  · exact ⟨_, h, by simp [Call.isBundleReq]⟩

/-- The courtesy `gb_interface_pm_power_off` adds no bundle request. -/
theorem gb_interface_pm_power_off_trace (env : Remote) (s : PmState) :
    ∃ rest, (gb_interface_pm_power_off env s).2.trace = s.trace ++ rest ∧
      ∀ c ∈ rest, c.isBundleReq = false := by
  rcases (gb_interface_pm_power_off_frame env s).2.2 with h | h | h
  · exact ⟨[], by simp [h], by simp⟩
  · exact ⟨_, h, by simp [Call.isBundleReq]⟩
  · exact ⟨_, h, by simp [Call.isBundleReq]⟩

/-- No element of a list satisfies `p` when `any` is false. -/
theorem any_false_of_forall {α : Type} (l : List α) (p : α → Prop) [DecidablePred p]
    (h : ∀ x ∈ l, ¬ p x) : l.any (fun x => decide (p x)) = false := by
  rw [List.any_eq_false]
  intro x hx
  simpa using h x hx

/-- Some element of a list satisfies `p` exactly when `any` is true. -/
theorem any_true_of_exists {α : Type} (l : List α) (p : α → Prop) [DecidablePred p]
    (h : ∃ x ∈ l, p x) : l.any (fun x => decide (p x)) = true := by
  obtain ⟨x, hx, hp⟩ := h
  exact List.any_eq_true.mpr ⟨x, hx, by simpa using hp⟩

/-! ## What the operations do once their own request is reached -/

/-- Result of `gb_interface_pm_power_on` on an interface that is not ON. -/
theorem gb_interface_pm_power_on_reach (env : Remote) (s : PmState)
    (hst : ¬ s.intf.pwr_state = PwrState.ON) :
    gb_interface_pm_power_on env s =
      if env s.trace (Call.gb_control_interface_power_state_set s.intf.interface_id
          PwrState.ON) = 0 then
        (0, { intf := { s.intf with pwr_state := PwrState.ON },
              trace := s.trace ++ [Call.gb_control_interface_power_state_set
                s.intf.interface_id PwrState.ON] })
      else
        (env s.trace (Call.gb_control_interface_power_state_set s.intf.interface_id
            PwrState.ON),
         { s with trace := s.trace ++ [Call.gb_control_interface_power_state_set
            s.intf.interface_id PwrState.ON] }) := by
  simp only [gb_interface_pm_power_on, hst, PmState.call, PmState.set_intf_pwr_state]
  split_ifs <;> simp_all

/-- Result of `gb_interface_pm_power_suspend` on an interface in ON without a bundle in ON. -/
theorem gb_interface_pm_power_suspend_reach (env : Remote) (s : PmState)
    (hst : s.intf.pwr_state = PwrState.ON)
    (hc : ∀ b ∈ s.intf.bundles, ¬ b.pwr_state = PwrState.ON) :
    gb_interface_pm_power_suspend env s =
      if env s.trace (Call.gb_control_interface_power_state_set s.intf.interface_id
          PwrState.SUSPEND) = 0 then
        (0, { intf := { s.intf with pwr_state := PwrState.SUSPEND },
              trace := s.trace ++
                [Call.gb_control_interface_power_state_set s.intf.interface_id
                   PwrState.SUSPEND,
                 Call.gb_svc_intf_refclk_state_set s.intf.interface_id
                   GB_SVC_INTF_REFCLK_DISABLE] })
      else
        (env s.trace (Call.gb_control_interface_power_state_set s.intf.interface_id
            PwrState.SUSPEND),
         { s with trace := s.trace ++ [Call.gb_control_interface_power_state_set
            s.intf.interface_id PwrState.SUSPEND] }) := by
  have h := any_false_of_forall _ _ hc
  simp only [gb_interface_pm_power_suspend, hst, h, PmState.call, PmState.set_intf_pwr_state]
  split_ifs <;> simp_all

/-- Result of `gb_interface_pm_power_off` on an interface in ON without a bundle in ON or
SUSPEND. -/
theorem gb_interface_pm_power_off_reach (env : Remote) (s : PmState)
    (hst : s.intf.pwr_state = PwrState.ON)
    (hc : ∀ b ∈ s.intf.bundles,
      ¬ (b.pwr_state = PwrState.ON ∨ b.pwr_state = PwrState.SUSPEND)) :
    gb_interface_pm_power_off env s =
      if env s.trace (Call.gb_control_interface_power_state_set s.intf.interface_id
          PwrState.OFF) = 0 then
        (0, { intf := { s.intf with pwr_state := PwrState.OFF },
              trace := s.trace ++
                [Call.gb_control_interface_power_state_set s.intf.interface_id
                   PwrState.OFF,
                 Call.gb_svc_intf_refclk_state_set s.intf.interface_id
                   GB_SVC_INTF_REFCLK_DISABLE,
                 Call.gb_svc_intf_power_state_set s.intf.interface_id
                   GB_SVC_INTF_PWR_DISABLE] })
      else
        (env s.trace (Call.gb_control_interface_power_state_set s.intf.interface_id
            PwrState.OFF),
         { s with trace := s.trace ++ [Call.gb_control_interface_power_state_set
            s.intf.interface_id PwrState.OFF] }) := by
  have h := any_false_of_forall _ _ hc
  simp only [gb_interface_pm_power_off, hst, h, PmState.call, PmState.set_intf_pwr_state]
  split_ifs <;> simp_all

/-- Result of `gb_bundle_pm_power_on` on a bundle that is not ON. -/
theorem gb_bundle_pm_power_on_reach (env : Remote) (s : PmState) (i : Nat)
    (bundle : gb_bundle) (hb : s.intf.bundles[i]? = some bundle)
    (hst : ¬ bundle.pwr_state = PwrState.ON) :
    gb_bundle_pm_power_on env s i =
      if (gb_interface_pm_power_on env s).1 = 0 then
        if env (gb_interface_pm_power_on env s).2.trace
            (Call.gb_control_bundle_power_state_set
              (gb_interface_pm_power_on env s).2.intf.interface_id bundle.id
              PwrState.ON) = 0 then
          some (0, ((gb_interface_pm_power_on env s).2.call env
            (Call.gb_control_bundle_power_state_set
              (gb_interface_pm_power_on env s).2.intf.interface_id bundle.id
              PwrState.ON)).2.set_bundle_pwr_state i bundle PwrState.ON)
        else
          some ((gb_interface_pm_power_on env s).2.call env
            (Call.gb_control_bundle_power_state_set
              (gb_interface_pm_power_on env s).2.intf.interface_id bundle.id PwrState.ON))
      else some (gb_interface_pm_power_on env s) := by
  simp only [gb_bundle_pm_power_on, hb, hst, PmState.call]
  split_ifs <;> simp_all

/-- Result of `gb_bundle_pm_power_suspend` on a bundle in ON without a connection in ON. -/
theorem gb_bundle_pm_power_suspend_reach (env : Remote) (s : PmState) (i : Nat)
    (bundle : gb_bundle) (hb : s.intf.bundles[i]? = some bundle)
    (hst : bundle.pwr_state = PwrState.ON)
    (hc : ∀ c ∈ bundle.connections, ¬ c.pwr_state = PwrState.ON) :
    gb_bundle_pm_power_suspend env s i =
      if env s.trace (Call.gb_control_bundle_power_state_set s.intf.interface_id
          bundle.id PwrState.SUSPEND) = 0 then
        some (0, (gb_interface_pm_power_suspend env
          ((s.call env (Call.gb_control_bundle_power_state_set s.intf.interface_id
            bundle.id PwrState.SUSPEND)).2.set_bundle_pwr_state i bundle
              PwrState.SUSPEND)).2)
      else
        some (s.call env (Call.gb_control_bundle_power_state_set s.intf.interface_id
          bundle.id PwrState.SUSPEND)) := by
  have h := any_false_of_forall _ _ hc
  simp only [gb_bundle_pm_power_suspend, hb, hst, h, PmState.call]
  split_ifs <;> simp_all

/-- Result of `gb_bundle_pm_power_off` on a bundle in ON without a connection in ON or
SUSPEND. -/
theorem gb_bundle_pm_power_off_reach (env : Remote) (s : PmState) (i : Nat)
    (bundle : gb_bundle) (hb : s.intf.bundles[i]? = some bundle)
    (hst : bundle.pwr_state = PwrState.ON)
    (hc : ∀ c ∈ bundle.connections,
      ¬ (c.pwr_state = PwrState.ON ∨ c.pwr_state = PwrState.SUSPEND)) :
    gb_bundle_pm_power_off env s i =
      if env s.trace (Call.gb_control_bundle_power_state_set s.intf.interface_id
          bundle.id PwrState.OFF) = 0 then
        some (0, (gb_interface_pm_power_off env
          ((s.call env (Call.gb_control_bundle_power_state_set s.intf.interface_id
            bundle.id PwrState.OFF)).2.set_bundle_pwr_state i bundle PwrState.OFF)).2)
      else
        some (s.call env (Call.gb_control_bundle_power_state_set s.intf.interface_id
          bundle.id PwrState.OFF)) := by
  have h := any_false_of_forall _ _ hc
  simp only [gb_bundle_pm_power_off, hb, hst, h, PmState.call]
  split_ifs <;> simp_all

/-- A successful `gb_interface_pm_power_on` leaves the interface in ON. -/
theorem gb_interface_pm_power_on_ok (env : Remote) (s : PmState)
    (h : (gb_interface_pm_power_on env s).1 = 0) :
    (gb_interface_pm_power_on env s).2.intf.pwr_state = PwrState.ON := by
  by_cases hst : s.intf.pwr_state = PwrState.ON
  · simp [gb_interface_pm_power_on, hst]
  · rw [gb_interface_pm_power_on_reach env s hst] at h ⊢
    split_ifs at h ⊢ with hr
    · rfl
    · exact absurd h hr

/-- A failed `gb_interface_pm_power_on` has issued its one request and changed
nothing else. -/
theorem gb_interface_pm_power_on_err (env : Remote) (s : PmState)
    (h : ¬ (gb_interface_pm_power_on env s).1 = 0) :
    (gb_interface_pm_power_on env s).2 =
      { s with trace := s.trace ++ [Call.gb_control_interface_power_state_set
          s.intf.interface_id PwrState.ON] } := by
  by_cases hst : s.intf.pwr_state = PwrState.ON
  · simp [gb_interface_pm_power_on, hst] at h
  · rw [gb_interface_pm_power_on_reach env s hst] at h ⊢
    split_ifs at h ⊢ with hr
    · exact absurd rfl h
    · rfl

/-- Reading back the bundle written by `set_bundle_pwr_state`. -/
theorem bundle_pwr_state_set (s : PmState) (i : Nat) (bundle : gb_bundle) (st : PwrState)
    (hi : i < s.intf.bundles.length) :
    (s.set_bundle_pwr_state i bundle st).bundle_pwr_state i = some st := by
  simp [PmState.set_bundle_pwr_state, PmState.bundle_pwr_state, List.getElem?_set, hi]

/-- A position that holds a bundle is within the list. -/
theorem lt_length_of_getElem? {α : Type} (l : List α) (i : Nat) (a : α)
    (h : l[i]? = some a) : i < l.length := by
  by_contra hn
  rw [List.getElem?_eq_none (Nat.le_of_not_lt hn)] at h
  exact Option.noConfusion h

/-- A vetoed `gb_interface_pm_power_suspend` does nothing. -/
theorem gb_interface_pm_power_suspend_veto (env : Remote) (s : PmState)
    (hst : s.intf.pwr_state = PwrState.ON)
    (hc : ∃ b ∈ s.intf.bundles, b.pwr_state = PwrState.ON) :
    gb_interface_pm_power_suspend env s = (0, s) := by
  have h := any_true_of_exists _ _ hc
  simp only [gb_interface_pm_power_suspend, hst, h]
  simp

/-- A vetoed `gb_interface_pm_power_off` does nothing. -/
theorem gb_interface_pm_power_off_veto (env : Remote) (s : PmState)
    (hst : s.intf.pwr_state = PwrState.ON)
    (hc : ∃ b ∈ s.intf.bundles, b.pwr_state = PwrState.ON ∨ b.pwr_state = PwrState.SUSPEND) :
    gb_interface_pm_power_off env s = (0, s) := by
  have h := any_true_of_exists _ _ hc
  simp only [gb_interface_pm_power_off, hst, h]
  simp

/-- A vetoed `gb_bundle_pm_power_suspend` does nothing. -/
theorem gb_bundle_pm_power_suspend_veto (env : Remote) (s : PmState) (i : Nat)
    (bundle : gb_bundle) (hb : s.intf.bundles[i]? = some bundle)
    (hst : bundle.pwr_state = PwrState.ON)
    (hc : ∃ c ∈ bundle.connections, c.pwr_state = PwrState.ON) :
    gb_bundle_pm_power_suspend env s i = some (0, s) := by
  have h := any_true_of_exists _ _ hc
  simp only [gb_bundle_pm_power_suspend, hb, hst, h]
  simp

/-- A vetoed `gb_bundle_pm_power_off` does nothing. -/
theorem gb_bundle_pm_power_off_veto (env : Remote) (s : PmState) (i : Nat)
    (bundle : gb_bundle) (hb : s.intf.bundles[i]? = some bundle)
    (hst : bundle.pwr_state = PwrState.ON)
    (hc : ∃ c ∈ bundle.connections,
      c.pwr_state = PwrState.ON ∨ c.pwr_state = PwrState.SUSPEND) :
    gb_bundle_pm_power_off env s i = some (0, s) := by
  have h := any_true_of_exists _ _ hc
  simp only [gb_bundle_pm_power_off, hb, hst, h]
  simp

/-! ## The hierarchical invariant: building blocks -/

/-- Every rank is at most the rank of ON. -/
theorem rank_le_two (st : PwrState) : st.rank ≤ 2 := by
  cases st <;> simp [PwrState.rank]

/-- A state other than ON has rank at most that of SUSPEND. -/
theorem rank_le_one (st : PwrState) (h : ¬ st = PwrState.ON) : st.rank ≤ 1 := by
  cases st <;> simp_all [PwrState.rank]

/-- A state that is neither ON nor SUSPEND has rank 0. -/
theorem rank_le_zero (st : PwrState)
    (h : ¬ (st = PwrState.ON ∨ st = PwrState.SUSPEND)) : st.rank ≤ 0 := by
  cases st <;> simp_all [PwrState.rank]

/-- The invariant survives a change of the interface's power state that stays
above every bundle. -/
theorem PowerInv_set_intf (a : gb_interface) (st : PwrState) (h : PowerInv a)
    (hr : ∀ b ∈ a.bundles, b.pwr_state.rank ≤ st.rank) :
    PowerInv { a with pwr_state := st } := by
  intro b hb
  exact ⟨hr b hb, (h b hb).2⟩

/-- The invariant survives a change of one bundle's power state that stays
between its connections and its interface. -/
theorem PowerInv_set_bundle (s : PmState) (i : Nat) (bundle : gb_bundle) (st : PwrState)
    (h : PowerInv s.intf)
    (h1 : st.rank ≤ s.intf.pwr_state.rank)
    (h2 : ∀ c ∈ bundle.connections, c.pwr_state.rank ≤ st.rank) :
    PowerInv (s.set_bundle_pwr_state i bundle st).intf := by
  intro b hbm
  rcases List.mem_or_eq_of_mem_set hbm with hm | hm
  · exact h b hm
  · subst hm
    exact ⟨h1, h2⟩

/-- Preservation: `gb_interface_pm_power_on` preserves the invariant. -/
theorem PowerInv_interface_power_on (env : Remote) (s : PmState) (h : PowerInv s.intf) :
    PowerInv (gb_interface_pm_power_on env s).2.intf := by
  by_cases hst : s.intf.pwr_state = PwrState.ON
  · simpa [gb_interface_pm_power_on, hst] using h
  · rw [gb_interface_pm_power_on_reach env s hst]
    split_ifs
    · exact PowerInv_set_intf s.intf PwrState.ON h (fun b _ => rank_le_two _)
    · exact h

/-- Preservation: `gb_interface_pm_power_suspend` preserves the invariant. -/
theorem PowerInv_interface_power_suspend (env : Remote) (s : PmState)
    (h : PowerInv s.intf) : PowerInv (gb_interface_pm_power_suspend env s).2.intf := by
  by_cases hst : s.intf.pwr_state = PwrState.ON
  · by_cases hc : ∃ b ∈ s.intf.bundles, b.pwr_state = PwrState.ON
    · rw [gb_interface_pm_power_suspend_veto env s hst hc]
      exact h
    · have hc' : ∀ b ∈ s.intf.bundles, ¬ b.pwr_state = PwrState.ON :=
        fun b hb hon => hc ⟨b, hb, hon⟩
      rw [gb_interface_pm_power_suspend_reach env s hst hc']
      split_ifs
      · exact PowerInv_set_intf s.intf PwrState.SUSPEND h
          (fun b hb => rank_le_one _ (hc' b hb))
      · exact h
  · have : (gb_interface_pm_power_suspend env s).2 = s := by
      cases hs : s.intf.pwr_state <;> simp_all [gb_interface_pm_power_suspend]
    rw [this]
    exact h

/-- Preservation: `gb_interface_pm_power_off` preserves the invariant. -/
theorem PowerInv_interface_power_off (env : Remote) (s : PmState)
    (h : PowerInv s.intf) : PowerInv (gb_interface_pm_power_off env s).2.intf := by
  by_cases hst : s.intf.pwr_state = PwrState.ON
  · by_cases hc : ∃ b ∈ s.intf.bundles,
        b.pwr_state = PwrState.ON ∨ b.pwr_state = PwrState.SUSPEND
    · rw [gb_interface_pm_power_off_veto env s hst hc]
      exact h
    · have hc' : ∀ b ∈ s.intf.bundles,
          ¬ (b.pwr_state = PwrState.ON ∨ b.pwr_state = PwrState.SUSPEND) :=
        fun b hb hon => hc ⟨b, hb, hon⟩
      rw [gb_interface_pm_power_off_reach env s hst hc']
      split_ifs
      · exact PowerInv_set_intf s.intf PwrState.OFF h
          (fun b hb => rank_le_zero _ (hc' b hb))
      · exact h
  · have : (gb_interface_pm_power_off env s).2 = s := by
      cases hs : s.intf.pwr_state <;> simp_all [gb_interface_pm_power_off]
    rw [this]
    exact h

/-! ## Illegal transitions, veto and idempotence -/

/-- C1: illegal direct transitions are rejected.  `gb_bundle_pm_power_off` and
`gb_interface_pm_power_off` on an entity in SUSPEND, and
`gb_bundle_pm_power_suspend` and `gb_interface_pm_power_suspend` on an entity
in OFF, return `-1`, issue no request and leave the whole state (so the
entity at SUSPEND resp. OFF) as it was, whatever the children are. -/
theorem illegal_direct_transitions_rejected (env : Remote) (s : PmState) :
    (∀ i bundle, s.intf.bundles[i]? = some bundle → bundle.pwr_state = PwrState.SUSPEND →
      gb_bundle_pm_power_off env s i = some (-1, s)) ∧
    (∀ i bundle, s.intf.bundles[i]? = some bundle → bundle.pwr_state = PwrState.OFF →
      gb_bundle_pm_power_suspend env s i = some (-1, s)) ∧
    (s.intf.pwr_state = PwrState.SUSPEND → gb_interface_pm_power_off env s = (-1, s)) ∧
    (s.intf.pwr_state = PwrState.OFF → gb_interface_pm_power_suspend env s = (-1, s)) := by
  refine ⟨?_, ?_, ?_, ?_⟩
  · intro i bundle hb hst
    simp [gb_bundle_pm_power_off, hb, hst]
  · intro i bundle hb hst
    simp [gb_bundle_pm_power_suspend, hb, hst]
  · intro hst
    simp [gb_interface_pm_power_off, hst]
  · intro hst
    simp [gb_interface_pm_power_suspend, hst]

/-- Witness of C1: a suspended bundle with an ON connection, a powered-off
bundle, a suspended interface and a powered-off interface. -/
theorem illegal_direct_transitions_rejected_witness :
    gb_bundle_pm_power_off envOk
        (mkState PwrState.ON [mkBundle PwrState.SUSPEND [mkConn PwrState.ON]]) 0
      = some (-1, mkState PwrState.ON [mkBundle PwrState.SUSPEND [mkConn PwrState.ON]]) ∧
    gb_bundle_pm_power_suspend envOk (mkState PwrState.ON [mkBundle PwrState.OFF []]) 0
      = some (-1, mkState PwrState.ON [mkBundle PwrState.OFF []]) ∧
    gb_interface_pm_power_off envOk (mkState PwrState.SUSPEND [])
      = (-1, mkState PwrState.SUSPEND []) ∧
    gb_interface_pm_power_suspend envOk (mkState PwrState.OFF [mkBundle PwrState.ON []])
      = (-1, mkState PwrState.OFF [mkBundle PwrState.ON []]) :=
  ⟨(illegal_direct_transitions_rejected envOk _).1 0 _ rfl rfl,
   (illegal_direct_transitions_rejected envOk _).2.1 0 _ rfl rfl,
   (illegal_direct_transitions_rejected envOk _).2.2.1 rfl,
   (illegal_direct_transitions_rejected envOk _).2.2.2 rfl⟩

/-- C2, counterexample: a bundle in SUSPEND with one connection in ON does not
get success from `gb_bundle_pm_power_off`: the call returns `-1`. -/
theorem power_off_suspended_bundle_on_connection_fails :
    gb_bundle_pm_power_off envOk
        (mkState PwrState.ON [mkBundle PwrState.SUSPEND [mkConn PwrState.ON]]) 0
      = some (-1, mkState PwrState.ON [mkBundle PwrState.SUSPEND [mkConn PwrState.ON]]) ∧
    ¬ ∃ s', gb_bundle_pm_power_off envOk
        (mkState PwrState.ON [mkBundle PwrState.SUSPEND [mkConn PwrState.ON]]) 0
      = some (0, s') := by
  have h : gb_bundle_pm_power_off envOk
        (mkState PwrState.ON [mkBundle PwrState.SUSPEND [mkConn PwrState.ON]]) 0
      = some (-1, mkState PwrState.ON [mkBundle PwrState.SUSPEND [mkConn PwrState.ON]]) := by
    simp [gb_bundle_pm_power_off, mkState, mkBundle]
  refine ⟨h, ?_⟩
  rintro ⟨s', hs'⟩
  rw [h] at hs'
  simp at hs'

/-- C2, amended: for a bundle with at least one connection in ON, in any power
state, `gb_bundle_pm_power_suspend` and `gb_bundle_pm_power_off` issue no
request and leave the whole state unchanged; they return 0, except for the
illegal direct transitions (suspend from OFF, power-off from SUSPEND), which
return `-1`. -/
theorem veto_with_on_connection (env : Remote) (s : PmState) (i : Nat) (bundle : gb_bundle)
    (hb : s.intf.bundles[i]? = some bundle)
    (hc : ∃ connection ∈ bundle.connections, connection.pwr_state = PwrState.ON) :
    gb_bundle_pm_power_suspend env s i
      = some (if bundle.pwr_state = PwrState.OFF then -1 else 0, s) ∧
    gb_bundle_pm_power_off env s i
      = some (if bundle.pwr_state = PwrState.SUSPEND then -1 else 0, s) := by
  obtain ⟨c, hcm, hcs⟩ := hc
  have h1 : bundle.connections.any (fun connection =>
      decide (connection.pwr_state = PwrState.ON)) = true :=
    List.any_eq_true.mpr ⟨c, hcm, by simp [hcs]⟩
  have h2 : bundle.connections.any (fun connection =>
      decide (connection.pwr_state = PwrState.ON ∨ connection.pwr_state = PwrState.SUSPEND))
        = true :=
    List.any_eq_true.mpr ⟨c, hcm, by simp [hcs]⟩
  constructor
  · cases hst : bundle.pwr_state <;>
      simp only [gb_bundle_pm_power_suspend, hb, hst, h1] <;> simp
  · cases hst : bundle.pwr_state <;>
      simp only [gb_bundle_pm_power_off, hb, hst, h2] <;> simp

/-- Witness of the amended C2: a bundle in ON with one connection in ON. -/
theorem veto_with_on_connection_witness :
    gb_bundle_pm_power_suspend envOk
        (mkState PwrState.ON [mkBundle PwrState.ON [mkConn PwrState.ON]]) 0
      = some (0, mkState PwrState.ON [mkBundle PwrState.ON [mkConn PwrState.ON]]) ∧
    gb_bundle_pm_power_off envOk
        (mkState PwrState.ON [mkBundle PwrState.ON [mkConn PwrState.ON]]) 0
      = some (0, mkState PwrState.ON [mkBundle PwrState.ON [mkConn PwrState.ON]]) :=
  veto_with_on_connection envOk
    (mkState PwrState.ON [mkBundle PwrState.ON [mkConn PwrState.ON]]) 0
    (mkBundle PwrState.ON [mkConn PwrState.ON]) rfl ⟨mkConn PwrState.ON, List.Mem.head _, rfl⟩

/-- C3: veto rule on a legal transition.  For a bundle in ON (over its
connections) and an interface in ON (over its bundles): `power_suspend` with a
child in ON, and `power_off` with a child in ON or SUSPEND, return 0 and leave
the whole state and the trace unchanged.  When no child vetoes, the new
requests start with the entity's own set-power-state request for the target
state and no second one follows: what follows holds no bundle request (for a
bundle; it is the courtesy cascade to the interface) resp. no control request
(for an interface). -/
theorem veto_rule_on_legal_transition (env : Remote) (s : PmState) :
    (∀ i bundle, s.intf.bundles[i]? = some bundle → bundle.pwr_state = PwrState.ON →
      ((∃ c ∈ bundle.connections, c.pwr_state = PwrState.ON) →
        gb_bundle_pm_power_suspend env s i = some (0, s)) ∧
      ((∃ c ∈ bundle.connections,
          c.pwr_state = PwrState.ON ∨ c.pwr_state = PwrState.SUSPEND) →
        gb_bundle_pm_power_off env s i = some (0, s)) ∧
      ((∀ c ∈ bundle.connections, ¬ c.pwr_state = PwrState.ON) →
        ∃ r s' rest, gb_bundle_pm_power_suspend env s i = some (r, s') ∧
          s'.trace = s.trace ++
            Call.gb_control_bundle_power_state_set s.intf.interface_id bundle.id
              PwrState.SUSPEND :: rest ∧
          ∀ c ∈ rest, c.isBundleReq = false) ∧
      ((∀ c ∈ bundle.connections,
          ¬ (c.pwr_state = PwrState.ON ∨ c.pwr_state = PwrState.SUSPEND)) →
        ∃ r s' rest, gb_bundle_pm_power_off env s i = some (r, s') ∧
          s'.trace = s.trace ++
            Call.gb_control_bundle_power_state_set s.intf.interface_id bundle.id
              PwrState.OFF :: rest ∧
          ∀ c ∈ rest, c.isBundleReq = false)) ∧
    (s.intf.pwr_state = PwrState.ON →
      ((∃ b ∈ s.intf.bundles, b.pwr_state = PwrState.ON) →
        gb_interface_pm_power_suspend env s = (0, s)) ∧
      ((∃ b ∈ s.intf.bundles, b.pwr_state = PwrState.ON ∨ b.pwr_state = PwrState.SUSPEND) →
        gb_interface_pm_power_off env s = (0, s)) ∧
      ((∀ b ∈ s.intf.bundles, ¬ b.pwr_state = PwrState.ON) →
        ∃ r s' rest, gb_interface_pm_power_suspend env s = (r, s') ∧
          s'.trace = s.trace ++
            Call.gb_control_interface_power_state_set s.intf.interface_id
              PwrState.SUSPEND :: rest ∧
          ∀ c ∈ rest, c.isControl = false) ∧
      ((∀ b ∈ s.intf.bundles,
          ¬ (b.pwr_state = PwrState.ON ∨ b.pwr_state = PwrState.SUSPEND)) →
        ∃ r s' rest, gb_interface_pm_power_off env s = (r, s') ∧
          s'.trace = s.trace ++
            Call.gb_control_interface_power_state_set s.intf.interface_id
              PwrState.OFF :: rest ∧
          ∀ c ∈ rest, c.isControl = false)) := by
  constructor
  · intro i bundle hb hst
    refine ⟨?_, ?_, ?_, ?_⟩
    · intro hc
      have h := any_true_of_exists _ _ hc
      simp only [gb_bundle_pm_power_suspend, hb, hst, h]
      simp
    · intro hc
      have h := any_true_of_exists _ _ hc
      simp only [gb_bundle_pm_power_off, hb, hst, h]
      simp
    · intro hc
      rw [gb_bundle_pm_power_suspend_reach env s i bundle hb hst hc]
      split_ifs with hr
      · obtain ⟨rest, h1, h2⟩ := gb_interface_pm_power_suspend_trace env
          ((s.call env (Call.gb_control_bundle_power_state_set s.intf.interface_id
            bundle.id PwrState.SUSPEND)).2.set_bundle_pwr_state i bundle PwrState.SUSPEND)
        refine ⟨0, _, rest, rfl, ?_, h2⟩
        rw [h1]
        simp [PmState.call, PmState.set_bundle_pwr_state]
      · exact ⟨_, _, [], rfl, by simp [PmState.call], by simp⟩
    · intro hc
      rw [gb_bundle_pm_power_off_reach env s i bundle hb hst hc]
      split_ifs with hr
      · obtain ⟨rest, h1, h2⟩ := gb_interface_pm_power_off_trace env
          ((s.call env (Call.gb_control_bundle_power_state_set s.intf.interface_id
            bundle.id PwrState.OFF)).2.set_bundle_pwr_state i bundle PwrState.OFF)
        refine ⟨0, _, rest, rfl, ?_, h2⟩
        rw [h1]
        simp [PmState.call, PmState.set_bundle_pwr_state]
      · exact ⟨_, _, [], rfl, by simp [PmState.call], by simp⟩
  · intro hst
    refine ⟨?_, ?_, ?_, ?_⟩
    · intro hc
      have h := any_true_of_exists _ _ hc
      simp only [gb_interface_pm_power_suspend, hst, h]
      simp
    · intro hc
      have h := any_true_of_exists _ _ hc
      simp only [gb_interface_pm_power_off, hst, h]
      simp
    · intro hc
      rw [gb_interface_pm_power_suspend_reach env s hst hc]
      split_ifs with hr
      · exact ⟨0, _, [Call.gb_svc_intf_refclk_state_set s.intf.interface_id
          GB_SVC_INTF_REFCLK_DISABLE], rfl, by simp, by simp [Call.isControl]⟩
      · exact ⟨_, _, [], rfl, by simp, by simp⟩
    · intro hc
      rw [gb_interface_pm_power_off_reach env s hst hc]
      split_ifs with hr
      · exact ⟨0, _, [Call.gb_svc_intf_refclk_state_set s.intf.interface_id
            GB_SVC_INTF_REFCLK_DISABLE,
          Call.gb_svc_intf_power_state_set s.intf.interface_id
            GB_SVC_INTF_PWR_DISABLE], rfl, by simp, by simp [Call.isControl]⟩
      · exact ⟨_, _, [], rfl, by simp, by simp⟩

/-- Witness of C3: a bundle in ON with a suspended connection vetoes its
power-off, an interface in ON with a bundle in ON vetoes its suspend, and a
bundle in ON whose only connection is OFF issues its SUSPEND request first. -/
theorem veto_rule_on_legal_transition_witness :
    gb_bundle_pm_power_off envOk
        (mkState PwrState.ON [mkBundle PwrState.ON [mkConn PwrState.SUSPEND]]) 0
      = some (0, mkState PwrState.ON [mkBundle PwrState.ON [mkConn PwrState.SUSPEND]]) ∧
    gb_interface_pm_power_suspend envOk (mkState PwrState.ON [mkBundle PwrState.ON []])
      = (0, mkState PwrState.ON [mkBundle PwrState.ON []]) ∧
    ∃ r s' rest, gb_bundle_pm_power_suspend envOk
        (mkState PwrState.ON [mkBundle PwrState.ON [mkConn PwrState.OFF]]) 0 = some (r, s') ∧
      s'.trace = [] ++ Call.gb_control_bundle_power_state_set 3 1 PwrState.SUSPEND :: rest ∧
      ∀ c ∈ rest, c.isBundleReq = false :=
  ⟨((veto_rule_on_legal_transition envOk
        (mkState PwrState.ON [mkBundle PwrState.ON [mkConn PwrState.SUSPEND]])).1 0
        (mkBundle PwrState.ON [mkConn PwrState.SUSPEND]) rfl rfl).2.1
      ⟨mkConn PwrState.SUSPEND, List.Mem.head _, Or.inr rfl⟩,
   ((veto_rule_on_legal_transition envOk
        (mkState PwrState.ON [mkBundle PwrState.ON []])).2 rfl).1
      ⟨mkBundle PwrState.ON [], List.Mem.head _, rfl⟩,
   ((veto_rule_on_legal_transition envOk
        (mkState PwrState.ON [mkBundle PwrState.ON [mkConn PwrState.OFF]])).1 0
        (mkBundle PwrState.ON [mkConn PwrState.OFF]) rfl rfl).2.2.1
      (by simp [mkBundle, mkConn])⟩

/-- C4: idempotence.  Each of the six power operations, called on an entity
that already is in the target state of the operation, returns 0 and leaves the
whole state as it was: no request is added to the trace, and the power states
of the entity, of its interface and of all bundles and connections are
unchanged. -/
theorem power_ops_idempotent (env : Remote) (s : PmState) :
    (∀ i bundle, s.intf.bundles[i]? = some bundle →
      (bundle.pwr_state = PwrState.ON → gb_bundle_pm_power_on env s i = some (0, s)) ∧
      (bundle.pwr_state = PwrState.SUSPEND →
        gb_bundle_pm_power_suspend env s i = some (0, s)) ∧
      (bundle.pwr_state = PwrState.OFF → gb_bundle_pm_power_off env s i = some (0, s))) ∧
    (s.intf.pwr_state = PwrState.ON → gb_interface_pm_power_on env s = (0, s)) ∧
    (s.intf.pwr_state = PwrState.SUSPEND → gb_interface_pm_power_suspend env s = (0, s)) ∧
    (s.intf.pwr_state = PwrState.OFF → gb_interface_pm_power_off env s = (0, s)) := by
  refine ⟨?_, ?_, ?_, ?_⟩
  · intro i bundle hb
    refine ⟨?_, ?_, ?_⟩
    · intro hst
      simp [gb_bundle_pm_power_on, hb, hst]
    · intro hst
      simp [gb_bundle_pm_power_suspend, hb, hst]
    · intro hst
      simp [gb_bundle_pm_power_off, hb, hst]
  · intro hst
    simp [gb_interface_pm_power_on, hst]
  · intro hst
    simp [gb_interface_pm_power_suspend, hst]
  · intro hst
    simp [gb_interface_pm_power_off, hst]

/-- Witness of C4: the six operations on entities already in the target state,
in an environment where every request would fail. -/
theorem power_ops_idempotent_witness :
    gb_bundle_pm_power_on envFail
        (mkState PwrState.OFF [mkBundle PwrState.ON [mkConn PwrState.ON]]) 0
      = some (0, mkState PwrState.OFF [mkBundle PwrState.ON [mkConn PwrState.ON]]) ∧
    gb_bundle_pm_power_suspend envFail
        (mkState PwrState.ON [mkBundle PwrState.SUSPEND [mkConn PwrState.ON]]) 0
      = some (0, mkState PwrState.ON [mkBundle PwrState.SUSPEND [mkConn PwrState.ON]]) ∧
    gb_bundle_pm_power_off envFail
        (mkState PwrState.ON [mkBundle PwrState.OFF [mkConn PwrState.ON]]) 0
      = some (0, mkState PwrState.ON [mkBundle PwrState.OFF [mkConn PwrState.ON]]) ∧
    gb_interface_pm_power_on envFail (mkState PwrState.ON [])
      = (0, mkState PwrState.ON []) ∧
    gb_interface_pm_power_suspend envFail (mkState PwrState.SUSPEND [mkBundle PwrState.ON []])
      = (0, mkState PwrState.SUSPEND [mkBundle PwrState.ON []]) ∧
    gb_interface_pm_power_off envFail (mkState PwrState.OFF [mkBundle PwrState.ON []])
      = (0, mkState PwrState.OFF [mkBundle PwrState.ON []]) :=
  ⟨((power_ops_idempotent envFail
      (mkState PwrState.OFF [mkBundle PwrState.ON [mkConn PwrState.ON]])).1 0
      (mkBundle PwrState.ON [mkConn PwrState.ON]) rfl).1 rfl,
   ((power_ops_idempotent envFail
      (mkState PwrState.ON [mkBundle PwrState.SUSPEND [mkConn PwrState.ON]])).1 0
      (mkBundle PwrState.SUSPEND [mkConn PwrState.ON]) rfl).2.1 rfl,
   ((power_ops_idempotent envFail
      (mkState PwrState.ON [mkBundle PwrState.OFF [mkConn PwrState.ON]])).1 0
      (mkBundle PwrState.OFF [mkConn PwrState.ON]) rfl).2.2 rfl,
   (power_ops_idempotent envFail _).2.1 rfl,
   (power_ops_idempotent envFail _).2.2.1 rfl,
   (power_ops_idempotent envFail _).2.2.2 rfl⟩

/-- C5: for an interface in ON none of whose bundles is ON or SUSPEND, when
the remote set-power-state(OFF) request succeeds, `gb_interface_pm_power_off`
issues exactly the control OFF request, the refclk disable and the power
disable for this interface id, in that order, sets the interface to OFF (and
nothing else) and returns 0, whatever the two fabric requests return. -/
theorem interface_power_off_sequence (env : Remote) (s : PmState)
    (hst : s.intf.pwr_state = PwrState.ON)
    (hc : ∀ b ∈ s.intf.bundles,
      ¬ (b.pwr_state = PwrState.ON ∨ b.pwr_state = PwrState.SUSPEND))
    (hr : env s.trace (Call.gb_control_interface_power_state_set s.intf.interface_id
      PwrState.OFF) = 0) :
    gb_interface_pm_power_off env s =
      (0, { intf := { s.intf with pwr_state := PwrState.OFF },
            trace := s.trace ++
              [Call.gb_control_interface_power_state_set s.intf.interface_id PwrState.OFF,
               Call.gb_svc_intf_refclk_state_set s.intf.interface_id
                 GB_SVC_INTF_REFCLK_DISABLE,
               Call.gb_svc_intf_power_state_set s.intf.interface_id
                 GB_SVC_INTF_PWR_DISABLE] }) := by
  rw [gb_interface_pm_power_off_reach env s hst hc, if_pos hr]

/-- Witness of C5: a fresh interface (ON, no bundles) whose fabric requests
both fail. -/
theorem interface_power_off_sequence_witness :
    gb_interface_pm_power_off envFabricFail (mkState PwrState.ON []) =
      (0, { intf := { (mkState PwrState.ON []).intf with pwr_state := PwrState.OFF },
            trace := [] ++
              [Call.gb_control_interface_power_state_set 3 PwrState.OFF,
               Call.gb_svc_intf_refclk_state_set 3 GB_SVC_INTF_REFCLK_DISABLE,
               Call.gb_svc_intf_power_state_set 3 GB_SVC_INTF_PWR_DISABLE] }) :=
  interface_power_off_sequence envFabricFail (mkState PwrState.ON []) rfl
    (by simp [mkState]) rfl

/-! ## Failures of the remote request -/

/-- C6: for each of the six power operations, when the operation reaches its
own remote set-power-state request and that request fails with error `e`, the
operation returns `e`, the only request it adds after reaching that point is
the failed control request (so an interface issues no fabric request) and the
power state of the entity is what it was before the call. -/
theorem remote_failure_surfaced (env : Remote) (s : PmState) (e : Int) (he : e ≠ 0) :
    (¬ s.intf.pwr_state = PwrState.ON →
      env s.trace (Call.gb_control_interface_power_state_set s.intf.interface_id
        PwrState.ON) = e →
      gb_interface_pm_power_on env s =
        (e, { s with trace := s.trace ++ [Call.gb_control_interface_power_state_set
          s.intf.interface_id PwrState.ON] })) ∧
    (s.intf.pwr_state = PwrState.ON →
      (∀ b ∈ s.intf.bundles, ¬ b.pwr_state = PwrState.ON) →
      env s.trace (Call.gb_control_interface_power_state_set s.intf.interface_id
        PwrState.SUSPEND) = e →
      gb_interface_pm_power_suspend env s =
        (e, { s with trace := s.trace ++ [Call.gb_control_interface_power_state_set
          s.intf.interface_id PwrState.SUSPEND] })) ∧
    (s.intf.pwr_state = PwrState.ON →
      (∀ b ∈ s.intf.bundles,
        ¬ (b.pwr_state = PwrState.ON ∨ b.pwr_state = PwrState.SUSPEND)) →
      env s.trace (Call.gb_control_interface_power_state_set s.intf.interface_id
        PwrState.OFF) = e →
      gb_interface_pm_power_off env s =
        (e, { s with trace := s.trace ++ [Call.gb_control_interface_power_state_set
          s.intf.interface_id PwrState.OFF] })) ∧
    (∀ i bundle, s.intf.bundles[i]? = some bundle →
      (¬ bundle.pwr_state = PwrState.ON →
        ∀ s1, gb_interface_pm_power_on env s = (0, s1) →
        env s1.trace (Call.gb_control_bundle_power_state_set s.intf.interface_id
          bundle.id PwrState.ON) = e →
        gb_bundle_pm_power_on env s i =
          some (e, { s1 with trace := s1.trace ++ [Call.gb_control_bundle_power_state_set
            s.intf.interface_id bundle.id PwrState.ON] }) ∧
        PmState.bundle_pwr_state { s1 with trace := s1.trace ++
            [Call.gb_control_bundle_power_state_set s.intf.interface_id bundle.id
              PwrState.ON] } i = s.bundle_pwr_state i) ∧
      (bundle.pwr_state = PwrState.ON →
        (∀ c ∈ bundle.connections, ¬ c.pwr_state = PwrState.ON) →
        env s.trace (Call.gb_control_bundle_power_state_set s.intf.interface_id
          bundle.id PwrState.SUSPEND) = e →
        gb_bundle_pm_power_suspend env s i =
          some (e, { s with trace := s.trace ++ [Call.gb_control_bundle_power_state_set
            s.intf.interface_id bundle.id PwrState.SUSPEND] })) ∧
      (bundle.pwr_state = PwrState.ON →
        (∀ c ∈ bundle.connections,
          ¬ (c.pwr_state = PwrState.ON ∨ c.pwr_state = PwrState.SUSPEND)) →
        env s.trace (Call.gb_control_bundle_power_state_set s.intf.interface_id
          bundle.id PwrState.OFF) = e →
        gb_bundle_pm_power_off env s i =
          some (e, { s with trace := s.trace ++ [Call.gb_control_bundle_power_state_set
            s.intf.interface_id bundle.id PwrState.OFF] }))) := by
  refine ⟨?_, ?_, ?_, ?_⟩
  · intro hst hr
    rw [gb_interface_pm_power_on_reach env s hst, hr, if_neg he]
  · intro hst hc hr
    rw [gb_interface_pm_power_suspend_reach env s hst hc, hr, if_neg he]
  · intro hst hc hr
    rw [gb_interface_pm_power_off_reach env s hst hc, hr, if_neg he]
  · intro i bundle hb
    refine ⟨?_, ?_, ?_⟩
    · intro hst s1 h1 hr
      have hid : s1.intf.interface_id = s.intf.interface_id := by
        have := (gb_interface_pm_power_on_frame env s).2.1
        rw [h1] at this
        exact this
      have hbs : s1.intf.bundles = s.intf.bundles := by
        have := (gb_interface_pm_power_on_frame env s).1
        rw [h1] at this
        exact this
      constructor
      · rw [gb_bundle_pm_power_on_reach env s i bundle hb hst, h1]
        simp only [hid, hr, if_neg he, if_true, PmState.call]
      · simp [PmState.bundle_pwr_state, hbs]
    · intro hst hc hr
      rw [gb_bundle_pm_power_suspend_reach env s i bundle hb hst hc, hr, if_neg he]
      simp only [PmState.call, hr]
    · intro hst hc hr
      rw [gb_bundle_pm_power_off_reach env s i bundle hb hst hc, hr, if_neg he]
      simp only [PmState.call, hr]

/-- Witness of C6: an interface suspend and a bundle suspend whose own request
fails with `-5`. -/
theorem remote_failure_surfaced_witness :
    gb_interface_pm_power_suspend envFail (mkState PwrState.ON [mkBundle PwrState.OFF []]) =
      (-5, { mkState PwrState.ON [mkBundle PwrState.OFF []] with
        trace := [] ++ [Call.gb_control_interface_power_state_set 3 PwrState.SUSPEND] }) ∧
    gb_bundle_pm_power_suspend envFail (mkState PwrState.ON [mkBundle PwrState.ON []]) 0 =
      some (-5, { mkState PwrState.ON [mkBundle PwrState.ON []] with
        trace := [] ++ [Call.gb_control_bundle_power_state_set 3 1 PwrState.SUSPEND] }) :=
  ⟨(remote_failure_surfaced envFail (mkState PwrState.ON [mkBundle PwrState.OFF []])
      (-5) (by decide)).2.1 rfl (by simp [mkState, mkBundle]) rfl,
   ((remote_failure_surfaced envFail (mkState PwrState.ON [mkBundle PwrState.ON []])
      (-5) (by decide)).2.2.2 0 (mkBundle PwrState.ON []) rfl).2.1 rfl
      (by simp [mkBundle]) rfl⟩

/-- C7, counterexample: interface and bundle both OFF, the interface request
succeeds and the bundle request fails with `-5`.  `gb_bundle_pm_power_on`
returns `-5` and the interface, OFF before the call, is ON after it. -/
theorem bundle_power_on_failure_changes_interface :
    (mkState PwrState.OFF [mkBundle PwrState.OFF []]).intf.pwr_state = PwrState.OFF ∧
    (gb_bundle_pm_power_on envBundleFail
        (mkState PwrState.OFF [mkBundle PwrState.OFF []]) 0).map
      (fun r => (r.1, r.2.intf.pwr_state, r.2.bundle_pwr_state 0, r.2.trace))
      = some (-5, PwrState.ON, some PwrState.OFF,
          [Call.gb_control_interface_power_state_set 3 PwrState.ON,
           Call.gb_control_bundle_power_state_set 3 1 PwrState.ON]) := by
  constructor
  · rfl
  · rw [gb_bundle_pm_power_on_reach envBundleFail
      (mkState PwrState.OFF [mkBundle PwrState.OFF []]) 0 (mkBundle PwrState.OFF []) rfl
      (by simp [mkBundle])]
    rw [gb_interface_pm_power_on_reach envBundleFail
      (mkState PwrState.OFF [mkBundle PwrState.OFF []]) (by simp [mkState])]
    simp [envBundleFail, Call.isBundleReq, mkState, mkBundle, PmState.call,
      PmState.bundle_pwr_state]

/-- C7, amended: `gb_bundle_pm_power_on` always returns, and whenever it
returns an error the power state of the bundle is what it was before the
call; the power state of the owning interface is what it was before when the
interface power-on failed, and is ON when the interface power-on succeeded and
the bundle's own request failed. -/
theorem bundle_power_on_failure_state (env : Remote) (s : PmState) (i : Nat)
    (bundle : gb_bundle) (hb : s.intf.bundles[i]? = some bundle) :
    ∃ r s', gb_bundle_pm_power_on env s i = some (r, s') ∧
      (r ≠ 0 →
        s'.bundle_pwr_state i = s.bundle_pwr_state i ∧
        (¬ (gb_interface_pm_power_on env s).1 = 0 →
          s'.intf.pwr_state = s.intf.pwr_state) ∧
        ((gb_interface_pm_power_on env s).1 = 0 → s'.intf.pwr_state = PwrState.ON)) := by
  by_cases hst : bundle.pwr_state = PwrState.ON
  · exact ⟨0, s, by simp [gb_bundle_pm_power_on, hb, hst], fun h => absurd rfl h⟩
  · rw [gb_bundle_pm_power_on_reach env s i bundle hb hst]
    have hbs := (gb_interface_pm_power_on_frame env s).1
    by_cases h1 : (gb_interface_pm_power_on env s).1 = 0
    · rw [if_pos h1]
      split_ifs with h2
      · exact ⟨0, _, rfl, fun h => absurd rfl h⟩
      · refine ⟨_, _, rfl, fun _ => ⟨?_, fun h => absurd h1 h, fun _ => ?_⟩⟩
        · simp [PmState.bundle_pwr_state, PmState.call, hbs]
        · simpa [PmState.call] using gb_interface_pm_power_on_ok env s h1
    · rw [if_neg h1]
      refine ⟨(gb_interface_pm_power_on env s).1, (gb_interface_pm_power_on env s).2, rfl,
        fun _ => ⟨?_, fun _ => ?_, fun h => absurd h h1⟩⟩
      · simp [PmState.bundle_pwr_state, hbs]
      · rw [gb_interface_pm_power_on_err env s h1]

/-- Witness of the amended C7: a suspended bundle on a suspended interface,
every request failing. -/
theorem bundle_power_on_failure_state_witness :
    ∃ r s', gb_bundle_pm_power_on envFail
        (mkState PwrState.SUSPEND [mkBundle PwrState.SUSPEND []]) 0 = some (r, s') ∧
      (r ≠ 0 →
        s'.bundle_pwr_state 0
          = (mkState PwrState.SUSPEND [mkBundle PwrState.SUSPEND []]).bundle_pwr_state 0 ∧
        (¬ (gb_interface_pm_power_on envFail
            (mkState PwrState.SUSPEND [mkBundle PwrState.SUSPEND []])).1 = 0 →
          s'.intf.pwr_state
            = (mkState PwrState.SUSPEND [mkBundle PwrState.SUSPEND []]).intf.pwr_state) ∧
        ((gb_interface_pm_power_on envFail
            (mkState PwrState.SUSPEND [mkBundle PwrState.SUSPEND []])).1 = 0 →
          s'.intf.pwr_state = PwrState.ON)) :=
  bundle_power_on_failure_state envFail
    (mkState PwrState.SUSPEND [mkBundle PwrState.SUSPEND []]) 0
    (mkBundle PwrState.SUSPEND []) rfl

/-! ## Power-on of a bundle and the courtesy cascade -/

/-- C8: `gb_bundle_pm_power_on` on a bundle that is not ON first powers on the
owning interface.  If the interface is not ON, the new requests start with the
interface's set-power-state(ON) request, followed by nothing or by the
bundle's request.  If the interface power-on fails with `e`, the call returns
`e`, adds only the interface request (no bundle request) and leaves the
bundle's state unchanged.  If the call returns 0, the bundle and its interface
are both ON afterwards. -/
theorem bundle_power_on_powers_interface_first (env : Remote) (s : PmState) (i : Nat)
    (bundle : gb_bundle) (hb : s.intf.bundles[i]? = some bundle)
    (hst : ¬ bundle.pwr_state = PwrState.ON) :
    ∃ r s', gb_bundle_pm_power_on env s i = some (r, s') ∧
      (¬ s.intf.pwr_state = PwrState.ON →
        ∃ rest, s'.trace = s.trace ++
            Call.gb_control_interface_power_state_set s.intf.interface_id PwrState.ON
              :: rest ∧
          (rest = [] ∨ rest = [Call.gb_control_bundle_power_state_set
            s.intf.interface_id bundle.id PwrState.ON])) ∧
      (∀ e, (gb_interface_pm_power_on env s).1 = e → e ≠ 0 →
        r = e ∧
        s'.trace = s.trace ++
          [Call.gb_control_interface_power_state_set s.intf.interface_id PwrState.ON] ∧
        s'.bundle_pwr_state i = s.bundle_pwr_state i) ∧
      (r = 0 → s'.bundle_pwr_state i = some PwrState.ON ∧
        s'.intf.pwr_state = PwrState.ON) := by
  have hi := lt_length_of_getElem? _ _ _ hb
  rw [gb_bundle_pm_power_on_reach env s i bundle hb hst]
  obtain ⟨hbs, hid, htr⟩ := gb_interface_pm_power_on_frame env s
  by_cases h1 : (gb_interface_pm_power_on env s).1 = 0
  · rw [if_pos h1]
    have hon := gb_interface_pm_power_on_ok env s h1
    have htr' : ¬ s.intf.pwr_state = PwrState.ON →
        (gb_interface_pm_power_on env s).2.trace = s.trace ++
          [Call.gb_control_interface_power_state_set s.intf.interface_id PwrState.ON] := by
      intro hs
      rw [gb_interface_pm_power_on_reach env s hs]
      split_ifs <;> rfl
    split_ifs with h2
    · refine ⟨0, _, rfl, ?_, ?_, ?_⟩
      · intro hs
        refine ⟨_, ?_, Or.inr rfl⟩
        simp [PmState.set_bundle_pwr_state, PmState.call, htr' hs, hid]
      · intro e he hne
        exact absurd (h1.symm.trans he).symm hne
      · intro _
        refine ⟨bundle_pwr_state_set _ _ _ _ ?_, ?_⟩
        · simpa [PmState.call, hbs] using hi
        · simpa [PmState.set_bundle_pwr_state, PmState.call] using hon
    · refine ⟨_, _, rfl, ?_, ?_, ?_⟩
      · intro hs
        refine ⟨_, ?_, Or.inr rfl⟩
        simp [PmState.call, htr' hs, hid]
      · intro e he hne
        exact absurd (h1.symm.trans he).symm hne
      · intro h0
        exact absurd h0 h2
  · rw [if_neg h1]
    have herr := gb_interface_pm_power_on_err env s h1
    refine ⟨(gb_interface_pm_power_on env s).1, (gb_interface_pm_power_on env s).2, rfl,
      ?_, ?_, ?_⟩
    · intro _
      exact ⟨[], by rw [herr], Or.inl rfl⟩
    · intro e he _
      refine ⟨he, by rw [herr], ?_⟩
      simp [PmState.bundle_pwr_state, hbs]
    · intro h0
      exact absurd h0 h1

/-- Witness of C8: a powered-off bundle on a powered-off interface, every
request succeeding. -/
theorem bundle_power_on_powers_interface_first_witness :
    ∃ r s', gb_bundle_pm_power_on envOk
        (mkState PwrState.OFF [mkBundle PwrState.OFF []]) 0 = some (r, s') ∧
      (¬ (mkState PwrState.OFF [mkBundle PwrState.OFF []]).intf.pwr_state = PwrState.ON →
        ∃ rest, s'.trace = (mkState PwrState.OFF [mkBundle PwrState.OFF []]).trace ++
            Call.gb_control_interface_power_state_set
              (mkState PwrState.OFF [mkBundle PwrState.OFF []]).intf.interface_id
              PwrState.ON :: rest ∧
          (rest = [] ∨ rest = [Call.gb_control_bundle_power_state_set
            (mkState PwrState.OFF [mkBundle PwrState.OFF []]).intf.interface_id
            (mkBundle PwrState.OFF []).id PwrState.ON])) ∧
      (∀ e, (gb_interface_pm_power_on envOk
          (mkState PwrState.OFF [mkBundle PwrState.OFF []])).1 = e → e ≠ 0 →
        r = e ∧
        s'.trace = (mkState PwrState.OFF [mkBundle PwrState.OFF []]).trace ++
          [Call.gb_control_interface_power_state_set
            (mkState PwrState.OFF [mkBundle PwrState.OFF []]).intf.interface_id
            PwrState.ON] ∧
        s'.bundle_pwr_state 0
          = (mkState PwrState.OFF [mkBundle PwrState.OFF []]).bundle_pwr_state 0) ∧
      (r = 0 → s'.bundle_pwr_state 0 = some PwrState.ON ∧
        s'.intf.pwr_state = PwrState.ON) :=
  bundle_power_on_powers_interface_first envOk
    (mkState PwrState.OFF [mkBundle PwrState.OFF []]) 0 (mkBundle PwrState.OFF []) rfl
    (by simp [mkBundle])

/-- C9: courtesy cascades swallow their errors.  For a bundle in ON with no
vetoing connection whose own request succeeds, `gb_bundle_pm_power_suspend`
returns 0 and leaves the bundle in SUSPEND, and `gb_bundle_pm_power_off`
returns 0 and leaves the bundle in OFF, for every state of the interface and
every environment, hence whatever the attempt on the owning interface gives. -/
theorem courtesy_cascade_swallows_errors (env : Remote) (s : PmState) (i : Nat)
    (bundle : gb_bundle) (hb : s.intf.bundles[i]? = some bundle)
    (hst : bundle.pwr_state = PwrState.ON) :
    ((∀ c ∈ bundle.connections, ¬ c.pwr_state = PwrState.ON) →
      env s.trace (Call.gb_control_bundle_power_state_set s.intf.interface_id
        bundle.id PwrState.SUSPEND) = 0 →
      ∃ s', gb_bundle_pm_power_suspend env s i = some (0, s') ∧
        s'.bundle_pwr_state i = some PwrState.SUSPEND) ∧
    ((∀ c ∈ bundle.connections,
        ¬ (c.pwr_state = PwrState.ON ∨ c.pwr_state = PwrState.SUSPEND)) →
      env s.trace (Call.gb_control_bundle_power_state_set s.intf.interface_id
        bundle.id PwrState.OFF) = 0 →
      ∃ s', gb_bundle_pm_power_off env s i = some (0, s') ∧
        s'.bundle_pwr_state i = some PwrState.OFF) := by
  have hi := lt_length_of_getElem? _ _ _ hb
  constructor
  · intro hc hr
    rw [gb_bundle_pm_power_suspend_reach env s i bundle hb hst hc, if_pos hr]
    refine ⟨_, rfl, ?_⟩
    have h := bundle_pwr_state_set (s.call env (Call.gb_control_bundle_power_state_set
      s.intf.interface_id bundle.id PwrState.SUSPEND)).2 i bundle PwrState.SUSPEND
      (by simpa [PmState.call] using hi)
    rw [← h]
    simp only [PmState.bundle_pwr_state, (gb_interface_pm_power_suspend_frame env _).1]
  · intro hc hr
    rw [gb_bundle_pm_power_off_reach env s i bundle hb hst hc, if_pos hr]
    refine ⟨_, rfl, ?_⟩
    have h := bundle_pwr_state_set (s.call env (Call.gb_control_bundle_power_state_set
      s.intf.interface_id bundle.id PwrState.OFF)).2 i bundle PwrState.OFF
      (by simpa [PmState.call] using hi)
    rw [← h]
    simp only [PmState.bundle_pwr_state, (gb_interface_pm_power_off_frame env _).1]

/-- Witness of C9: a bundle in ON on an interface in OFF (the courtesy suspend
of the interface is an invalid transition), and a bundle in ON on an
interface in SUSPEND (the courtesy power-off is an invalid transition). -/
theorem courtesy_cascade_swallows_errors_witness :
    (gb_interface_pm_power_suspend envOk (mkState PwrState.OFF [mkBundle PwrState.SUSPEND []])).1
      = -1 ∧
    (∃ s', gb_bundle_pm_power_suspend envOk (mkState PwrState.OFF [mkBundle PwrState.ON []]) 0
        = some (0, s') ∧ s'.bundle_pwr_state 0 = some PwrState.SUSPEND) ∧
    (∃ s', gb_bundle_pm_power_off envOk (mkState PwrState.SUSPEND [mkBundle PwrState.ON []]) 0
        = some (0, s') ∧ s'.bundle_pwr_state 0 = some PwrState.OFF) :=
  ⟨rfl,
   (courtesy_cascade_swallows_errors envOk (mkState PwrState.OFF [mkBundle PwrState.ON []]) 0
      (mkBundle PwrState.ON []) rfl rfl).1 (by simp [mkBundle]) rfl,
   (courtesy_cascade_swallows_errors envOk (mkState PwrState.SUSPEND [mkBundle PwrState.ON []])
      0 (mkBundle PwrState.ON []) rfl rfl).2 (by simp [mkBundle]) rfl⟩

/-! ## The hierarchical power invariant -/

/-- C10: with the order OFF < SUSPEND < ON, the invariant "every connection is
at most as powered as its bundle and every bundle at most as powered as its
interface" is preserved by each of the six power operations, for every
environment (every outcome of the remote and fabric requests), the courtesy
cascade from a bundle to its interface included; the bundle operations return
for every bundle of the interface. -/
theorem power_invariant_preserved (env : Remote) (s : PmState) (h : PowerInv s.intf) :
    PowerInv (gb_interface_pm_power_on env s).2.intf ∧
    PowerInv (gb_interface_pm_power_suspend env s).2.intf ∧
    PowerInv (gb_interface_pm_power_off env s).2.intf ∧
    ∀ i, i < s.intf.bundles.length →
      (∃ r s', gb_bundle_pm_power_on env s i = some (r, s') ∧ PowerInv s'.intf) ∧
      (∃ r s', gb_bundle_pm_power_suspend env s i = some (r, s') ∧ PowerInv s'.intf) ∧
      (∃ r s', gb_bundle_pm_power_off env s i = some (r, s') ∧ PowerInv s'.intf) := by
  refine ⟨PowerInv_interface_power_on env s h, PowerInv_interface_power_suspend env s h,
    PowerInv_interface_power_off env s h, ?_⟩
  intro i hi
  obtain ⟨bundle, hb⟩ : ∃ bundle, s.intf.bundles[i]? = some bundle :=
    ⟨_, List.getElem?_eq_getElem hi⟩
  have hmem : bundle ∈ s.intf.bundles := List.getElem?_mem hb
  refine ⟨?_, ?_, ?_⟩
  · by_cases hst : bundle.pwr_state = PwrState.ON
    · exact ⟨0, s, by simp [gb_bundle_pm_power_on, hb, hst], h⟩
    · rw [gb_bundle_pm_power_on_reach env s i bundle hb hst]
      have h1 := PowerInv_interface_power_on env s h
      by_cases hr : (gb_interface_pm_power_on env s).1 = 0
      · rw [if_pos hr]
        have hon := gb_interface_pm_power_on_ok env s hr
        split_ifs
        · refine ⟨0, _, rfl, ?_⟩
          apply PowerInv_set_bundle
          · simpa [PmState.call] using h1
          · simp [PmState.call, hon, PwrState.rank]
          · intro c _
            exact rank_le_two _
        · exact ⟨_, _, rfl, by simpa [PmState.call] using h1⟩
      · rw [if_neg hr]
        exact ⟨(gb_interface_pm_power_on env s).1, (gb_interface_pm_power_on env s).2,
          rfl, h1⟩
  · cases hst : bundle.pwr_state with
    | OFF => exact ⟨-1, s, by simp [gb_bundle_pm_power_suspend, hb, hst], h⟩
    | SUSPEND => exact ⟨0, s, by simp [gb_bundle_pm_power_suspend, hb, hst], h⟩
    | ON =>
      by_cases hc : ∃ c ∈ bundle.connections, c.pwr_state = PwrState.ON
      · exact ⟨0, s, gb_bundle_pm_power_suspend_veto env s i bundle hb hst hc, h⟩
      · have hc' : ∀ c ∈ bundle.connections, ¬ c.pwr_state = PwrState.ON :=
          fun c hm hon => hc ⟨c, hm, hon⟩
        rw [gb_bundle_pm_power_suspend_reach env s i bundle hb hst hc']
        split_ifs
        · refine ⟨0, _, rfl, ?_⟩
          apply PowerInv_interface_power_suspend
          apply PowerInv_set_bundle
          · simpa [PmState.call] using h
          · have := (h bundle hmem).1
            rw [hst] at this
            simp only [PmState.call]
            exact le_trans (by simp [PwrState.rank]) this
          · intro c hm
            exact rank_le_one _ (hc' c hm)
        · exact ⟨_, _, rfl, by simpa [PmState.call] using h⟩
  · cases hst : bundle.pwr_state with
    | OFF => exact ⟨0, s, by simp [gb_bundle_pm_power_off, hb, hst], h⟩
    | SUSPEND => exact ⟨-1, s, by simp [gb_bundle_pm_power_off, hb, hst], h⟩
    | ON =>
      by_cases hc : ∃ c ∈ bundle.connections,
          c.pwr_state = PwrState.ON ∨ c.pwr_state = PwrState.SUSPEND
      · exact ⟨0, s, gb_bundle_pm_power_off_veto env s i bundle hb hst hc, h⟩
      · have hc' : ∀ c ∈ bundle.connections,
            ¬ (c.pwr_state = PwrState.ON ∨ c.pwr_state = PwrState.SUSPEND) :=
          fun c hm hon => hc ⟨c, hm, hon⟩
        rw [gb_bundle_pm_power_off_reach env s i bundle hb hst hc']
        split_ifs
        · refine ⟨0, _, rfl, ?_⟩
          apply PowerInv_interface_power_off
          apply PowerInv_set_bundle
          · simpa [PmState.call] using h
          · simp [PwrState.rank]
          · intro c hm
            exact rank_le_zero _ (hc' c hm)
        · exact ⟨_, _, rfl, by simpa [PmState.call] using h⟩

/-- Witness of C10: an interface in ON with two bundles in ON (connections
OFF and SUSPEND) and one in SUSPEND, every request succeeding. -/
theorem power_invariant_preserved_witness :
    PowerInv (mkState PwrState.ON [mkBundle PwrState.ON [mkConn PwrState.OFF],
      mkBundle PwrState.ON [mkConn PwrState.SUSPEND],
      mkBundle PwrState.SUSPEND [mkConn PwrState.OFF]]).intf ∧
    ∃ r s', gb_bundle_pm_power_suspend envOk
        (mkState PwrState.ON [mkBundle PwrState.ON [mkConn PwrState.OFF],
          mkBundle PwrState.ON [mkConn PwrState.SUSPEND],
          mkBundle PwrState.SUSPEND [mkConn PwrState.OFF]]) 1 = some (r, s') ∧
      PowerInv s'.intf :=
  ⟨by decide,
   ((power_invariant_preserved envOk
      (mkState PwrState.ON [mkBundle PwrState.ON [mkConn PwrState.OFF],
        mkBundle PwrState.ON [mkConn PwrState.SUSPEND],
        mkBundle PwrState.SUSPEND [mkConn PwrState.OFF]]) (by decide)).2.2.2 1
      (by decide)).2.1⟩

/-! ## Creation of bundles and interfaces -/

/-- A lookup by id succeeds exactly when a bundle of the list has that id. -/
theorem gb_bundle_find_isSome (intf : gb_interface) (bundle_id : Nat) :
    (gb_bundle_find intf bundle_id).isSome = true ↔ ∃ b ∈ intf.bundles, b.id = bundle_id := by
  simp [gb_bundle_find]

/-- Result of `gb_bundle_create` for an id that is already present. -/
theorem gb_bundle_create_dup (env : Remote) (s : PmState) (bundle_id bundle_class : Nat)
    (h : ∃ b ∈ s.intf.bundles, b.id = bundle_id % 256) :
    gb_bundle_create env s bundle_id bundle_class = (none, s) := by
  have h1 := (gb_bundle_find_isSome s.intf (bundle_id % 256)).mpr h
  simp only [gb_bundle_create, h1, if_true]

/-- Result of `gb_bundle_create` for an id that is not present. -/
theorem gb_bundle_create_fresh (env : Remote) (s : PmState) (bundle_id bundle_class : Nat)
    (h : ∀ b ∈ s.intf.bundles, ¬ b.id = bundle_id % 256) :
    gb_bundle_create env s bundle_id bundle_class =
      if env s.trace (Call.kzalloc Alloc.gb_bundle) = 0 then
        (none, { s with trace := s.trace ++ [Call.kzalloc Alloc.gb_bundle] })
      else
        (some (new_bundle (bundle_id, bundle_class)),
         { intf := { s.intf with
             bundles := new_bundle (bundle_id, bundle_class) :: s.intf.bundles },
           trace := s.trace ++ [Call.kzalloc Alloc.gb_bundle] }) := by
  have h1 : (gb_bundle_find s.intf (bundle_id % 256)).isSome = false := by
    rw [Bool.eq_false_iff, ne_eq, gb_bundle_find_isSome]
    rintro ⟨b, hb, hid⟩
    exact h b hb hid
  simp only [gb_bundle_create, h1, PmState.call, new_bundle]
  split_ifs <;> simp_all

/-- C11: a duplicate bundle id is rejected.  When the bundle list of the
interface holds a bundle with id `N` (a `u8`), `gb_bundle_create` with id `N`
returns `NULL` for every class and leaves the whole state, so the bundle list,
unchanged.  And if the ids of the bundles are pairwise distinct before a call
to `gb_bundle_create`, they are pairwise distinct after it, whether the call
succeeds or fails. -/
theorem duplicate_bundle_id_rejected (env : Remote) (s : PmState) :
    (∀ N bundle_class, N < 256 → (∃ b ∈ s.intf.bundles, b.id = N) →
      gb_bundle_create env s N bundle_class = (none, s)) ∧
    (∀ bundle_id bundle_class,
      (s.intf.bundles.map (fun b => b.id)).Nodup →
      ((gb_bundle_create env s bundle_id bundle_class).2.intf.bundles.map
        (fun b => b.id)).Nodup) := by
  constructor
  · intro N bundle_class hN h
    apply gb_bundle_create_dup
    rwa [Nat.mod_eq_of_lt hN]
  · intro bundle_id bundle_class hnd
    by_cases h : ∃ b ∈ s.intf.bundles, b.id = bundle_id % 256
    · rw [gb_bundle_create_dup env s bundle_id bundle_class h]
      exact hnd
    · have h' : ∀ b ∈ s.intf.bundles, ¬ b.id = bundle_id % 256 :=
        fun b hb hid => h ⟨b, hb, hid⟩
      rw [gb_bundle_create_fresh env s bundle_id bundle_class h']
      split_ifs
      · exact hnd
      · simp only [List.map_cons, List.nodup_cons]
        refine ⟨?_, hnd⟩
        intro hmem
        obtain ⟨b, hb, hid⟩ := List.mem_map.mp hmem
        exact h' b hb hid

/-- Witness of C11: on an interface that holds bundle 1, a second bundle 1 is
refused, and creating bundle 2 keeps the ids distinct. -/
theorem duplicate_bundle_id_rejected_witness :
    gb_bundle_create envAlloc (mkState PwrState.ON [mkBundle PwrState.ON []]) 1 7
      = (none, mkState PwrState.ON [mkBundle PwrState.ON []]) ∧
    ((gb_bundle_create envAlloc (mkState PwrState.ON [mkBundle PwrState.ON []]) 2 7).2.intf.bundles.map
      (fun b => b.id)).Nodup :=
  ⟨(duplicate_bundle_id_rejected envAlloc (mkState PwrState.ON [mkBundle PwrState.ON []])).1
      1 7 (by decide) ⟨mkBundle PwrState.ON [], List.Mem.head _, rfl⟩,
   (duplicate_bundle_id_rejected envAlloc (mkState PwrState.ON [mkBundle PwrState.ON []])).2
      2 7 (by simp [mkState, mkBundle])⟩

/-- C12: creation postconditions.  When `gb_bundle_create` succeeds (the id is
not present and the allocation succeeds), the new bundle has the given id and
class, power state ON and no connections, and the bundle list of the interface
is the old list with the new bundle added at its head, which is how the model
holds the back-link to the interface.  When `gb_interface_create` succeeds
(the allocation and the creation of the control endpoint succeed), the new
interface has the given id, power state ON, device id `GB_DEVICE_ID_BAD` and
no bundles. -/
theorem creation_postconditions (env : Remote) :
    (∀ (s : PmState) (bundle_id bundle_class : Nat),
      bundle_id < 256 → bundle_class < 256 →
      (∀ b ∈ s.intf.bundles, ¬ b.id = bundle_id) →
      ¬ env s.trace (Call.kzalloc Alloc.gb_bundle) = 0 →
      gb_bundle_create env s bundle_id bundle_class =
        (some { id := bundle_id, bundle_class := bundle_class,
                pwr_state := PwrState.ON, connections := [] },
         { intf := { s.intf with bundles :=
             { id := bundle_id, bundle_class := bundle_class,
               pwr_state := PwrState.ON, connections := [] } :: s.intf.bundles },
           trace := s.trace ++ [Call.kzalloc Alloc.gb_bundle] })) ∧
    (∀ (trace t2 : List Call) (interface_id : Nat),
      interface_id < 256 →
      ¬ env trace (Call.kzalloc Alloc.gb_interface) = 0 →
      gb_control_create env (trace ++ [Call.kzalloc Alloc.gb_interface]) interface_id
        = (true, t2) →
      gb_interface_create env trace interface_id =
        (some { interface_id := interface_id, device_id := GB_DEVICE_ID_BAD,
                version_major := 0, version_minor := 0,
                boot_over_unipro := false, disconnected := false,
                pwr_state := PwrState.ON, bundles := [] }, t2)) := by
  constructor
  · intro s bundle_id bundle_class hid hcl hfresh halloc
    have h' : ∀ b ∈ s.intf.bundles, ¬ b.id = bundle_id % 256 := by
      rwa [Nat.mod_eq_of_lt hid]
    rw [gb_bundle_create_fresh env s bundle_id bundle_class h', if_neg halloc]
    simp [new_bundle, Nat.mod_eq_of_lt hid, Nat.mod_eq_of_lt hcl]
  · intro trace t2 interface_id hid halloc hctl
    simp only [gb_interface_create, Nat.mod_eq_of_lt hid, halloc, hctl, if_false]
    simp

/-- Witness of C12: bundle 2 of class 7 created on an interface that holds
bundle 1, and interface 5 created from nothing. -/
theorem creation_postconditions_witness :
    gb_bundle_create envAlloc (mkState PwrState.ON [mkBundle PwrState.ON []]) 2 7 =
      (some { id := 2, bundle_class := 7, pwr_state := PwrState.ON, connections := [] },
       { intf := { (mkState PwrState.ON [mkBundle PwrState.ON []]).intf with bundles :=
           { id := 2, bundle_class := 7, pwr_state := PwrState.ON, connections := [] }
             :: (mkState PwrState.ON [mkBundle PwrState.ON []]).intf.bundles },
         trace := (mkState PwrState.ON [mkBundle PwrState.ON []]).trace
           ++ [Call.kzalloc Alloc.gb_bundle] }) ∧
    gb_interface_create envAlloc [] 5 =
      (some { interface_id := 5, device_id := GB_DEVICE_ID_BAD,
              version_major := 0, version_minor := 0,
              boot_over_unipro := false, disconnected := false,
              pwr_state := PwrState.ON, bundles := [] },
       [Call.kzalloc Alloc.gb_interface, Call.kzalloc Alloc.gb_control,
        Call.gb_connection_create_dynamic 5]) :=
  ⟨(creation_postconditions envAlloc).1 (mkState PwrState.ON [mkBundle PwrState.ON []]) 2 7
      (by decide) (by decide) (by simp [mkState, mkBundle]) (by simp [envAlloc]),
   (creation_postconditions envAlloc).2 [] _ 5 (by decide) (by simp [envAlloc]) rfl⟩

/-! ## Enumeration: building blocks -/

/-- Closed form of `gb_bundle_destroy`. -/
theorem gb_bundle_destroy_eq (env : Remote) (s : PmState) (i : Nat) (bundle : gb_bundle) :
    gb_bundle_destroy env s i bundle =
      { intf := { s.intf with bundles := s.intf.bundles.eraseIdx i },
        trace := s.trace ++
          (if env s.trace (Call.device_is_registered
              (Dev.bundle s.intf.interface_id bundle.id)) = 0 then
            [Call.device_is_registered (Dev.bundle s.intf.interface_id bundle.id),
             Call.put_device (Dev.bundle s.intf.interface_id bundle.id)]
          else
            [Call.device_is_registered (Dev.bundle s.intf.interface_id bundle.id),
             Call.device_del (Dev.bundle s.intf.interface_id bundle.id),
             Call.put_device (Dev.bundle s.intf.interface_id bundle.id)]) } := by
  simp only [gb_bundle_destroy, PmState.call]
  split_ifs <;> simp_all

/-- The destroy loop removes the bundles it visits, touches nothing else of the
interface, and adds only destruction calls, one release per visited bundle in
list order. -/
theorem gb_interface_destroy_bundles_spec (env : Remote) :
    ∀ (l back : List gb_bundle) (s : PmState), s.intf.bundles = l ++ back →
      ∃ D, gb_interface_destroy_bundles env l s =
          { intf := { s.intf with bundles := back }, trace := s.trace ++ D } ∧
        (∀ c ∈ D, c.isDestroy = true) ∧
        D.filter Call.isBundlePut =
          l.map (fun b => Call.put_device (Dev.bundle s.intf.interface_id b.id)) := by
  intro l
  induction l with
  | nil =>
    intro back s h
    refine ⟨[], ?_, by simp, by simp⟩
    simp only [gb_interface_destroy_bundles, List.append_nil]
    rw [← List.nil_append back, ← h]
  | cons b rest ih =>
    intro back s h
    have hstep := gb_bundle_destroy_eq env s 0 b
    obtain ⟨D, hD, hall, hput⟩ := ih back (gb_bundle_destroy env s 0 b)
      (by rw [hstep, h]; simp)
    rw [gb_interface_destroy_bundles, hD, hstep]
    by_cases hreg : env s.trace (Call.device_is_registered
        (Dev.bundle s.intf.interface_id b.id)) = 0
    · refine ⟨[Call.device_is_registered (Dev.bundle s.intf.interface_id b.id),
        Call.put_device (Dev.bundle s.intf.interface_id b.id)] ++ D, ?_, ?_, ?_⟩
      · simp [hreg]
      · intro c hc
        rcases List.mem_append.mp hc with hc | hc
        · simp at hc
          rcases hc with hc | hc <;> simp [hc, Call.isDestroy]
        · exact hall c hc
      · rw [hstep] at hput
        simp [List.filter_cons, Call.isBundlePut, hput]
    · refine ⟨[Call.device_is_registered (Dev.bundle s.intf.interface_id b.id),
        Call.device_del (Dev.bundle s.intf.interface_id b.id),
        Call.put_device (Dev.bundle s.intf.interface_id b.id)] ++ D, ?_, ?_, ?_⟩
      · simp [hreg]
      · intro c hc
        rcases List.mem_append.mp hc with hc | hc
        · simp at hc
          rcases hc with hc | hc | hc <;> simp [hc, Call.isDestroy]
        · exact hall c hc
      · rw [hstep] at hput
        simp [List.filter_cons, Call.isBundlePut, hput]

/-- Closed form of `gb_control_enable`. -/
theorem gb_control_enable_eq (env : Remote) (s : PmState) :
    gb_control_enable env s =
      (env s.trace (Call.gb_connection_legacy_init s.intf.interface_id),
       { s with trace := s.trace ++ [Call.gb_connection_legacy_init s.intf.interface_id] }) := by
  simp only [gb_control_enable, PmState.call]
  split_ifs <;> simp_all

/-- The size query adds its one request and touches nothing else. -/
theorem gb_control_get_manifest_size_operation_state (env : Env) (s : PmState) :
    (gb_control_get_manifest_size_operation env s).2 =
      { s with trace := s.trace ++ [Call.gb_operation_sync s.intf.interface_id
          ControlType.GB_CONTROL_TYPE_GET_MANIFEST_SIZE 2] } := by
  simp only [gb_control_get_manifest_size_operation, gb_operation_sync]
  split_ifs <;> rfl

/-- The version query returns 0, keeps the bundles, the id, the device id and
the power state, and adds at most its one request. -/
theorem gb_control_get_interface_version_operation_frame (env : Env) (s : PmState) :
    (gb_control_get_interface_version_operation env s).1 = 0 ∧
    (gb_control_get_interface_version_operation env s).2.intf.bundles = s.intf.bundles ∧
    (gb_control_get_interface_version_operation env s).2.intf.interface_id
      = s.intf.interface_id ∧
    (gb_control_get_interface_version_operation env s).2.intf.device_id
      = s.intf.device_id ∧
    (gb_control_get_interface_version_operation env s).2.intf.pwr_state
      = s.intf.pwr_state ∧
    (gb_control_get_interface_version_operation env s).2.trace =
      s.trace ++ (if s.intf.boot_over_unipro then [] else
        [Call.gb_operation_sync s.intf.interface_id
          ControlType.GB_CONTROL_TYPE_INTERFACE_VERSION 4]) := by
  simp only [gb_control_get_interface_version_operation, gb_operation_sync]
  split_ifs <;> simp_all

/-- The unwinding from `err_destroy_bundles`: every bundle of the list is
destroyed, then the control endpoint is disabled once. -/
theorem gb_interface_enable_err_destroy_bundles_spec (env : Env) (ret : Int) (s : PmState) :
    ∃ D, gb_interface_enable_err_destroy_bundles env ret s =
        (ret, { intf := { s.intf with bundles := [] },
                trace := s.trace ++ D ++
                  [Call.gb_connection_legacy_exit s.intf.interface_id] }) ∧
      (∀ c ∈ D, c.isDestroy = true) ∧
      D.filter Call.isBundlePut =
        s.intf.bundles.map (fun b => Call.put_device (Dev.bundle s.intf.interface_id b.id)) := by
  obtain ⟨D, hD, hall, hput⟩ :=
    gb_interface_destroy_bundles_spec env.remote s.intf.bundles [] s (by simp)
  refine ⟨D, ?_, hall, hput⟩
  simp only [gb_interface_enable_err_destroy_bundles, gb_interface_enable_err_free_manifest,
    gb_interface_enable_err_disable_control, gb_control_disable, PmState.call, hD]

/-- A list of destruction calls holds no disable of the control endpoint. -/
theorem count_exit_of_isDestroy (D : List Call) (interface_id : Nat)
    (h : ∀ c ∈ D, c.isDestroy = true) :
    D.count (Call.gb_connection_legacy_exit interface_id) = 0 := by
  rw [List.count_eq_zero]
  intro hm
  have := h _ hm
  simp [Call.isDestroy] at this

/-- The state in which `gb_interface_enable` calls the manifest decoder. -/
theorem gb_interface_enable_before_parse (env : Env) (s s1 s2 s3 s4 : PmState)
    (size p : Int) (manifest : List Nat)
    (h1 : gb_control_enable env.remote s = (0, s1))
    (h2 : gb_control_get_manifest_size_operation env s1 = (size, s2))
    (h3 : s2.call env.remote (Call.kmalloc size.toNat) = (p, s3))
    (h4 : gb_control_get_manifest_operation env s3 size.toNat = (0, manifest, s4)) :
    s4 = { s with trace := s.trace ++
      [Call.gb_connection_legacy_init s.intf.interface_id,
       Call.gb_operation_sync s.intf.interface_id
         ControlType.GB_CONTROL_TYPE_GET_MANIFEST_SIZE 2,
       Call.kmalloc size.toNat,
       Call.gb_operation_sync s.intf.interface_id
         ControlType.GB_CONTROL_TYPE_GET_MANIFEST size.toNat] } := by
  have e1 := gb_control_enable_eq env.remote s
  rw [h1] at e1
  have e2 := gb_control_get_manifest_size_operation_state env s1
  rw [h2] at e2
  simp only [PmState.call] at h3
  simp only [gb_control_get_manifest_operation, gb_operation_sync] at h4
  have hs1 := (Prod.mk.inj e1).2
  have hs3 := (Prod.mk.inj h3).2
  have hs4 := (Prod.mk.inj (Prod.mk.inj h4).2).2
  simp only at e2
  subst hs4 hs3 e2 hs1
  simp

/-- The run of `gb_interface_enable` once the manifest has been fetched. -/
theorem gb_interface_enable_from_parse (env : Env) (s s1 s2 s3 s4 : PmState)
    (size p : Int) (manifest : List Nat)
    (h1 : gb_control_enable env.remote s = (0, s1))
    (h2 : gb_control_get_manifest_size_operation env s1 = (size, s2)) (hsize : 0 < size)
    (h3 : s2.call env.remote (Call.kmalloc size.toNat) = (p, s3)) (hp : p ≠ 0)
    (h4 : gb_control_get_manifest_operation env s3 size.toNat = (0, manifest, s4)) :
    gb_interface_enable env s =
      if (gb_manifest_parse env s4 manifest size.toNat).1 = false then
        gb_interface_enable_err_destroy_bundles env (-EINVAL)
          (gb_manifest_parse env s4 manifest size.toNat).2
      else if (((gb_control_get_interface_version_operation env
          (gb_manifest_parse env s4 manifest size.toNat).2).2.call env.remote
          (Call.gb_control_get_bundle_versions s.intf.interface_id)).1) = 0 then
        (0, ((gb_control_get_interface_version_operation env
          (gb_manifest_parse env s4 manifest size.toNat).2).2.call env.remote
          (Call.gb_control_get_bundle_versions s.intf.interface_id)).2)
      else
        gb_interface_enable_err_destroy_bundles env
          (((gb_control_get_interface_version_operation env
            (gb_manifest_parse env s4 manifest size.toNat).2).2.call env.remote
            (Call.gb_control_get_bundle_versions s.intf.interface_id)).1)
          (((gb_control_get_interface_version_operation env
            (gb_manifest_parse env s4 manifest size.toNat).2).2.call env.remote
            (Call.gb_control_get_bundle_versions s.intf.interface_id)).2) := by
  have hs4 := gb_interface_enable_before_parse env s s1 s2 s3 s4 size p manifest h1 h2 h3 h4
  have hv := gb_control_get_interface_version_operation_frame env
    (gb_manifest_parse env s4 manifest size.toNat).2
  have hid : (gb_control_get_interface_version_operation env
      (gb_manifest_parse env s4 manifest size.toNat).2).2.intf.interface_id
        = s.intf.interface_id := by
    rw [hv.2.2.1, hs4]
    rfl
  have hsz : ¬ size ≤ 0 := not_le.mpr hsize
  simp only [gb_interface_enable, h1, h2, h3, h4, hsz, hp, hv.1, hid]
  split_ifs <;> simp_all

/-! ## Failures of enumeration -/

/-- C13: enumeration failure leaves no bundles.  Once the manifest has been
fetched: if the decoder fails (whatever bundle list it leaves),
`gb_interface_enable` returns `-EINVAL`, which is not 0; if the decoder
succeeds and the bundle-version query fails with `e`, it returns `e`.  In both
cases the bundle list of the interface is empty afterwards and the calls added
hold exactly one disable of the control endpoint. -/
theorem enumeration_failure_leaves_no_bundles (env : Env) (s s1 s2 s3 s4 : PmState)
    (size p : Int) (manifest : List Nat)
    (h1 : gb_control_enable env.remote s = (0, s1))
    (h2 : gb_control_get_manifest_size_operation env s1 = (size, s2)) (hsize : 0 < size)
    (h3 : s2.call env.remote (Call.kmalloc size.toNat) = (p, s3)) (hp : p ≠ 0)
    (h4 : gb_control_get_manifest_operation env s3 size.toNat = (0, manifest, s4)) :
    (∀ s5, gb_manifest_parse env s4 manifest size.toNat = (false, s5) →
      ∃ s' delta, gb_interface_enable env s = (-EINVAL, s') ∧ -EINVAL ≠ 0 ∧
        s'.intf.bundles = [] ∧ s'.trace = s.trace ++ delta ∧
        delta.count (Call.gb_connection_legacy_exit s.intf.interface_id) = 1) ∧
    (∀ s5 s6 s7 e, gb_manifest_parse env s4 manifest size.toNat = (true, s5) →
      gb_control_get_interface_version_operation env s5 = (0, s6) →
      s6.call env.remote (Call.gb_control_get_bundle_versions s.intf.interface_id)
        = (e, s7) →
      e ≠ 0 →
      ∃ s' delta, gb_interface_enable env s = (e, s') ∧
        s'.intf.bundles = [] ∧ s'.trace = s.trace ++ delta ∧
        delta.count (Call.gb_connection_legacy_exit s.intf.interface_id) = 1) := by
  have hs4 := gb_interface_enable_before_parse env s s1 s2 s3 s4 size p manifest h1 h2 h3 h4
  have hrun := gb_interface_enable_from_parse env s s1 s2 s3 s4 size p manifest
    h1 h2 hsize h3 hp h4
  constructor
  · intro s5 h5
    rw [h5] at hrun
    simp only [if_true] at hrun
    obtain ⟨D, hD, hall, -⟩ := gb_interface_enable_err_destroy_bundles_spec env (-EINVAL) s5
    have hs5 : s5.trace = s4.trace ++ [Call.gb_manifest_parse s4.intf.interface_id size.toNat]
        ∧ s5.intf.interface_id = s4.intf.interface_id := by
      simp only [gb_manifest_parse] at h5
      have := (Prod.mk.inj h5).2
      subst this
      exact ⟨rfl, rfl⟩
    have hid : s5.intf.interface_id = s.intf.interface_id := by
      rw [hs5.2, hs4]
    refine ⟨_, [Call.gb_connection_legacy_init s.intf.interface_id,
        Call.gb_operation_sync s.intf.interface_id
          ControlType.GB_CONTROL_TYPE_GET_MANIFEST_SIZE 2,
        Call.kmalloc size.toNat,
        Call.gb_operation_sync s.intf.interface_id
          ControlType.GB_CONTROL_TYPE_GET_MANIFEST size.toNat,
        Call.gb_manifest_parse s.intf.interface_id size.toNat] ++ D ++
        [Call.gb_connection_legacy_exit s.intf.interface_id],
      hrun.trans hD, by decide, rfl, ?_, ?_⟩
    · simp only [hs5.1, hs4, hid, List.append_assoc]
      simp
    · simp [List.count_cons, count_exit_of_isDestroy D _ hall]
  · intro s5 s6 s7 e h5 h6 h7 he
    rw [h5, h6, h7] at hrun
    simp only [he, if_false, Bool.true_eq_false] at hrun
    obtain ⟨D, hD, hall, -⟩ := gb_interface_enable_err_destroy_bundles_spec env e s7
    have hs5 : s5.trace = s4.trace ++ [Call.gb_manifest_parse s4.intf.interface_id size.toNat]
        ∧ s5.intf.interface_id = s4.intf.interface_id := by
      simp only [gb_manifest_parse] at h5
      have := (Prod.mk.inj h5).2
      subst this
      exact ⟨rfl, rfl⟩
    have hv := gb_control_get_interface_version_operation_frame env s5
    rw [h6] at hv
    simp only at hv
    have hs7 : s7 = { s6 with trace := s6.trace ++
        [Call.gb_control_get_bundle_versions s.intf.interface_id] } := by
      simp only [PmState.call] at h7
      exact (Prod.mk.inj h7).2.symm
    have hid : s7.intf.interface_id = s.intf.interface_id := by
      rw [hs7]
      simp only
      rw [hv.2.2.1, hs5.2, hs4]
    refine ⟨_, [Call.gb_connection_legacy_init s.intf.interface_id,
        Call.gb_operation_sync s.intf.interface_id
          ControlType.GB_CONTROL_TYPE_GET_MANIFEST_SIZE 2,
        Call.kmalloc size.toNat,
        Call.gb_operation_sync s.intf.interface_id
          ControlType.GB_CONTROL_TYPE_GET_MANIFEST size.toNat,
        Call.gb_manifest_parse s.intf.interface_id size.toNat] ++
        (if s5.intf.boot_over_unipro then [] else
          [Call.gb_operation_sync s5.intf.interface_id
            ControlType.GB_CONTROL_TYPE_INTERFACE_VERSION 4]) ++
        [Call.gb_control_get_bundle_versions s.intf.interface_id] ++ D ++
        [Call.gb_connection_legacy_exit s.intf.interface_id],
      hrun.trans hD, rfl, ?_, ?_⟩
    · simp only [hid]
      rw [hs7]
      simp only [hv.2.2.2.2.2, hs5.1, hs4, List.append_assoc]
      simp
    · simp only [List.count_append, count_exit_of_isDestroy D _ hall]
      split_ifs <;> simp [List.count_cons]

/-- Witness of C13: the decoder attaches one bundle and fails; and the decoder
attaches two bundles and the bundle-version query fails with `-5`. -/
theorem enumeration_failure_leaves_no_bundles_witness :
    (∃ s' delta, gb_interface_enable envParseFail (mkState PwrState.ON []) = (-EINVAL, s') ∧
        -EINVAL ≠ 0 ∧ s'.intf.bundles = [] ∧
        s'.trace = (mkState PwrState.ON []).trace ++ delta ∧
        delta.count (Call.gb_connection_legacy_exit
          (mkState PwrState.ON []).intf.interface_id) = 1) ∧
    (∃ s' delta, gb_interface_enable envVersionsFail (mkState PwrState.ON []) = (-5, s') ∧
        s'.intf.bundles = [] ∧
        s'.trace = (mkState PwrState.ON []).trace ++ delta ∧
        delta.count (Call.gb_connection_legacy_exit
          (mkState PwrState.ON []).intf.interface_id) = 1) :=
  ⟨(enumeration_failure_leaves_no_bundles envParseFail (mkState PwrState.ON []) _ _ _ _
      4 1 [0, 0, 0, 0] rfl rfl (by decide) rfl (by decide) rfl).1 _ rfl,
   (enumeration_failure_leaves_no_bundles envVersionsFail (mkState PwrState.ON []) _ _ _ _
      4 1 [0, 0, 0, 0] rfl rfl (by decide) rfl (by decide) rfl).2 _ _ _ (-5) rfl rfl rfl
      (by decide)⟩

/-- C14: the manifest-size step of `gb_interface_enable`.  If enabling the
control endpoint fails with `e`, the call returns `e` and does nothing more
(no disable).  If the size request fails with a negative error `e`, the call
returns `e`; if it reports size 0, the call returns `-EINVAL`.  In both cases
the calls made are the enable, the size request and one disable of the control
endpoint (no get-manifest request, no decoder invocation) and the interface,
so its bundle list, is unchanged. -/
theorem manifest_size_step (env : Env) (s : PmState) :
    (∀ e, e ≠ 0 →
      env.remote s.trace (Call.gb_connection_legacy_init s.intf.interface_id) = e →
      gb_interface_enable env s =
        (e, { s with trace := s.trace ++
          [Call.gb_connection_legacy_init s.intf.interface_id] })) ∧
    (env.remote s.trace (Call.gb_connection_legacy_init s.intf.interface_id) = 0 →
      (∀ e, e < 0 →
        env.remote (s.trace ++ [Call.gb_connection_legacy_init s.intf.interface_id])
          (Call.gb_operation_sync s.intf.interface_id
            ControlType.GB_CONTROL_TYPE_GET_MANIFEST_SIZE 2) = e →
        gb_interface_enable env s =
          (e, { s with trace := s.trace ++
            [Call.gb_connection_legacy_init s.intf.interface_id,
             Call.gb_operation_sync s.intf.interface_id
               ControlType.GB_CONTROL_TYPE_GET_MANIFEST_SIZE 2,
             Call.gb_connection_legacy_exit s.intf.interface_id] })) ∧
      (env.remote (s.trace ++ [Call.gb_connection_legacy_init s.intf.interface_id])
          (Call.gb_operation_sync s.intf.interface_id
            ControlType.GB_CONTROL_TYPE_GET_MANIFEST_SIZE 2) = 0 →
        le16_to_cpu
          ((env.response (s.trace ++ [Call.gb_connection_legacy_init s.intf.interface_id])
            (Call.gb_operation_sync s.intf.interface_id
              ControlType.GB_CONTROL_TYPE_GET_MANIFEST_SIZE 2)).getD 0 0)
          ((env.response (s.trace ++ [Call.gb_connection_legacy_init s.intf.interface_id])
            (Call.gb_operation_sync s.intf.interface_id
              ControlType.GB_CONTROL_TYPE_GET_MANIFEST_SIZE 2)).getD 1 0) = 0 →
        gb_interface_enable env s =
          (-EINVAL, { s with trace := s.trace ++
            [Call.gb_connection_legacy_init s.intf.interface_id,
             Call.gb_operation_sync s.intf.interface_id
               ControlType.GB_CONTROL_TYPE_GET_MANIFEST_SIZE 2,
             Call.gb_connection_legacy_exit s.intf.interface_id] }))) := by
  refine ⟨?_, fun h0 => ⟨?_, ?_⟩⟩
  · intro e he hr
    simp only [gb_interface_enable, gb_control_enable_eq, hr, he, ne_eq, not_false_eq_true,
      if_true]
  · intro e he hr
    have hne : e ≠ 0 := ne_of_lt he
    have hle : e ≤ 0 := le_of_lt he
    simp [gb_interface_enable, gb_control_enable_eq, h0,
      gb_control_get_manifest_size_operation, gb_operation_sync, hr, hne, hle,
      gb_interface_enable_err_disable_control, gb_control_disable, PmState.call]
  · intro hr hz
    simp only [gb_interface_enable, gb_control_enable_eq, h0,
      gb_control_get_manifest_size_operation, gb_operation_sync, hr, hz,
      gb_interface_enable_err_disable_control, gb_control_disable, PmState.call]
    simp

/-- Witness of C14: a failing enable, a failing size request and a manifest
size of 0 on a fresh interface. -/
theorem manifest_size_step_witness :
    gb_interface_enable envEnableFail (mkState PwrState.ON []) =
      (-5, { mkState PwrState.ON [] with trace := [] ++
        [Call.gb_connection_legacy_init 3] }) ∧
    gb_interface_enable envSizeFail (mkState PwrState.ON []) =
      (-7, { mkState PwrState.ON [] with trace := [] ++
        [Call.gb_connection_legacy_init 3,
         Call.gb_operation_sync 3 ControlType.GB_CONTROL_TYPE_GET_MANIFEST_SIZE 2,
         Call.gb_connection_legacy_exit 3] }) ∧
    gb_interface_enable envSizeZero (mkState PwrState.ON []) =
      (-EINVAL, { mkState PwrState.ON [] with trace := [] ++
        [Call.gb_connection_legacy_init 3,
         Call.gb_operation_sync 3 ControlType.GB_CONTROL_TYPE_GET_MANIFEST_SIZE 2,
         Call.gb_connection_legacy_exit 3] }) :=
  ⟨(manifest_size_step envEnableFail (mkState PwrState.ON [])).1 (-5) (by decide) rfl,
   ((manifest_size_step envSizeFail (mkState PwrState.ON [])).2 rfl).1 (-7) (by decide) rfl,
   ((manifest_size_step envSizeZero (mkState PwrState.ON [])).2 rfl).2 rfl rfl⟩

/-! ## The version query -/

/-- The return value and the final bundle list of `gb_interface_enable` are the
same in two environments that differ only in the answer to the version
request. -/
theorem gb_interface_enable_version_independent (env env' : Env) (s : PmState)
    (hR : ∀ tr c, c ≠ Call.gb_operation_sync s.intf.interface_id
      ControlType.GB_CONTROL_TYPE_INTERFACE_VERSION 4 → env'.remote tr c = env.remote tr c)
    (hP : ∀ tr c, c ≠ Call.gb_operation_sync s.intf.interface_id
      ControlType.GB_CONTROL_TYPE_INTERFACE_VERSION 4 → env'.response tr c = env.response tr c)
    (hM : ∀ tr intf m, env'.manifest_parse tr intf m = env.manifest_parse tr intf m) :
    (gb_interface_enable env' s).1 = (gb_interface_enable env s).1 ∧
    (gb_interface_enable env' s).2.intf.bundles = (gb_interface_enable env s).2.intf.bundles := by
  have e1 : gb_control_enable env'.remote s = gb_control_enable env.remote s := by
    rw [gb_control_enable_eq, gb_control_enable_eq, hR _ _ (by simp)]
  have e2 : ∀ x, gb_control_get_manifest_size_operation env' x
      = gb_control_get_manifest_size_operation env x := by
    intro x
    simp only [gb_control_get_manifest_size_operation, gb_operation_sync]
    rw [hR _ _ (by simp), hP _ _ (by simp)]
  have e3 : ∀ (x : PmState) n, x.call env'.remote (Call.kmalloc n)
      = x.call env.remote (Call.kmalloc n) := by
    intro x n
    simp only [PmState.call]
    rw [hR _ _ (by simp)]
  have e4 : ∀ x n, gb_control_get_manifest_operation env' x n
      = gb_control_get_manifest_operation env x n := by
    intro x n
    simp only [gb_control_get_manifest_operation, gb_operation_sync]
    rw [hR _ _ (by simp), hP _ _ (by simp)]
  have e5 : ∀ x m n, gb_manifest_parse env' x m n = gb_manifest_parse env x m n := by
    intro x m n
    simp only [gb_manifest_parse, hM]
  rcases h1 : gb_control_enable env.remote s with ⟨r1, s1⟩
  by_cases hr1 : r1 = 0
  swap
  · simp [gb_interface_enable, e1, h1, hr1]
  subst hr1
  rcases h2 : gb_control_get_manifest_size_operation env s1 with ⟨size, s2⟩
  by_cases hsize : size ≤ 0
  · simp only [gb_interface_enable, e1, e2, h1, h2, hsize]
    simp [gb_interface_enable_err_disable_control, gb_control_disable, PmState.call]
  rcases h3 : s2.call env.remote (Call.kmalloc size.toNat) with ⟨p, s3⟩
  by_cases hp : p = 0
  · simp only [gb_interface_enable, e1, e2, e3, h1, h2, h3, hsize, hp]
    simp [gb_interface_enable_err_disable_control, gb_control_disable, PmState.call]
  rcases h4 : gb_control_get_manifest_operation env s3 size.toNat with ⟨r4, manifest, s4⟩
  by_cases hr4 : r4 = 0
  swap
  · simp only [gb_interface_enable, e1, e2, e3, e4, h1, h2, h3, h4, hsize, hp, hr4]
    simp [hr4, gb_interface_enable_err_free_manifest,
      gb_interface_enable_err_disable_control, gb_control_disable, PmState.call]
  subst hr4
  have hs4 := gb_interface_enable_before_parse env s s1 s2 s3 s4 size p manifest h1 h2 h3 h4
  have hrun := gb_interface_enable_from_parse env s s1 s2 s3 s4 size p manifest
    h1 h2 (not_le.mp hsize) h3 hp h4
  have hrun' := gb_interface_enable_from_parse env' s s1 s2 s3 s4 size p manifest
    (e1.trans h1) ((e2 s1).trans h2) (not_le.mp hsize) ((e3 s2 _).trans h3) hp
    ((e4 s3 _).trans h4)
  rw [hrun, hrun', e5]
  rcases h5 : gb_manifest_parse env s4 manifest size.toNat with ⟨ok, s5⟩
  have hid5 : s5.intf.interface_id = s.intf.interface_id := by
    simp only [gb_manifest_parse] at h5
    have := (Prod.mk.inj h5).2
    subst this
    rw [hs4]
  cases ok with
  | false =>
    obtain ⟨D, hD, -, -⟩ := gb_interface_enable_err_destroy_bundles_spec env (-EINVAL) s5
    obtain ⟨D', hD', -, -⟩ := gb_interface_enable_err_destroy_bundles_spec env' (-EINVAL) s5
    simp [hD, hD']
  | true =>
    have hv := gb_control_get_interface_version_operation_frame env s5
    have hv' := gb_control_get_interface_version_operation_frame env' s5
    have hcall : ((gb_control_get_interface_version_operation env' s5).2.call env'.remote
          (Call.gb_control_get_bundle_versions s.intf.interface_id)).1
        = ((gb_control_get_interface_version_operation env s5).2.call env.remote
          (Call.gb_control_get_bundle_versions s.intf.interface_id)).1 := by
      simp only [PmState.call, hv.2.2.2.2.2, hv'.2.2.2.2.2]
      rw [hR _ _ (by simp)]
    simp only [Bool.true_eq_false, if_false, hcall]
    split_ifs with he
    · simp [PmState.call, hv.2.1, hv'.2.1]
    · obtain ⟨D, hD, -, -⟩ := gb_interface_enable_err_destroy_bundles_spec env
        (((gb_control_get_interface_version_operation env s5).2.call env.remote
          (Call.gb_control_get_bundle_versions s.intf.interface_id)).1)
        (((gb_control_get_interface_version_operation env s5).2.call env.remote
          (Call.gb_control_get_bundle_versions s.intf.interface_id)).2)
      obtain ⟨D', hD', -, -⟩ := gb_interface_enable_err_destroy_bundles_spec env'
        (((gb_control_get_interface_version_operation env s5).2.call env.remote
          (Call.gb_control_get_bundle_versions s.intf.interface_id)).1)
        (((gb_control_get_interface_version_operation env' s5).2.call env'.remote
          (Call.gb_control_get_bundle_versions s.intf.interface_id)).2)
      simp [hD, hD']

/-- C15: tolerance of the version query.
`gb_control_get_interface_version_operation` returns 0 for every input.  On an
interface flagged `boot_over_unipro` it issues no request and changes nothing.
Otherwise it issues the version request; if the request fails the version
fields are unchanged, if it succeeds they are set to the little-endian 16-bit
major and minor decoded from the response.  Hence the return value and the
final bundle list of `gb_interface_enable` are the same in every environment
that differs only in the answer to the version request, and an interface fresh
from `gb_interface_create` keeps version 0.0 in the first two cases. -/
theorem version_query_tolerance (env : Env) (s : PmState) :
    (gb_control_get_interface_version_operation env s).1 = 0 ∧
    (s.intf.boot_over_unipro = true →
      gb_control_get_interface_version_operation env s = (0, s)) ∧
    (s.intf.boot_over_unipro = false →
      (¬ env.remote s.trace (Call.gb_operation_sync s.intf.interface_id
          ControlType.GB_CONTROL_TYPE_INTERFACE_VERSION 4) = 0 →
        gb_control_get_interface_version_operation env s =
          (0, { s with trace := s.trace ++ [Call.gb_operation_sync s.intf.interface_id
            ControlType.GB_CONTROL_TYPE_INTERFACE_VERSION 4] })) ∧
      (env.remote s.trace (Call.gb_operation_sync s.intf.interface_id
          ControlType.GB_CONTROL_TYPE_INTERFACE_VERSION 4) = 0 →
        gb_control_get_interface_version_operation env s =
          (0, { intf := { s.intf with
                  version_major := le16_to_cpu
                    ((env.response s.trace (Call.gb_operation_sync s.intf.interface_id
                      ControlType.GB_CONTROL_TYPE_INTERFACE_VERSION 4)).getD 0 0)
                    ((env.response s.trace (Call.gb_operation_sync s.intf.interface_id
                      ControlType.GB_CONTROL_TYPE_INTERFACE_VERSION 4)).getD 1 0),
                  version_minor := le16_to_cpu
                    ((env.response s.trace (Call.gb_operation_sync s.intf.interface_id
                      ControlType.GB_CONTROL_TYPE_INTERFACE_VERSION 4)).getD 2 0)
                    ((env.response s.trace (Call.gb_operation_sync s.intf.interface_id
                      ControlType.GB_CONTROL_TYPE_INTERFACE_VERSION 4)).getD 3 0) },
                trace := s.trace ++ [Call.gb_operation_sync s.intf.interface_id
                  ControlType.GB_CONTROL_TYPE_INTERFACE_VERSION 4] }))) ∧
    (∀ env' : Env,
      (∀ tr c, c ≠ Call.gb_operation_sync s.intf.interface_id
        ControlType.GB_CONTROL_TYPE_INTERFACE_VERSION 4 → env'.remote tr c = env.remote tr c) →
      (∀ tr c, c ≠ Call.gb_operation_sync s.intf.interface_id
        ControlType.GB_CONTROL_TYPE_INTERFACE_VERSION 4 →
          env'.response tr c = env.response tr c) →
      (∀ tr intf m, env'.manifest_parse tr intf m = env.manifest_parse tr intf m) →
      (gb_interface_enable env' s).1 = (gb_interface_enable env s).1 ∧
      (gb_interface_enable env' s).2.intf.bundles
        = (gb_interface_enable env s).2.intf.bundles) ∧
    (∀ (trace t2 : List Call) (interface_id : Nat) (intf : gb_interface),
      gb_interface_create env.remote trace interface_id = (some intf, t2) →
      (intf.boot_over_unipro = true ∨
        ¬ env.remote t2 (Call.gb_operation_sync intf.interface_id
          ControlType.GB_CONTROL_TYPE_INTERFACE_VERSION 4) = 0) →
      (gb_control_get_interface_version_operation env
        { intf := intf, trace := t2 }).2.intf.version_major = 0 ∧
      (gb_control_get_interface_version_operation env
        { intf := intf, trace := t2 }).2.intf.version_minor = 0) := by
  refine ⟨(gb_control_get_interface_version_operation_frame env s).1, ?_, ?_, ?_, ?_⟩
  · intro hb
    simp [gb_control_get_interface_version_operation, hb]
  · intro hb
    constructor
    · intro hr
      simp [gb_control_get_interface_version_operation, gb_operation_sync, hb, hr]
    · intro hr
      simp only [gb_control_get_interface_version_operation, gb_operation_sync, hb, hr]
      simp
  · intro env' hR hP hM
    exact gb_interface_enable_version_independent env env' s hR hP hM
  · intro trace t2 interface_id intf hc hcase
    have hver : intf.version_major = 0 ∧ intf.version_minor = 0 := by
      simp only [gb_interface_create] at hc
      split_ifs at hc
      · simp at hc
      · simp at hc
      · simp only [Prod.mk.injEq, Option.some.injEq] at hc
        rw [← hc.1]
        exact ⟨rfl, rfl⟩
    rcases hcase with hb | hr
    · simp [gb_control_get_interface_version_operation, hb, hver]
    · by_cases hb : intf.boot_over_unipro = true
      · simp [gb_control_get_interface_version_operation, hb, hver]
      · simp [gb_control_get_interface_version_operation, gb_operation_sync, hb, hr, hver]

/-- Witness of C15: on interface 3 the version request fails and the version
stays as it was; the outcome of enumeration is the same as with a successful
version request; and the fresh interface 3 keeps version 0.0 when the version
request fails. -/
theorem version_query_tolerance_witness :
    gb_control_get_interface_version_operation envVersionFail (mkState PwrState.ON []) =
      (0, { mkState PwrState.ON [] with trace := [] ++
        [Call.gb_operation_sync 3 ControlType.GB_CONTROL_TYPE_INTERFACE_VERSION 4] }) ∧
    ((gb_interface_enable envManifest (mkState PwrState.ON [])).1
        = (gb_interface_enable envVersionFail (mkState PwrState.ON [])).1 ∧
      (gb_interface_enable envManifest (mkState PwrState.ON [])).2.intf.bundles
        = (gb_interface_enable envVersionFail (mkState PwrState.ON [])).2.intf.bundles) ∧
    ((gb_control_get_interface_version_operation envVersionFail
        { intf := (mkState PwrState.ON []).intf,
          trace := [Call.kzalloc Alloc.gb_interface, Call.kzalloc Alloc.gb_control,
            Call.gb_connection_create_dynamic 3] }).2.intf.version_major = 0 ∧
      (gb_control_get_interface_version_operation envVersionFail
        { intf := (mkState PwrState.ON []).intf,
          trace := [Call.kzalloc Alloc.gb_interface, Call.kzalloc Alloc.gb_control,
            Call.gb_connection_create_dynamic 3] }).2.intf.version_minor = 0) :=
  ⟨((version_query_tolerance envVersionFail (mkState PwrState.ON [])).2.2.1 rfl).1
      (by decide),
   (version_query_tolerance envVersionFail (mkState PwrState.ON [])).2.2.2.1 envManifest
      (fun tr c hc => by
        simp only [mkState] at hc
        simp [envManifest, envVersionFail, hc])
      (fun _ _ _ => rfl) (fun _ _ _ => rfl),
   (version_query_tolerance envVersionFail (mkState PwrState.ON [])).2.2.2.2 [] _ 3
      (mkState PwrState.ON []).intf rfl (Or.inr (by decide))⟩

/-! ## Unwinding and the frame of enumeration -/

/-- C16, counterexample: bundle 7 is attached before the call, the decoder
attaches bundles 1 and 2 and leaves bundle 7 on the list, and the
bundle-version query fails with `-5` (first part) or the decoder fails (second
part).  `gb_interface_enable` returns the error and bundle 7 is no longer
attached: the bundle list is empty. -/
theorem enable_failure_destroys_earlier_bundles :
    mkBundleN 7 0 ∈ (mkState PwrState.ON [mkBundleN 7 0]).intf.bundles ∧
    mkBundleN 7 0 ∈ (envVersionsFail.manifest_parse [] (mkState PwrState.ON [mkBundleN 7 0]).intf
      [0, 0, 0, 0]).2 ∧
    (gb_interface_enable envVersionsFail (mkState PwrState.ON [mkBundleN 7 0])).1 = -5 ∧
    (gb_interface_enable envVersionsFail (mkState PwrState.ON [mkBundleN 7 0])).2.intf.bundles
      = [] ∧
    (gb_interface_enable envParseFail (mkState PwrState.ON [mkBundleN 7 0])).1 = -EINVAL ∧
    (gb_interface_enable envParseFail (mkState PwrState.ON [mkBundleN 7 0])).2.intf.bundles
      = [] ∧
    ¬ mkBundleN 7 0 ∈
      (gb_interface_enable envVersionsFail (mkState PwrState.ON [mkBundleN 7 0])).2.intf.bundles :=
  ⟨List.Mem.head _, by decide, rfl, rfl, rfl, rfl, by decide⟩

/-- C16, amended: when `gb_interface_enable` fails at parsing or at the
bundle-version query, every bundle that is on the list of the interface at
that point is destroyed, the bundles attached before the call that the decoder
left there as well as those created during the call: after the failure point
the calls are destruction calls with one release per bundle of the list, in
list order, followed by the disable of the control endpoint, and no bundle is
attached afterwards. -/
theorem enable_failure_destroys_all_bundles (env : Env) (s s1 s2 s3 s4 : PmState)
    (size p : Int) (manifest : List Nat)
    (h1 : gb_control_enable env.remote s = (0, s1))
    (h2 : gb_control_get_manifest_size_operation env s1 = (size, s2)) (hsize : 0 < size)
    (h3 : s2.call env.remote (Call.kmalloc size.toNat) = (p, s3)) (hp : p ≠ 0)
    (h4 : gb_control_get_manifest_operation env s3 size.toNat = (0, manifest, s4)) :
    (∀ s5, gb_manifest_parse env s4 manifest size.toNat = (false, s5) →
      ∃ s' D, gb_interface_enable env s = (-EINVAL, s') ∧ s'.intf.bundles = [] ∧
        s'.trace = s5.trace ++ D ++ [Call.gb_connection_legacy_exit s.intf.interface_id] ∧
        (∀ c ∈ D, c.isDestroy = true) ∧
        D.filter Call.isBundlePut = s5.intf.bundles.map
          (fun b => Call.put_device (Dev.bundle s.intf.interface_id b.id))) ∧
    (∀ s5 s6 s7 e, gb_manifest_parse env s4 manifest size.toNat = (true, s5) →
      gb_control_get_interface_version_operation env s5 = (0, s6) →
      s6.call env.remote (Call.gb_control_get_bundle_versions s.intf.interface_id)
        = (e, s7) →
      e ≠ 0 →
      ∃ s' D, gb_interface_enable env s = (e, s') ∧ s'.intf.bundles = [] ∧
        s'.trace = s7.trace ++ D ++ [Call.gb_connection_legacy_exit s.intf.interface_id] ∧
        (∀ c ∈ D, c.isDestroy = true) ∧
        D.filter Call.isBundlePut = s5.intf.bundles.map
          (fun b => Call.put_device (Dev.bundle s.intf.interface_id b.id))) := by
  have hs4 := gb_interface_enable_before_parse env s s1 s2 s3 s4 size p manifest h1 h2 h3 h4
  have hrun := gb_interface_enable_from_parse env s s1 s2 s3 s4 size p manifest
    h1 h2 hsize h3 hp h4
  constructor
  · intro s5 h5
    rw [h5] at hrun
    simp only [if_true] at hrun
    obtain ⟨D, hD, hall, hput⟩ := gb_interface_enable_err_destroy_bundles_spec env (-EINVAL) s5
    have hid : s5.intf.interface_id = s.intf.interface_id := by
      simp only [gb_manifest_parse] at h5
      have := (Prod.mk.inj h5).2
      subst this
      rw [hs4]
    rw [hid] at hD hput
    exact ⟨_, D, hrun.trans hD, rfl, rfl, hall, hput⟩
  · intro s5 s6 s7 e h5 h6 h7 he
    rw [h5, h6, h7] at hrun
    simp only [he, if_false, Bool.true_eq_false] at hrun
    obtain ⟨D, hD, hall, hput⟩ := gb_interface_enable_err_destroy_bundles_spec env e s7
    have hid5 : s5.intf.interface_id = s.intf.interface_id := by
      simp only [gb_manifest_parse] at h5
      have := (Prod.mk.inj h5).2
      subst this
      rw [hs4]
    have hv := gb_control_get_interface_version_operation_frame env s5
    rw [h6] at hv
    simp only at hv
    have hs7 : s7 = { s6 with trace := s6.trace ++
        [Call.gb_control_get_bundle_versions s.intf.interface_id] } := by
      simp only [PmState.call] at h7
      exact (Prod.mk.inj h7).2.symm
    have hid : s7.intf.interface_id = s.intf.interface_id := by
      rw [hs7]
      simp only
      rw [hv.2.2.1, hid5]
    have hb : s7.intf.bundles = s5.intf.bundles := by
      rw [hs7]
      exact hv.2.1
    rw [hid, hb] at hput
    rw [hid] at hD
    exact ⟨_, D, hrun.trans hD, rfl, rfl, hall, hput⟩

/-- Witness of the amended C16: bundle 7 attached before the call, the decoder
attaches bundles 1 and 2, the bundle-version query fails. -/
theorem enable_failure_destroys_all_bundles_witness :
    ∃ s' D, gb_interface_enable envVersionsFail (mkState PwrState.ON [mkBundleN 7 0])
        = (-5, s') ∧ s'.intf.bundles = [] ∧
      s'.trace =
        [Call.gb_connection_legacy_init 3,
         Call.gb_operation_sync 3 ControlType.GB_CONTROL_TYPE_GET_MANIFEST_SIZE 2,
         Call.kmalloc 4,
         Call.gb_operation_sync 3 ControlType.GB_CONTROL_TYPE_GET_MANIFEST 4,
         Call.gb_manifest_parse 3 4,
         Call.gb_operation_sync 3 ControlType.GB_CONTROL_TYPE_INTERFACE_VERSION 4,
         Call.gb_control_get_bundle_versions 3] ++ D ++
          [Call.gb_connection_legacy_exit
            (mkState PwrState.ON [mkBundleN 7 0]).intf.interface_id] ∧
      (∀ c ∈ D, c.isDestroy = true) ∧
      D.filter Call.isBundlePut =
        [mkBundleN 2 3, mkBundleN 1 1, mkBundleN 7 0].map
          (fun b => Call.put_device
            (Dev.bundle (mkState PwrState.ON [mkBundleN 7 0]).intf.interface_id b.id)) :=
  (enable_failure_destroys_all_bundles envVersionsFail (mkState PwrState.ON [mkBundleN 7 0])
    _ _ _ _ 4 1 [0, 0, 0, 0] rfl rfl (by decide) rfl (by decide) rfl).2
    { intf := { (mkState PwrState.ON [mkBundleN 7 0]).intf with
        bundles := [mkBundleN 2 3, mkBundleN 1 1, mkBundleN 7 0] },
      trace := [Call.gb_connection_legacy_init 3,
         Call.gb_operation_sync 3 ControlType.GB_CONTROL_TYPE_GET_MANIFEST_SIZE 2,
         Call.kmalloc 4,
         Call.gb_operation_sync 3 ControlType.GB_CONTROL_TYPE_GET_MANIFEST 4,
         Call.gb_manifest_parse 3 4] }
    _
    { intf := { (mkState PwrState.ON [mkBundleN 7 0]).intf with
        bundles := [mkBundleN 2 3, mkBundleN 1 1, mkBundleN 7 0],
        version_major := 1, version_minor := 2 },
      trace := [Call.gb_connection_legacy_init 3,
         Call.gb_operation_sync 3 ControlType.GB_CONTROL_TYPE_GET_MANIFEST_SIZE 2,
         Call.kmalloc 4,
         Call.gb_operation_sync 3 ControlType.GB_CONTROL_TYPE_GET_MANIFEST 4,
         Call.gb_manifest_parse 3 4,
         Call.gb_operation_sync 3 ControlType.GB_CONTROL_TYPE_INTERFACE_VERSION 4,
         Call.gb_control_get_bundle_versions 3] }
    (-5) rfl rfl rfl (by decide)

/-- The two ways `gb_interface_enable` ends: with an error, or with 0 after
the decoder succeeded, the bundle list being the one the decoder left.  On
both the device id and the power state of the interface are unchanged. -/
theorem gb_interface_enable_result (env : Env) (s : PmState) :
    (gb_interface_enable env s).2.intf.device_id = s.intf.device_id ∧
    (gb_interface_enable env s).2.intf.pwr_state = s.intf.pwr_state ∧
    ((gb_interface_enable env s).1 ≠ 0 ∨
      ∃ s1 s2 s3 s4 s5 size p manifest,
        gb_control_enable env.remote s = (0, s1) ∧
        gb_control_get_manifest_size_operation env s1 = (size, s2) ∧ 0 < size ∧
        s2.call env.remote (Call.kmalloc size.toNat) = (p, s3) ∧ p ≠ 0 ∧
        gb_control_get_manifest_operation env s3 size.toNat = (0, manifest, s4) ∧
        gb_manifest_parse env s4 manifest size.toNat = (true, s5) ∧
        (gb_interface_enable env s).2.intf.bundles = s5.intf.bundles) := by
  rcases h1 : gb_control_enable env.remote s with ⟨r1, s1⟩
  have hs1 : s1 = { s with trace := s.trace ++
      [Call.gb_connection_legacy_init s.intf.interface_id] } := by
    have := gb_control_enable_eq env.remote s
    rw [h1] at this
    exact (Prod.mk.inj this).2
  by_cases hr1 : r1 = 0
  swap
  · simp only [gb_interface_enable, h1]
    simp [hr1, hs1]
  subst hr1
  rcases h2 : gb_control_get_manifest_size_operation env s1 with ⟨size, s2⟩
  have hs2 : s2 = { s1 with trace := s1.trace ++ [Call.gb_operation_sync s1.intf.interface_id
      ControlType.GB_CONTROL_TYPE_GET_MANIFEST_SIZE 2] } := by
    have := gb_control_get_manifest_size_operation_state env s1
    rw [h2] at this
    exact this
  by_cases hsize : size ≤ 0
  · simp only [gb_interface_enable, h1, h2, hsize]
    simp only [gb_interface_enable_err_disable_control, gb_control_disable, PmState.call,
      hs2, hs1]
    refine ⟨by simp, by simp, Or.inl ?_⟩
    simp only [ne_eq, if_true, not_true_eq_false, if_false]
    split_ifs with h0
    · simp [EINVAL]
    · exact h0
  rcases h3 : s2.call env.remote (Call.kmalloc size.toNat) with ⟨p, s3⟩
  have hs3 : s3 = { s2 with trace := s2.trace ++ [Call.kmalloc size.toNat] } := by
    simp only [PmState.call] at h3
    exact (Prod.mk.inj h3).2.symm
  by_cases hp : p = 0
  · simp only [gb_interface_enable, h1, h2, h3, hsize, hp]
    simp [gb_interface_enable_err_disable_control, gb_control_disable, PmState.call,
      hs3, hs2, hs1, ENOMEM]
  rcases h4 : gb_control_get_manifest_operation env s3 size.toNat with ⟨r4, manifest, s4⟩
  have hs4 : s4 = { s3 with trace := s3.trace ++ [Call.gb_operation_sync s3.intf.interface_id
      ControlType.GB_CONTROL_TYPE_GET_MANIFEST size.toNat] } := by
    simp only [gb_control_get_manifest_operation, gb_operation_sync] at h4
    exact (Prod.mk.inj (Prod.mk.inj h4).2).2.symm
  by_cases hr4 : r4 = 0
  swap
  · simp only [gb_interface_enable, h1, h2, h3, h4, hsize, hp, hr4]
    simp [hr4, gb_interface_enable_err_free_manifest,
      gb_interface_enable_err_disable_control, gb_control_disable, PmState.call,
      hs4, hs3, hs2, hs1]
  subst hr4
  have hrun := gb_interface_enable_from_parse env s s1 s2 s3 s4 size p manifest
    h1 h2 (not_le.mp hsize) h3 hp h4
  rw [hrun]
  rcases h5 : gb_manifest_parse env s4 manifest size.toNat with ⟨ok, s5⟩
  have hs5 : s5.intf.device_id = s.intf.device_id ∧ s5.intf.pwr_state = s.intf.pwr_state := by
    simp only [gb_manifest_parse] at h5
    have := (Prod.mk.inj h5).2
    subst this
    simp [hs4, hs3, hs2, hs1]
  cases ok with
  | false =>
    obtain ⟨D, hD, -, -⟩ := gb_interface_enable_err_destroy_bundles_spec env (-EINVAL) s5
    simp only [if_true, hD]
    exact ⟨hs5.1, hs5.2, Or.inl (by simp [EINVAL])⟩
  | true =>
    have hv := gb_control_get_interface_version_operation_frame env s5
    simp only [Bool.true_eq_false, if_false]
    split_ifs with he
    · refine ⟨?_, ?_, Or.inr ⟨s1, s2, s3, s4, s5, size, p, manifest, rfl, h2,
        not_le.mp hsize, h3, hp, h4, h5, ?_⟩⟩
      · simp only [PmState.call, hv.2.2.2.1, hs5.1]
      · simp only [PmState.call, hv.2.2.2.2.1, hs5.2]
      · simp only [PmState.call, hv.2.1]
    · obtain ⟨D, hD, -, -⟩ := gb_interface_enable_err_destroy_bundles_spec env
        (((gb_control_get_interface_version_operation env s5).2.call env.remote
          (Call.gb_control_get_bundle_versions s.intf.interface_id)).1)
        (((gb_control_get_interface_version_operation env s5).2.call env.remote
          (Call.gb_control_get_bundle_versions s.intf.interface_id)).2)
      rw [hD]
      refine ⟨?_, ?_, Or.inl he⟩
      · simp only [PmState.call, hv.2.2.2.1, hs5.1]
      · simp only [PmState.call, hv.2.2.2.2.1, hs5.2]

/-- C17: enumeration round trip and frame.  Whenever `gb_interface_enable`
returns 0, every step up to the decoder succeeded, the decoder succeeded, and
the bundle list of the interface (with the connection list of each bundle) is
exactly the list the decoder left: `gb_interface_enable` itself adds, removes
or reorders nothing.  On every path the device id and the power state of the
interface are what they were before the call. -/
theorem enumeration_round_trip (env : Env) (s : PmState) :
    (gb_interface_enable env s).2.intf.device_id = s.intf.device_id ∧
    (gb_interface_enable env s).2.intf.pwr_state = s.intf.pwr_state ∧
    (∀ s', gb_interface_enable env s = (0, s') →
      ∃ s1 s2 s3 s4 s5 size p manifest,
        gb_control_enable env.remote s = (0, s1) ∧
        gb_control_get_manifest_size_operation env s1 = (size, s2) ∧ 0 < size ∧
        s2.call env.remote (Call.kmalloc size.toNat) = (p, s3) ∧ p ≠ 0 ∧
        gb_control_get_manifest_operation env s3 size.toNat = (0, manifest, s4) ∧
        gb_manifest_parse env s4 manifest size.toNat = (true, s5) ∧
        s'.intf.bundles = s5.intf.bundles ∧
        s'.intf.bundles = (env.manifest_parse s4.trace s.intf manifest).2) := by
  obtain ⟨hdev, hpwr, hres⟩ := gb_interface_enable_result env s
  refine ⟨hdev, hpwr, ?_⟩
  intro s' hs'
  rcases hres with hne | ⟨s1, s2, s3, s4, s5, size, p, manifest, h1, h2, hsize, h3, hp, h4,
    h5, hb⟩
  · rw [hs'] at hne
    exact absurd rfl hne
  · rw [hs'] at hb
    refine ⟨s1, s2, s3, s4, s5, size, p, manifest, h1, h2, hsize, h3, hp, h4, h5, hb, ?_⟩
    have hs4 := gb_interface_enable_before_parse env s s1 s2 s3 s4 size p manifest h1 h2 h3 h4
    simp only [gb_manifest_parse] at h5
    have := (Prod.mk.inj h5).2
    rw [hb, ← this]
    simp only
    rw [hs4]

/-- Witness of C17: on a fresh interface, a manifest that decodes to bundle 1
with one connection and bundle 2 with three connections yields exactly those
two bundles with those connection counts, and the sentinel device id and the
power state are kept. -/
theorem enumeration_round_trip_witness :
    (gb_interface_enable envManifest (mkState PwrState.ON [])).1 = 0 ∧
    (gb_interface_enable envManifest (mkState PwrState.ON [])).2.intf.bundles
      = [mkBundleN 2 3, mkBundleN 1 1] ∧
    (gb_interface_enable envManifest (mkState PwrState.ON [])).2.intf.bundles.map
      (fun b => (b.id, b.connections.length)) = [(2, 3), (1, 1)] ∧
    (gb_interface_enable envManifest (mkState PwrState.ON [])).2.intf.device_id
      = (mkState PwrState.ON []).intf.device_id ∧
    ∃ s1 s2 s3 s4 s5 size p manifest,
      gb_control_enable envManifest.remote (mkState PwrState.ON []) = (0, s1) ∧
      gb_control_get_manifest_size_operation envManifest s1 = (size, s2) ∧ 0 < size ∧
      s2.call envManifest.remote (Call.kmalloc size.toNat) = (p, s3) ∧ p ≠ 0 ∧
      gb_control_get_manifest_operation envManifest s3 size.toNat = (0, manifest, s4) ∧
      gb_manifest_parse envManifest s4 manifest size.toNat = (true, s5) ∧
      (gb_interface_enable envManifest (mkState PwrState.ON [])).2.intf.bundles
        = s5.intf.bundles ∧
      (gb_interface_enable envManifest (mkState PwrState.ON [])).2.intf.bundles
        = (envManifest.manifest_parse s4.trace (mkState PwrState.ON []).intf manifest).2 :=
  ⟨rfl, rfl, rfl,
   (enumeration_round_trip envManifest (mkState PwrState.ON [])).1,
   (enumeration_round_trip envManifest (mkState PwrState.ON [])).2.2
     (gb_interface_enable envManifest (mkState PwrState.ON [])).2 rfl⟩

/-! ## Registration: building blocks -/

/-- Closed form of `gb_bundle_add`. -/
theorem gb_bundle_add_eq (env : Remote) (s : PmState) (bundle : gb_bundle) :
    gb_bundle_add env s bundle =
      (env s.trace (Call.device_add (Dev.bundle s.intf.interface_id bundle.id)),
       { s with trace := s.trace ++
          [Call.device_add (Dev.bundle s.intf.interface_id bundle.id)] }) := by
  simp only [gb_bundle_add, PmState.call]
  split_ifs <;> simp_all

/-- The destruction of one bundle removes its position and adds only
destruction calls. -/
theorem gb_bundle_destroy_spec (env : Remote) (s : PmState) (i : Nat) (bundle : gb_bundle) :
    ∃ D, gb_bundle_destroy env s i bundle =
        { intf := { s.intf with bundles := s.intf.bundles.eraseIdx i },
          trace := s.trace ++ D } ∧
      ∀ c ∈ D, c.isDestroy = true := by
  rw [gb_bundle_destroy_eq]
  split_ifs
  · exact ⟨_, rfl, by simp [Call.isDestroy]⟩
  · exact ⟨_, rfl, by simp [Call.isDestroy]⟩

/-- The destruction of one bundle removes its position and adds destruction
calls only, the release of the bundle among them exactly once. -/
theorem gb_bundle_destroy_calls (env : Remote) (s : PmState) (i : Nat) (bundle : gb_bundle) :
    ∃ D, gb_bundle_destroy env s i bundle =
        { intf := { s.intf with bundles := s.intf.bundles.eraseIdx i },
          trace := s.trace ++ D } ∧
      (∀ c ∈ D, c.isDestroy = true) ∧
      D.filter Call.isBundlePut =
        [Call.put_device (Dev.bundle s.intf.interface_id bundle.id)] ∧
      D.filter (fun c => c.isBundleAdd || c.isBundlePut) =
        [Call.put_device (Dev.bundle s.intf.interface_id bundle.id)] := by
  rw [gb_bundle_destroy_eq]
  split_ifs
  · exact ⟨_, rfl, by simp [Call.isDestroy], rfl, rfl⟩
  · exact ⟨_, rfl, by simp [Call.isDestroy], rfl, rfl⟩

/-- The outcomes of two runs of calls, one after the other. -/
theorem outcomes_append (env : Remote) :
    ∀ (a b pre : List Call),
      outcomes env pre (a ++ b) = outcomes env pre a ++ outcomes env (pre ++ a) b := by
  intro a
  induction a with
  | nil => intro b pre; simp [outcomes]
  | cons c a ih =>
    intro b pre
    simp only [List.cons_append, outcomes, List.append_eq]
    rw [ih b (pre ++ [c])]
    simp

/-- The calls of a list of outcomes. -/
theorem outcomes_map_fst (env : Remote) :
    ∀ (cs pre : List Call), (outcomes env pre cs).map Prod.fst = cs := by
  intro cs
  induction cs with
  | nil => intro pre; rfl
  | cons c cs ih => intro pre; simp [outcomes, ih]

/-- Destruction calls hold no bundle registration. -/
theorem outcomes_filter_isDestroy (env : Remote) :
    ∀ (D pre : List Call), (∀ c ∈ D, c.isDestroy = true) →
      (outcomes env pre D).filter (fun x => x.1.isBundleAdd) = [] := by
  intro D
  induction D with
  | nil => intro pre _; rfl
  | cons c D ih =>
    intro pre h
    have hc : c.isBundleAdd = false := by
      have hd := h c (List.Mem.head _)
      cases c <;> first | rfl | exact Bool.noConfusion hd
    simp only [outcomes]
    rw [List.filter_cons_of_neg (by simp [hc])]
    exact ih _ (fun c' hc' => h c' (List.Mem.tail _ hc'))

/-- The registration loop over the bundles `l` (last of the list first), the
list being `l.reverse ++ back`: with `rs` the results of the registrations in
the order made, the bundles left are those of `l` that registered with 0, in
list order, followed by `back`; the registrations made are those of the
bundles of `l`, one each, in the order of `l`; every call made is a bundle
registration or a destruction call; and each bundle whose registration failed
is released once, right after its registration and before the next one. -/
theorem gb_interface_add_bundles_spec (env : Remote) :
    ∀ (l back : List gb_bundle) (s : PmState), s.intf.bundles = l.reverse ++ back →
      ∃ (delta : List Call) (rs : List Int), rs.length = l.length ∧
        gb_interface_add_bundles env l s =
          { intf := { s.intf with bundles :=
              (((l.zip rs).filter (fun x => x.2 = 0)).map Prod.fst).reverse ++ back },
            trace := s.trace ++ delta } ∧
        (outcomes env s.trace delta).filter (fun x => x.1.isBundleAdd) =
          (l.zip rs).map (fun x =>
            (Call.device_add (Dev.bundle s.intf.interface_id x.1.id), x.2)) ∧
        (∀ c ∈ delta, c.isBundleAdd = true ∨ c.isDestroy = true) ∧
        delta.filter Call.isBundlePut =
          ((l.zip rs).filter (fun x => x.2 ≠ 0)).map (fun x =>
            Call.put_device (Dev.bundle s.intf.interface_id x.1.id)) ∧
        delta.filter (fun c => c.isBundleAdd || c.isBundlePut) =
          registration_calls s.intf.interface_id (l.zip rs) := by
  intro l
  induction l with
  | nil =>
    intro back s h
    refine ⟨[], [], rfl, ?_, by simp [outcomes], by simp, by simp, by simp [registration_calls]⟩
    simp only [List.reverse_nil, List.nil_append] at h
    simp only [gb_interface_add_bundles, List.zip_nil_left, List.filter_nil, List.map_nil,
      List.reverse_nil, List.nil_append, List.append_nil, ← h]
  | cons b rest ih =>
    intro back s h
    have hb : s.intf.bundles = rest.reverse ++ (b :: back) := by
      simpa using h
    by_cases hr : env s.trace (Call.device_add (Dev.bundle s.intf.interface_id b.id)) = 0
    · obtain ⟨delta, rs, hlen, hres, hout, hA, hC, hB⟩ := ih (b :: back)
        { s with trace := s.trace ++
          [Call.device_add (Dev.bundle s.intf.interface_id b.id)] } hb
      refine ⟨Call.device_add (Dev.bundle s.intf.interface_id b.id) :: delta, 0 :: rs,
        by simp [hlen], ?_, ?_, ?_, ?_, ?_⟩
      · simp only [gb_interface_add_bundles, gb_bundle_add_eq, hr, ne_eq, not_true_eq_false,
          if_false, hres]
        simp
      · simp only [outcomes, hr]
        rw [List.filter_cons_of_pos (by simp [Call.isBundleAdd])]
        simp only [List.zip_cons_cons, List.map_cons]
        rw [← hout]
      · intro c hc
        rcases List.mem_cons.mp hc with rfl | hc
        · exact Or.inl rfl
        · exact hA c hc
      · rw [List.filter_cons_of_neg (by simp [Call.isBundlePut])]
        simp only [List.zip_cons_cons]
        rw [List.filter_cons_of_neg (by simp)]
        exact hC
      · rw [List.filter_cons_of_pos (by simp [Call.isBundleAdd])]
        simp only [List.zip_cons_cons, registration_calls, if_true, List.nil_append]
        rw [hB]
        rfl
    · obtain ⟨D, hD, hall, hDput, hDboth⟩ := gb_bundle_destroy_calls env
        { s with trace := s.trace ++
          [Call.device_add (Dev.bundle s.intf.interface_id b.id)] } rest.length b
      have her : s.intf.bundles.eraseIdx rest.length = rest.reverse ++ back := by
        rw [hb, List.eraseIdx_append_of_length_le (by simp)]
        simp
      obtain ⟨delta, rs, hlen, hres, hout, hA, hC, hB⟩ := ih back
        (gb_bundle_destroy env { s with trace := s.trace ++
          [Call.device_add (Dev.bundle s.intf.interface_id b.id)] } rest.length b)
        (by rw [hD]; exact her)
      refine ⟨Call.device_add (Dev.bundle s.intf.interface_id b.id) :: (D ++ delta),
        env s.trace (Call.device_add (Dev.bundle s.intf.interface_id b.id)) :: rs,
        by simp [hlen], ?_, ?_, ?_, ?_, ?_⟩
      · simp only [gb_interface_add_bundles, gb_bundle_add_eq, hr, ne_eq, not_false_eq_true,
          if_true, hres]
        rw [hD]
        simp [hr]
      · simp only [outcomes]
        rw [List.filter_cons_of_pos (by simp [Call.isBundleAdd]), outcomes_append,
          List.filter_append, outcomes_filter_isDestroy env D _ hall]
        rw [hD] at hout
        simp only [List.append_assoc, List.zip_cons_cons, List.map_cons,
          List.nil_append] at hout ⊢
        rw [hout]
      · intro c hc
        rcases List.mem_cons.mp hc with rfl | hc
        · exact Or.inl rfl
        · rcases List.mem_append.mp hc with hc | hc
          · exact Or.inr (hall c hc)
          · exact hA c hc
      · rw [hD] at hC
        rw [List.filter_cons_of_neg (by simp [Call.isBundlePut]), List.filter_append,
          hDput, hC]
        simp only [List.zip_cons_cons]
        rw [List.filter_cons_of_pos (by simp [hr])]
        rfl
      · rw [hD] at hB
        rw [List.filter_cons_of_pos (by simp [Call.isBundleAdd]), List.filter_append,
          hDboth, hB]
        simp only [List.zip_cons_cons, registration_calls, hr, if_false]
        rfl

/-- Closed form of `gb_interface_add` when the registration of the interface
succeeds: with `rs` the results of the bundle registrations, in list order,
the bundles are registered once each, last of the list first, and those that
registered with 0 are left, in list order; the calls made after the
registration of the interface are bundle registrations and destruction calls
only, and each bundle whose registration failed is released once, right after
its registration. -/
theorem gb_interface_add_spec (env : Remote) (s : PmState)
    (h0 : env s.trace (Call.device_add (Dev.intf s.intf.interface_id)) = 0) :
    ∃ (delta : List Call) (rs : List Int), rs.length = s.intf.bundles.length ∧
      gb_interface_add env s =
        (0, { intf := { s.intf with bundles :=
                ((s.intf.bundles.zip rs).filter (fun x => x.2 = 0)).map Prod.fst },
              trace := s.trace ++ Call.device_add (Dev.intf s.intf.interface_id) :: delta }) ∧
      (outcomes env (s.trace ++ [Call.device_add (Dev.intf s.intf.interface_id)])
          delta).filter (fun x => x.1.isBundleAdd) =
        ((s.intf.bundles.zip rs).map (fun x =>
          (Call.device_add (Dev.bundle s.intf.interface_id x.1.id), x.2))).reverse ∧
      (∀ c ∈ delta, c.isBundleAdd = true ∨ c.isDestroy = true) ∧
      delta.filter Call.isBundlePut =
        (((s.intf.bundles.zip rs).filter (fun x => x.2 ≠ 0)).map (fun x =>
          Call.put_device (Dev.bundle s.intf.interface_id x.1.id))).reverse ∧
      delta.filter (fun c => c.isBundleAdd || c.isBundlePut) =
        registration_calls s.intf.interface_id (s.intf.bundles.zip rs).reverse := by
  obtain ⟨delta, rs, hlen, hres, hout, hA, hC, hB⟩ := gb_interface_add_bundles_spec env
    s.intf.bundles.reverse []
    { s with trace := s.trace ++ [Call.device_add (Dev.intf s.intf.interface_id)] }
    (by simp)
  have hlen' : s.intf.bundles.length = rs.reverse.length := by
    simp [hlen]
  have hzip : s.intf.bundles.reverse.zip rs = (s.intf.bundles.zip rs.reverse).reverse := by
    rw [List.zip_eq_zipWith, List.zip_eq_zipWith, List.reverse_zipWith hlen',
      List.reverse_reverse]
  refine ⟨delta, rs.reverse, by simp [hlen], ?_, ?_, hA, ?_, ?_⟩
  · simp only [gb_interface_add, PmState.call, h0, ne_eq, not_true_eq_false, if_false, hres]
    simp [hzip]
  · rw [hout, hzip]
    simp
  · rw [hC, hzip, List.filter_reverse, List.map_reverse]
  · rw [hB, hzip]

/-- The bundle registrations `gb_interface_add` attempts after a successful
registration of the interface: one for each bundle, last of the list first. -/
theorem gb_interface_add_attempts (env : Remote) (s : PmState)
    (h0 : env s.trace (Call.device_add (Dev.intf s.intf.interface_id)) = 0) :
    ∃ delta, (gb_interface_add env s).2.trace =
        s.trace ++ Call.device_add (Dev.intf s.intf.interface_id) :: delta ∧
      delta.filter Call.isBundleAdd = s.intf.bundles.reverse.map
        (fun b => Call.device_add (Dev.bundle s.intf.interface_id b.id)) := by
  obtain ⟨delta, rs, hlen, hres, hout, -⟩ := gb_interface_add_spec env s h0
  refine ⟨delta, by rw [hres], ?_⟩
  have h1 := congrArg (List.map Prod.fst) hout
  have h2 : List.map Prod.fst (List.filter (fun x => x.1.isBundleAdd)
      (outcomes env (s.trace ++ [Call.device_add (Dev.intf s.intf.interface_id)]) delta))
      = List.filter Call.isBundleAdd (List.map Prod.fst
        (outcomes env (s.trace ++ [Call.device_add (Dev.intf s.intf.interface_id)]) delta)) :=
    by rw [List.filter_map]; rfl
  rw [h2, outcomes_map_fst] at h1
  rw [h1, List.map_reverse, List.map_map, List.map_reverse]
  congr 1
  have hfst : (s.intf.bundles.zip rs).map Prod.fst = s.intf.bundles :=
    List.map_fst_zip _ _ (by omega)
  conv_rhs => rw [← hfst]
  rw [List.map_map]
  rfl

/-- The effect of one `gb_bundle_create` on the interface: nothing, or the
returned bundle put at the head of the bundle list. -/
theorem gb_bundle_create_cases (env : Remote) (s : PmState) (bundle_id bundle_class : Nat) :
    (∃ s', gb_bundle_create env s bundle_id bundle_class = (none, s') ∧ s'.intf = s.intf) ∨
    (∃ b s', gb_bundle_create env s bundle_id bundle_class = (some b, s') ∧
      s'.intf = { s.intf with bundles := b :: s.intf.bundles }) := by
  by_cases h : ∃ b ∈ s.intf.bundles, b.id = bundle_id % 256
  · exact Or.inl ⟨s, gb_bundle_create_dup env s bundle_id bundle_class h, rfl⟩
  · have h' : ∀ b ∈ s.intf.bundles, ¬ b.id = bundle_id % 256 :=
      fun b hb hid => h ⟨b, hb, hid⟩
    rw [gb_bundle_create_fresh env s bundle_id bundle_class h']
    split_ifs
    · exact Or.inl ⟨_, rfl, rfl⟩
    · exact Or.inr ⟨_, _, rfl, rfl⟩

/-- After successive `gb_bundle_create` calls the bundle list holds the bundles
created, the last created first, in front of the bundles it held before. -/
theorem create_in_order_spec (env : Remote) :
    ∀ (descs : List (Nat × Nat)) (s : PmState),
      (create_in_order env descs s).2.intf =
        { s.intf with bundles := (create_in_order env descs s).1.reverse ++ s.intf.bundles } := by
  intro descs
  induction descs with
  | nil => intro s; simp [create_in_order]
  | cons d rest ih =>
    intro s
    rcases gb_bundle_create_cases env s d.1 d.2 with ⟨s', h, hi⟩ | ⟨b, s', h, hi⟩
    · simp only [create_in_order, h]
      rw [ih s', hi]
    · simp only [create_in_order, h]
      rw [ih s', hi]
      simp

/-! ## Registration and teardown -/

/-- C18, counterexample: bundle 1 and then bundle 2 are created on the fresh
interface 3.  `gb_interface_add` registers bundle 1 first and bundle 2 last,
which is the discovery order, not its reverse. -/
theorem registration_order_is_not_reversed :
    (create_in_order envAlloc [(1, 10), (2, 10)] (mkState PwrState.ON [])).1.map
      (fun b => b.id) = [1, 2] ∧
    (gb_interface_add envAlloc
      (create_in_order envAlloc [(1, 10), (2, 10)] (mkState PwrState.ON [])).2).2.trace.filter
        Call.isBundleAdd
      = [Call.device_add (Dev.bundle 3 1), Call.device_add (Dev.bundle 3 2)] ∧
    (gb_interface_add envAlloc
      (create_in_order envAlloc [(1, 10), (2, 10)] (mkState PwrState.ON [])).2).2.trace.filter
        Call.isBundleAdd
      ≠ [Call.device_add (Dev.bundle 3 2), Call.device_add (Dev.bundle 3 1)] := by
  refine ⟨rfl, rfl, ?_⟩
  decide

/-- C18, amended: for the bundles `b1, ..., bn` that successive
`gb_bundle_create` calls created on an interface, in this (discovery) order,
the bundle list is `bn, ..., b1` followed by the bundles held before, and
`gb_interface_add`, after registering the interface, attempts to register the
bundles in discovery order: the bundles held before first (oldest first), then
`b1` and so on, `bn` last. -/
theorem registration_in_discovery_order (env : Remote) (descs : List (Nat × Nat))
    (s0 : PmState)
    (hreg : env (create_in_order env descs s0).2.trace
      (Call.device_add (Dev.intf s0.intf.interface_id)) = 0) :
    (create_in_order env descs s0).2.intf.bundles =
      (create_in_order env descs s0).1.reverse ++ s0.intf.bundles ∧
    ∃ delta, (gb_interface_add env (create_in_order env descs s0).2).2.trace =
        (create_in_order env descs s0).2.trace ++
          Call.device_add (Dev.intf s0.intf.interface_id) :: delta ∧
      delta.filter Call.isBundleAdd =
        (s0.intf.bundles.reverse ++ (create_in_order env descs s0).1).map
          (fun b => Call.device_add (Dev.bundle s0.intf.interface_id b.id)) := by
  have hspec := create_in_order_spec env descs s0
  have hid : (create_in_order env descs s0).2.intf.interface_id = s0.intf.interface_id := by
    rw [hspec]
  have hb : (create_in_order env descs s0).2.intf.bundles =
      (create_in_order env descs s0).1.reverse ++ s0.intf.bundles := by
    rw [hspec]
  refine ⟨hb, ?_⟩
  obtain ⟨delta, htr, hatt⟩ := gb_interface_add_attempts env (create_in_order env descs s0).2
    (by rw [hid]; exact hreg)
  refine ⟨delta, by rw [htr, hid], ?_⟩
  rw [hatt, hid, hb]
  simp

/-- Witness of the amended C18: bundles 1 and 2 created on the fresh
interface 3 are registered in the order 1, 2. -/
theorem registration_in_discovery_order_witness :
    (create_in_order envAlloc [(1, 10), (2, 10)] (mkState PwrState.ON [])).2.intf.bundles =
      (create_in_order envAlloc [(1, 10), (2, 10)] (mkState PwrState.ON [])).1.reverse ++
        (mkState PwrState.ON []).intf.bundles ∧
    ∃ delta, (gb_interface_add envAlloc
        (create_in_order envAlloc [(1, 10), (2, 10)] (mkState PwrState.ON [])).2).2.trace =
        (create_in_order envAlloc [(1, 10), (2, 10)] (mkState PwrState.ON [])).2.trace ++
          Call.device_add (Dev.intf (mkState PwrState.ON []).intf.interface_id) :: delta ∧
      delta.filter Call.isBundleAdd =
        ((mkState PwrState.ON []).intf.bundles.reverse ++
          (create_in_order envAlloc [(1, 10), (2, 10)] (mkState PwrState.ON [])).1).map
          (fun b => Call.device_add
            (Dev.bundle (mkState PwrState.ON []).intf.interface_id b.id)) :=
  registration_in_discovery_order envAlloc [(1, 10), (2, 10)] (mkState PwrState.ON []) rfl

/-- C19: partial bundle-registration failure is non-fatal.  If the
registration of the interface fails with `e`, `gb_interface_add` returns `e`,
attempts no bundle registration and leaves the interface, so its bundle list,
unchanged.  Otherwise it returns 0 whatever the per-bundle results `rs` are;
the registrations made, with their results, are those of the bundles of the
list, one each, last of the list first; afterwards the bundle list holds
exactly the bundles whose registration returned 0, in their original order;
and each bundle whose registration failed has been destroyed: the calls made
after the registration of the interface are bundle registrations and
destruction calls only, the bundles released are exactly the bundles whose
registration failed, one release each, and each release follows the failed
registration at once, before the next registration. -/
theorem bundle_registration_failure_nonfatal (env : Remote) (s : PmState) :
    (∀ e, e ≠ 0 → env s.trace (Call.device_add (Dev.intf s.intf.interface_id)) = e →
      gb_interface_add env s =
        (e, { s with trace := s.trace ++
          [Call.device_add (Dev.intf s.intf.interface_id)] })) ∧
    (env s.trace (Call.device_add (Dev.intf s.intf.interface_id)) = 0 →
      ∃ (delta : List Call) (rs : List Int), rs.length = s.intf.bundles.length ∧
        gb_interface_add env s =
          (0, { intf := { s.intf with bundles :=
                  ((s.intf.bundles.zip rs).filter (fun x => x.2 = 0)).map Prod.fst },
                trace := s.trace ++
                  Call.device_add (Dev.intf s.intf.interface_id) :: delta }) ∧
        (outcomes env (s.trace ++ [Call.device_add (Dev.intf s.intf.interface_id)])
            delta).filter (fun x => x.1.isBundleAdd) =
          ((s.intf.bundles.zip rs).map (fun x =>
            (Call.device_add (Dev.bundle s.intf.interface_id x.1.id), x.2))).reverse ∧
        (∀ c ∈ delta, c.isBundleAdd = true ∨ c.isDestroy = true) ∧
        delta.filter Call.isBundlePut =
          (((s.intf.bundles.zip rs).filter (fun x => x.2 ≠ 0)).map (fun x =>
            Call.put_device (Dev.bundle s.intf.interface_id x.1.id))).reverse ∧
        delta.filter (fun c => c.isBundleAdd || c.isBundlePut) =
          registration_calls s.intf.interface_id (s.intf.bundles.zip rs).reverse) := by
  constructor
  · intro e he hr
    simp only [gb_interface_add, PmState.call, hr, he, ne_eq, not_false_eq_true, if_true]
  · intro h0
    exact gb_interface_add_spec env s h0

/-- Witness of C19: of the bundles 1, 2, 3 of interface 3 the registration of
bundle 2 fails; bundle 2 is destroyed right after it and bundles 1 and 3 are
left, in that order.  And with a failing registration of the interface nothing
else is done. -/
theorem bundle_registration_failure_nonfatal_witness :
    gb_interface_add envFail stateThree =
      (-5, { intf := stateThree.intf,
             trace := stateThree.trace ++ [Call.device_add (Dev.intf 3)] }) ∧
    (gb_interface_add envAddFail stateThree).2.intf.bundles
      = [mkBundleN 1 0, mkBundleN 3 0] ∧
    (gb_interface_add envAddFail stateThree).2.trace =
      [Call.device_add (Dev.intf 3),
       Call.device_add (Dev.bundle 3 3),
       Call.device_add (Dev.bundle 3 2),
       Call.device_is_registered (Dev.bundle 3 2),
       Call.put_device (Dev.bundle 3 2),
       Call.device_add (Dev.bundle 3 1)] ∧
    ∃ (delta : List Call) (rs : List Int),
      rs.length = stateThree.intf.bundles.length ∧
      gb_interface_add envAddFail stateThree =
        (0, { intf := { stateThree.intf with bundles :=
                ((stateThree.intf.bundles.zip rs).filter (fun x => x.2 = 0)).map Prod.fst },
              trace := stateThree.trace ++
                Call.device_add (Dev.intf stateThree.intf.interface_id) :: delta }) ∧
      (outcomes envAddFail (stateThree.trace ++
          [Call.device_add (Dev.intf stateThree.intf.interface_id)]) delta).filter
            (fun x => x.1.isBundleAdd) =
        ((stateThree.intf.bundles.zip rs).map (fun x =>
          (Call.device_add (Dev.bundle stateThree.intf.interface_id x.1.id), x.2))).reverse ∧
      (∀ c ∈ delta, c.isBundleAdd = true ∨ c.isDestroy = true) ∧
      delta.filter Call.isBundlePut =
        (((stateThree.intf.bundles.zip rs).filter (fun x => x.2 ≠ 0)).map (fun x =>
          Call.put_device (Dev.bundle stateThree.intf.interface_id x.1.id))).reverse ∧
      delta.filter (fun c => c.isBundleAdd || c.isBundlePut) =
        registration_calls stateThree.intf.interface_id
          (stateThree.intf.bundles.zip rs).reverse :=
  ⟨(bundle_registration_failure_nonfatal envFail stateThree).1 (-5) (by decide) rfl,
   rfl, rfl,
   (bundle_registration_failure_nonfatal envAddFail stateThree).2 rfl⟩

/-- C20: teardown.  After `gb_interface_disable` the bundle list of the
interface is empty and the last call made is the disable of the control
endpoint.  On an interface flagged `disconnected` a disable of the control
endpoint is made first, before any bundle is destroyed, so two in total;
otherwise the control endpoint is disabled exactly once, after all bundles
have been destroyed.  In between only destruction calls are made, one release
per bundle, in list order. -/
theorem interface_disable_teardown (env : Remote) (s : PmState) :
    ∃ D, gb_interface_disable env s =
        { intf := { s.intf with bundles := [] },
          trace := s.trace ++
            (if s.intf.disconnected then [Call.gb_connection_legacy_exit s.intf.interface_id]
              else []) ++ D ++ [Call.gb_connection_legacy_exit s.intf.interface_id] } ∧
      (∀ c ∈ D, c.isDestroy = true) ∧
      D.filter Call.isBundlePut =
        s.intf.bundles.map (fun b => Call.put_device (Dev.bundle s.intf.interface_id b.id)) ∧
      ((if s.intf.disconnected then [Call.gb_connection_legacy_exit s.intf.interface_id]
          else []) ++ D ++ [Call.gb_connection_legacy_exit s.intf.interface_id]).count
        (Call.gb_connection_legacy_exit s.intf.interface_id)
        = if s.intf.disconnected then 2 else 1 := by
  by_cases hd : s.intf.disconnected = true
  · obtain ⟨D, hD, hall, hput⟩ := gb_interface_destroy_bundles_spec env s.intf.bundles []
      (gb_control_disable env s) (by simp [gb_control_disable, PmState.call])
    refine ⟨D, ?_, hall, ?_, ?_⟩
    · simp only [gb_interface_disable, hd, if_true]
      rw [show (gb_control_disable env s).intf.bundles = s.intf.bundles from rfl, hD]
      simp [gb_control_disable, PmState.call, hd]
    · simpa [gb_control_disable, PmState.call] using hput
    · simp [hd, List.count_cons, count_exit_of_isDestroy D _ hall]
  · obtain ⟨D, hD, hall, hput⟩ := gb_interface_destroy_bundles_spec env s.intf.bundles [] s
      (by simp)
    refine ⟨D, ?_, hall, hput, ?_⟩
    · simp only [gb_interface_disable, hd, Bool.false_eq_true, if_false, hD]
      simp [gb_control_disable, PmState.call]
    · simp [hd, List.count_cons, count_exit_of_isDestroy D _ hall]

/-! ## The suspend composite: building blocks -/

/-- The notification loop adds calls only: the interface is untouched. -/
theorem gb_bundle_suspend_notify_intf (env : Remote) (interface_id bundle_id : Nat) :
    ∀ (cs : List gb_connection) (s : PmState),
      (gb_bundle_suspend_notify env interface_id bundle_id cs s).2.intf = s.intf := by
  intro cs
  induction cs with
  | nil => intro s; rfl
  | cons c rest ih =>
    intro s
    simp only [gb_bundle_suspend_notify, PmState.call]
    split_ifs
    · rfl
    · rw [ih]
    · rw [ih]

/-- The notification loop when every callback it invokes returns 0: the
callbacks of the connections that have one are invoked in list order. -/
theorem gb_bundle_suspend_notify_ok (env : Remote) (interface_id bundle_id : Nat) :
    ∀ (cs : List gb_connection) (s : PmState),
      (∀ x ∈ outcomes env s.trace (suspend_calls interface_id bundle_id cs), x.2 = 0) →
      gb_bundle_suspend_notify env interface_id bundle_id cs s =
        (0, { s with trace := s.trace ++ suspend_calls interface_id bundle_id cs }) := by
  intro cs
  induction cs with
  | nil => intro s _; simp [gb_bundle_suspend_notify, suspend_calls]
  | cons c rest ih =>
    intro s h
    by_cases hc : c.suspend = true
    · have hcalls : suspend_calls interface_id bundle_id (c :: rest) =
          Call.connection_suspend interface_id bundle_id c.intf_cport_id ::
            suspend_calls interface_id bundle_id rest := by
        simp [suspend_calls, hc]
      rw [hcalls] at h ⊢
      simp only [outcomes, List.mem_cons, forall_eq_or_imp] at h
      have h0 := h.1
      simp only at h0
      simp only [gb_bundle_suspend_notify, hc, if_true, PmState.call, h0, ne_eq,
        not_true_eq_false, if_false]
      rw [ih _ h.2]
      simp
    · have hcalls : suspend_calls interface_id bundle_id (c :: rest) =
          suspend_calls interface_id bundle_id rest := by
        simp [suspend_calls, hc]
      rw [hcalls] at h ⊢
      simp only [gb_bundle_suspend_notify, hc, Bool.false_eq_true, if_false]
      exact ih s h

/-- The notification loop when the callbacks of the connections `pre` return 0
and the callback of the next connection `c` fails with `e`: the loop stops
there. -/
theorem gb_bundle_suspend_notify_abort (env : Remote) (interface_id bundle_id : Nat)
    (c : gb_connection) (post : List gb_connection) (e : Int) (hc : c.suspend = true)
    (he : e ≠ 0) :
    ∀ (pre : List gb_connection) (s : PmState),
      (∀ x ∈ outcomes env s.trace (suspend_calls interface_id bundle_id pre), x.2 = 0) →
      env (s.trace ++ suspend_calls interface_id bundle_id pre)
        (Call.connection_suspend interface_id bundle_id c.intf_cport_id) = e →
      gb_bundle_suspend_notify env interface_id bundle_id (pre ++ c :: post) s =
        (e, { s with trace := s.trace ++ suspend_calls interface_id bundle_id pre ++
          [Call.connection_suspend interface_id bundle_id c.intf_cport_id] }) := by
  intro pre
  induction pre with
  | nil =>
    intro s _ hr
    simp only [suspend_calls, List.filter_nil, List.map_nil, List.append_nil] at hr
    simp [gb_bundle_suspend_notify, hc, PmState.call, hr, he, suspend_calls]
  | cons d rest ih =>
    intro s h hr
    by_cases hd : d.suspend = true
    · have hcalls : suspend_calls interface_id bundle_id (d :: rest) =
          Call.connection_suspend interface_id bundle_id d.intf_cport_id ::
            suspend_calls interface_id bundle_id rest := by
        simp [suspend_calls, hd]
      rw [hcalls] at h hr ⊢
      simp only [outcomes, List.mem_cons, forall_eq_or_imp] at h
      have h0 := h.1
      simp only at h0
      have hrest := ih { s with trace := s.trace ++
          [Call.connection_suspend interface_id bundle_id d.intf_cport_id] } h.2
        (by simpa using hr)
      simp only [List.cons_append, gb_bundle_suspend_notify, hd, if_true, PmState.call, h0,
        ne_eq, not_true_eq_false, if_false, List.append_eq]
      rw [hrest]
      simp
    · have hcalls : suspend_calls interface_id bundle_id (d :: rest) =
          suspend_calls interface_id bundle_id rest := by
        simp [suspend_calls, hd]
      rw [hcalls] at h hr ⊢
      simp only [List.cons_append, gb_bundle_suspend_notify, hd, Bool.false_eq_true, if_false,
        List.append_eq]
      exact ih s h hr

/-- Closed form of `gb_bundle_suspend` once the notifications went through. -/
theorem gb_bundle_suspend_after_notify (env : Remote) (s : PmState) (i : Nat)
    (bundle : gb_bundle) (hb : s.intf.bundles[i]? = some bundle)
    (h : ∀ x ∈ outcomes env s.trace
      (suspend_calls s.intf.interface_id bundle.id bundle.connections), x.2 = 0) :
    gb_bundle_suspend env s i =
      if bundle.pwr_state = PwrState.SUSPEND then
        match gb_bundle_pm_power_on env (s.notified bundle) i with
        | none => none
        | some (ret, s2) =>
          if ret ≠ 0 then some (ret, s2)
          else gb_bundle_pm_power_off env s2 i
      else gb_bundle_pm_power_off env (s.notified bundle) i := by
  have hn := gb_bundle_suspend_notify_ok env s.intf.interface_id bundle.id
    bundle.connections s h
  simp only [gb_bundle_suspend, hb, hn, ne_eq, not_true_eq_false, if_false,
    PmState.notified]

/-- When every call of a list returns 0 at every point, all its outcomes
are 0. -/
theorem outcomes_all_zero (env : Remote) :
    ∀ (cs pre : List Call), (∀ tr, ∀ c ∈ cs, env tr c = 0) →
      ∀ x ∈ outcomes env pre cs, x.2 = 0 := by
  intro cs
  induction cs with
  | nil => intro pre _ x hx; simp [outcomes] at hx
  | cons c cs ih =>
    intro pre h x hx
    simp only [outcomes, List.mem_cons] at hx
    rcases hx with hx | hx
    · rw [hx]
      exact h pre c (List.Mem.head _)
    · exact ih _ (fun tr c' hc' => h tr c' (List.Mem.tail _ hc')) x hx

/-- When every call that is not a fabric call returns 0, all suspend callbacks
return 0. -/
theorem suspend_calls_all_zero (env : Remote) (hall : ∀ tr c, c.isFabric = false → env tr c = 0)
    (interface_id bundle_id : Nat) (cs : List gb_connection) (pre : List Call) :
    ∀ x ∈ outcomes env pre (suspend_calls interface_id bundle_id cs), x.2 = 0 := by
  apply outcomes_all_zero
  intro tr c hc
  apply hall
  simp only [suspend_calls, List.mem_map] at hc
  obtain ⟨d, -, hd⟩ := hc
  rw [← hd]
  rfl

/-- Closed form of `gb_bundle_pm_power_on` on a bundle that is not ON when
every control request succeeds. -/
theorem gb_bundle_pm_power_on_all_ok (env : Remote) (s : PmState) (i : Nat)
    (bundle : gb_bundle) (hb : s.intf.bundles[i]? = some bundle)
    (hst : ¬ bundle.pwr_state = PwrState.ON)
    (hall : ∀ tr c, c.isFabric = false → env tr c = 0) :
    gb_bundle_pm_power_on env s i =
      some (0,
        { intf := { s.intf with
            pwr_state := PwrState.ON,
            bundles := s.intf.bundles.set i { bundle with pwr_state := PwrState.ON } },
          trace := s.trace ++
            (if s.intf.pwr_state = PwrState.ON then []
              else [Call.gb_control_interface_power_state_set s.intf.interface_id
                PwrState.ON]) ++
            [Call.gb_control_bundle_power_state_set s.intf.interface_id bundle.id
              PwrState.ON] }) := by
  have hB : ∀ tr a b st, env tr (Call.gb_control_bundle_power_state_set a b st) = 0 :=
    fun tr a b st => hall tr _ rfl
  have hI : ∀ tr a st, env tr (Call.gb_control_interface_power_state_set a st) = 0 :=
    fun tr a st => hall tr _ rfl
  rw [gb_bundle_pm_power_on_reach env s i bundle hb hst]
  by_cases hi : s.intf.pwr_state = PwrState.ON
  · have h1 : gb_interface_pm_power_on env s = (0, s) := by
      simp [gb_interface_pm_power_on, hi]
    simp only [h1, if_true, PmState.call, hB, PmState.set_bundle_pwr_state, hi]
    simp
  · rw [gb_interface_pm_power_on_reach env s hi]
    simp only [hB, hI, if_true, PmState.call, PmState.set_bundle_pwr_state, hi, if_false]

/-- The calls `gb_bundle_pm_power_on` adds are set-power-state(ON) requests of
the interface and of the bundle. -/
theorem gb_bundle_pm_power_on_trace (env : Remote) (s : PmState) (i : Nat)
    (bundle : gb_bundle) (hb : s.intf.bundles[i]? = some bundle) (r : Int) (s2 : PmState)
    (h : gb_bundle_pm_power_on env s i = some (r, s2)) :
    ∃ delta, s2.trace = s.trace ++ delta ∧
      ∀ c ∈ delta,
        c = Call.gb_control_interface_power_state_set s.intf.interface_id PwrState.ON ∨
        c = Call.gb_control_bundle_power_state_set s.intf.interface_id bundle.id
          PwrState.ON := by
  by_cases hst : bundle.pwr_state = PwrState.ON
  · simp only [gb_bundle_pm_power_on, hb, hst, if_true, Option.some.injEq,
      Prod.mk.injEq] at h
    exact ⟨[], by rw [← h.2]; simp, by simp⟩
  · rw [gb_bundle_pm_power_on_reach env s i bundle hb hst] at h
    obtain ⟨-, hid, htr⟩ := gb_interface_pm_power_on_frame env s
    have hsub : ∃ d1, (gb_interface_pm_power_on env s).2.trace = s.trace ++ d1 ∧
        ∀ c ∈ d1, c = Call.gb_control_interface_power_state_set s.intf.interface_id
          PwrState.ON := by
      rcases htr with htr | htr
      · exact ⟨[], by simp [htr], by simp⟩
      · exact ⟨_, htr, by simp⟩
    obtain ⟨d1, hd1, hall1⟩ := hsub
    split_ifs at h
    · simp only [Option.some.injEq, Prod.mk.injEq] at h
      refine ⟨d1 ++ [Call.gb_control_bundle_power_state_set s.intf.interface_id bundle.id
        PwrState.ON], ?_, ?_⟩
      · rw [← h.2]
        simp [PmState.set_bundle_pwr_state, PmState.call, hd1, hid]
      · intro c hc
        rcases List.mem_append.mp hc with hc | hc
        · exact Or.inl (hall1 c hc)
        · exact Or.inr (by simpa using hc)
    · simp only [Option.some.injEq, PmState.call, Prod.mk.injEq] at h
      refine ⟨d1 ++ [Call.gb_control_bundle_power_state_set s.intf.interface_id bundle.id
        PwrState.ON], ?_, ?_⟩
      · rw [← h.2]
        simp [hd1, hid]
      · intro c hc
        rcases List.mem_append.mp hc with hc | hc
        · exact Or.inl (hall1 c hc)
        · exact Or.inr (by simpa using hc)
    · simp only [Option.some.injEq] at h
      refine ⟨d1, ?_, fun c hc => Or.inl (hall1 c hc)⟩
      rw [h] at hd1
      exact hd1

/-- The state after the bridging power-on of `gb_bundle_suspend` when every
callback and every control request succeeds. -/
theorem gb_bundle_suspend_bridged (env : Remote) (s : PmState) (i : Nat)
    (bundle : gb_bundle) (hb : s.intf.bundles[i]? = some bundle)
    (hst : bundle.pwr_state = PwrState.SUSPEND)
    (hall : ∀ tr c, c.isFabric = false → env tr c = 0) :
    gb_bundle_suspend env s i =
      gb_bundle_pm_power_off env
        { intf := { s.intf with
            pwr_state := PwrState.ON,
            bundles := s.intf.bundles.set i { bundle with pwr_state := PwrState.ON } },
          trace := (s.notified bundle).trace ++
            (if s.intf.pwr_state = PwrState.ON then []
              else [Call.gb_control_interface_power_state_set s.intf.interface_id
                PwrState.ON]) ++
            [Call.gb_control_bundle_power_state_set s.intf.interface_id bundle.id
              PwrState.ON] } i := by
  have hcb := suspend_calls_all_zero env hall s.intf.interface_id bundle.id
    bundle.connections s.trace
  have hne : ¬ bundle.pwr_state = PwrState.ON := by
    rw [hst]
    decide
  rw [gb_bundle_suspend_after_notify env s i bundle hb hcb, if_pos hst,
    gb_bundle_pm_power_on_all_ok env (s.notified bundle) i bundle hb hne hall]
  simp only [ne_eq, not_true_eq_false, if_false]
  rfl

/-! ## The suspend composite -/

/-- C21: abort of the suspend notifications.  In `gb_bundle_suspend` the
callbacks of the connections are invoked in list order, the connections
without a callback being skipped.  If the callbacks of the connections in
front of a connection `c` return 0 and the callback of `c` returns a non-zero
`e`, the call returns `e` at once: the calls added are the callbacks up to
that of `c` (no later callback, no set-power-state request) and the state, so
every power state, is unchanged.  If all callbacks return 0, the loop invokes
the callbacks of all connections that have one, in list order. -/
theorem suspend_notification_abort (env : Remote) (s : PmState) (i : Nat)
    (bundle : gb_bundle) (hb : s.intf.bundles[i]? = some bundle) :
    (∀ pre c post e, bundle.connections = pre ++ c :: post → c.suspend = true →
      (∀ x ∈ outcomes env s.trace (suspend_calls s.intf.interface_id bundle.id pre),
        x.2 = 0) →
      env (s.trace ++ suspend_calls s.intf.interface_id bundle.id pre)
        (Call.connection_suspend s.intf.interface_id bundle.id c.intf_cport_id) = e →
      e ≠ 0 →
      gb_bundle_suspend env s i =
        some (e,
          { s with
            trace := s.trace ++ suspend_calls s.intf.interface_id bundle.id pre ++
              [Call.connection_suspend s.intf.interface_id bundle.id c.intf_cport_id] })) ∧
    ((∀ x ∈ outcomes env s.trace
        (suspend_calls s.intf.interface_id bundle.id bundle.connections), x.2 = 0) →
      gb_bundle_suspend_notify env s.intf.interface_id bundle.id bundle.connections s =
        (0, s.notified bundle)) := by
  constructor
  · intro pre c post e hcs hc hpre hr he
    have hn := gb_bundle_suspend_notify_abort env s.intf.interface_id bundle.id c post e hc he
      pre s hpre hr
    simp only [gb_bundle_suspend, hb, hcs, hn, he, ne_eq, not_false_eq_true, if_true]
  · intro h
    exact gb_bundle_suspend_notify_ok env s.intf.interface_id bundle.id bundle.connections s h

/-- Witness of C21: a suspended bundle with the connections 1 (callback), 5
(no callback), 2 (callback, fails with `-5`) and 4 (callback): the callbacks
of 1 and 2 are invoked, the call returns `-5`. -/
theorem suspend_notification_abort_witness :
    gb_bundle_suspend envCallbackFail stateCallbacks 0 =
      some (-5,
        { stateCallbacks with
          trace := stateCallbacks.trace ++
            suspend_calls stateCallbacks.intf.interface_id bundleCallbacks.id
              [mkConnC 1 PwrState.OFF true, mkConnC 5 PwrState.OFF false] ++
            [Call.connection_suspend stateCallbacks.intf.interface_id bundleCallbacks.id
              (mkConnC 2 PwrState.OFF true).intf_cport_id] }) :=
  (suspend_notification_abort envCallbackFail stateCallbacks 0 bundleCallbacks rfl).1
    [mkConnC 1 PwrState.OFF true, mkConnC 5 PwrState.OFF false]
    (mkConnC 2 PwrState.OFF true) [mkConnC 4 PwrState.OFF true] (-5) rfl rfl
    (by decide) rfl (by decide)

/-- C22: the bridging transition.  For a bundle in SUSPEND whose connections
are all OFF, when every callback and every control request succeeds,
`gb_bundle_suspend` returns 0 and leaves the bundle in OFF, and after the
notifications (and the interface's ON request, if the interface was not ON) it
issues the bundle's set-power-state(ON) request and then its
set-power-state(OFF) request, followed by no other bundle request.  If the
bridging power-on fails with `e`, it returns `e` and the calls added after the
notifications are ON requests only.  For a bundle that is not in SUSPEND the
result is that of `gb_bundle_pm_power_off` applied after the notifications. -/
theorem bridging_transition (env : Remote) (s : PmState) (i : Nat) (bundle : gb_bundle)
    (hb : s.intf.bundles[i]? = some bundle) :
    (bundle.pwr_state = PwrState.SUSPEND →
      (∀ c ∈ bundle.connections, c.pwr_state = PwrState.OFF) →
      (∀ tr c, c.isFabric = false → env tr c = 0) →
      ∃ s' rest, gb_bundle_suspend env s i = some (0, s') ∧
        s'.bundle_pwr_state i = some PwrState.OFF ∧
        s'.trace = (s.notified bundle).trace ++
          (if s.intf.pwr_state = PwrState.ON then []
            else [Call.gb_control_interface_power_state_set s.intf.interface_id
              PwrState.ON]) ++
          [Call.gb_control_bundle_power_state_set s.intf.interface_id bundle.id PwrState.ON,
           Call.gb_control_bundle_power_state_set s.intf.interface_id bundle.id
             PwrState.OFF] ++ rest ∧
        ∀ c ∈ rest, c.isBundleReq = false) ∧
    (bundle.pwr_state = PwrState.SUSPEND →
      (∀ x ∈ outcomes env s.trace
        (suspend_calls s.intf.interface_id bundle.id bundle.connections), x.2 = 0) →
      ∀ e s2, gb_bundle_pm_power_on env (s.notified bundle) i = some (e, s2) → e ≠ 0 →
        gb_bundle_suspend env s i = some (e, s2) ∧
        ∃ delta, s2.trace = (s.notified bundle).trace ++ delta ∧
          ∀ c ∈ delta,
            c = Call.gb_control_interface_power_state_set s.intf.interface_id
              PwrState.ON ∨
            c = Call.gb_control_bundle_power_state_set s.intf.interface_id bundle.id
              PwrState.ON) ∧
    (¬ bundle.pwr_state = PwrState.SUSPEND →
      (∀ x ∈ outcomes env s.trace
        (suspend_calls s.intf.interface_id bundle.id bundle.connections), x.2 = 0) →
      gb_bundle_suspend env s i = gb_bundle_pm_power_off env (s.notified bundle) i) := by
  have hi := lt_length_of_getElem? _ _ _ hb
  refine ⟨?_, ?_, ?_⟩
  · intro hst hoff hall
    rw [gb_bundle_suspend_bridged env s i bundle hb hst hall]
    have hc : ∀ c ∈ bundle.connections,
        ¬ (c.pwr_state = PwrState.ON ∨ c.pwr_state = PwrState.SUSPEND) := by
      intro c hc
      rw [hoff c hc]
      decide
    have hB : ∀ tr a b st, env tr (Call.gb_control_bundle_power_state_set a b st) = 0 :=
      fun tr a b st => hall tr _ rfl
    rw [gb_bundle_pm_power_off_reach env _ i { bundle with pwr_state := PwrState.ON }
      (List.getElem?_set_self hi) rfl hc, if_pos (hB _ _ _ _)]
    obtain ⟨rest, hrest, hnb⟩ := gb_interface_pm_power_off_trace env
      ((PmState.call env
        { intf := { s.intf with
            pwr_state := PwrState.ON,
            bundles := s.intf.bundles.set i { bundle with pwr_state := PwrState.ON } },
          trace := (s.notified bundle).trace ++
            (if s.intf.pwr_state = PwrState.ON then []
              else [Call.gb_control_interface_power_state_set s.intf.interface_id
                PwrState.ON]) ++
            [Call.gb_control_bundle_power_state_set s.intf.interface_id bundle.id
              PwrState.ON] }
        (Call.gb_control_bundle_power_state_set s.intf.interface_id bundle.id
          PwrState.OFF)).2.set_bundle_pwr_state i
            { bundle with pwr_state := PwrState.ON } PwrState.OFF)
    refine ⟨_, rest, rfl, ?_, ?_, hnb⟩
    · have h := bundle_pwr_state_set
        (PmState.call env
          { intf := { s.intf with
              pwr_state := PwrState.ON,
              bundles := s.intf.bundles.set i { bundle with pwr_state := PwrState.ON } },
            trace := (s.notified bundle).trace ++
              (if s.intf.pwr_state = PwrState.ON then []
                else [Call.gb_control_interface_power_state_set s.intf.interface_id
                  PwrState.ON]) ++
              [Call.gb_control_bundle_power_state_set s.intf.interface_id bundle.id
                PwrState.ON] }
          (Call.gb_control_bundle_power_state_set s.intf.interface_id bundle.id
            PwrState.OFF)).2 i { bundle with pwr_state := PwrState.ON } PwrState.OFF
        (by simpa [PmState.call] using hi)
      rw [← h]
      simp only [PmState.bundle_pwr_state, (gb_interface_pm_power_off_frame env _).1]
    · rw [hrest]
      simp [PmState.call, PmState.set_bundle_pwr_state]
  · intro hst hcb e s2 hon he
    refine ⟨?_, gb_bundle_pm_power_on_trace env (s.notified bundle) i bundle hb e s2 hon⟩
    rw [gb_bundle_suspend_after_notify env s i bundle hb hcb, if_pos hst, hon]
    simp only [he, ne_eq, not_false_eq_true, if_true]
  · intro hst hcb
    rw [gb_bundle_suspend_after_notify env s i bundle hb hcb, if_neg hst]

/-- Witness of C22: the suspended bundle `bundleCallbacks` (connections all
OFF) on an interface in ON, every call succeeding. -/
theorem bridging_transition_witness :
    ∃ s' rest, gb_bundle_suspend envOk stateCallbacks 0 = some (0, s') ∧
      s'.bundle_pwr_state 0 = some PwrState.OFF ∧
      s'.trace = (stateCallbacks.notified bundleCallbacks).trace ++
        (if stateCallbacks.intf.pwr_state = PwrState.ON then []
          else [Call.gb_control_interface_power_state_set stateCallbacks.intf.interface_id
            PwrState.ON]) ++
        [Call.gb_control_bundle_power_state_set stateCallbacks.intf.interface_id
           bundleCallbacks.id PwrState.ON,
         Call.gb_control_bundle_power_state_set stateCallbacks.intf.interface_id
           bundleCallbacks.id PwrState.OFF] ++ rest ∧
      ∀ c ∈ rest, c.isBundleReq = false :=
  (bridging_transition envOk stateCallbacks 0 bundleCallbacks rfl).1 rfl (by decide)
    (fun _ _ _ => rfl)

/-- C23: the runtime-PM composite can raise power.  For a bundle in SUSPEND
with a connection in ON or SUSPEND, when every callback and every control
request succeeds, `gb_bundle_suspend` returns 0 and leaves the bundle in ON
and its interface in ON: the bridging power-on is made and the power-off that
follows is vetoed, so the bundle ends more powered than it started. -/
theorem suspend_composite_raises_power (env : Remote) (s : PmState) (i : Nat)
    (bundle : gb_bundle) (hb : s.intf.bundles[i]? = some bundle)
    (hst : bundle.pwr_state = PwrState.SUSPEND)
    (hc : ∃ c ∈ bundle.connections,
      c.pwr_state = PwrState.ON ∨ c.pwr_state = PwrState.SUSPEND)
    (hall : ∀ tr c, c.isFabric = false → env tr c = 0) :
    ∃ s', gb_bundle_suspend env s i = some (0, s') ∧
      s.bundle_pwr_state i = some PwrState.SUSPEND ∧
      s'.bundle_pwr_state i = some PwrState.ON ∧
      s'.intf.pwr_state = PwrState.ON ∧
      PwrState.SUSPEND.rank < PwrState.ON.rank ∧
      s'.trace = (s.notified bundle).trace ++
        (if s.intf.pwr_state = PwrState.ON then []
          else [Call.gb_control_interface_power_state_set s.intf.interface_id
            PwrState.ON]) ++
        [Call.gb_control_bundle_power_state_set s.intf.interface_id bundle.id
          PwrState.ON] := by
  have hi := lt_length_of_getElem? _ _ _ hb
  rw [gb_bundle_suspend_bridged env s i bundle hb hst hall]
  rw [gb_bundle_pm_power_off_veto env _ i { bundle with pwr_state := PwrState.ON }
    (List.getElem?_set_self hi) rfl hc]
  refine ⟨_, rfl, ?_, ?_, rfl, by decide, rfl⟩
  · simp [PmState.bundle_pwr_state, hb, hst]
  · simp [PmState.bundle_pwr_state, List.getElem?_set_self hi]

/-- Witness of C23: a suspended bundle with a connection in ON on a suspended
interface, every call succeeding. -/
theorem suspend_composite_raises_power_witness :
    ∃ s', gb_bundle_suspend envOk stateRaise 0 = some (0, s') ∧
      stateRaise.bundle_pwr_state 0 = some PwrState.SUSPEND ∧
      s'.bundle_pwr_state 0 = some PwrState.ON ∧
      s'.intf.pwr_state = PwrState.ON ∧
      PwrState.SUSPEND.rank < PwrState.ON.rank ∧
      s'.trace = (stateRaise.notified (mkBundle PwrState.SUSPEND [mkConn PwrState.ON])).trace ++
        (if stateRaise.intf.pwr_state = PwrState.ON then []
          else [Call.gb_control_interface_power_state_set stateRaise.intf.interface_id
            PwrState.ON]) ++
        [Call.gb_control_bundle_power_state_set stateRaise.intf.interface_id
          (mkBundle PwrState.SUSPEND [mkConn PwrState.ON]).id PwrState.ON] :=
  suspend_composite_raises_power envOk stateRaise 0
    (mkBundle PwrState.SUSPEND [mkConn PwrState.ON]) rfl rfl
    ⟨mkConn PwrState.ON, List.Mem.head _, Or.inl rfl⟩ (fun _ _ _ => rfl)

/-! ## Legal transitions and the effect of the cascade -/

/-- Writing back the element a position holds changes nothing. -/
theorem set_eq_self {α : Type} (l : List α) (i : Nat) (a : α) (h : l[i]? = some a) :
    l.set i a = l := by
  apply List.ext_getElem?
  intro j
  by_cases hj : i = j
  · subst hj
    rw [List.getElem?_set_self (lt_length_of_getElem? _ _ _ h), h]
  · rw [List.getElem?_set_ne hj]

/-- A property of the new element and of the elements at the other positions
holds for every element after a write. -/
theorem forall_mem_set {α : Type} (l : List α) (i : Nat) (a : α) (p : α → Prop) (ha : p a)
    (h : ∀ j b, j ≠ i → l[j]? = some b → p b) : ∀ b ∈ l.set i a, p b := by
  intro b hb
  obtain ⟨j, hj⟩ := List.mem_iff_getElem?.mp hb
  rw [List.getElem?_set] at hj
  split_ifs at hj with h1 h2
  · simp only [Option.some.injEq] at hj
    rw [← hj]
    exact ha
  · exact h j b (fun e => h1 e.symm) hj

/-- Assigning a bundle the power state it has changes nothing. -/
theorem bundle_with_self (b : gb_bundle) : { b with pwr_state := b.pwr_state } = b := by
  cases b
  rfl

/-- Every state other than ON can go to ON. -/
theorem legal_step_to_ON (st : PwrState) : legal_step st PwrState.ON := by
  cases st <;> simp [legal_step, legal_transition]

/-- Legality of `gb_interface_pm_power_on`. -/
theorem gb_interface_pm_power_on_legal (env : Remote) (s : PmState) :
    legal_step s.intf.pwr_state (gb_interface_pm_power_on env s).2.intf.pwr_state := by
  by_cases hst : s.intf.pwr_state = PwrState.ON
  · simp [gb_interface_pm_power_on, hst, legal_step]
  · rw [gb_interface_pm_power_on_reach env s hst]
    split_ifs
    · exact legal_step_to_ON _
    · exact Or.inl rfl

/-- Legality of `gb_interface_pm_power_suspend`. -/
theorem gb_interface_pm_power_suspend_legal (env : Remote) (s : PmState) :
    legal_step s.intf.pwr_state (gb_interface_pm_power_suspend env s).2.intf.pwr_state := by
  by_cases hst : s.intf.pwr_state = PwrState.ON
  · by_cases hc : ∃ b ∈ s.intf.bundles, b.pwr_state = PwrState.ON
    · rw [gb_interface_pm_power_suspend_veto env s hst hc]
      exact Or.inl rfl
    · rw [gb_interface_pm_power_suspend_reach env s hst (fun b hb hon => hc ⟨b, hb, hon⟩)]
      split_ifs
      · rw [hst]
        exact Or.inr rfl
      · exact Or.inl rfl
  · have : (gb_interface_pm_power_suspend env s).2 = s := by
      cases hs : s.intf.pwr_state <;> simp_all [gb_interface_pm_power_suspend]
    rw [this]
    exact Or.inl rfl

/-- Legality of `gb_interface_pm_power_off`. -/
theorem gb_interface_pm_power_off_legal (env : Remote) (s : PmState) :
    legal_step s.intf.pwr_state (gb_interface_pm_power_off env s).2.intf.pwr_state := by
  by_cases hst : s.intf.pwr_state = PwrState.ON
  · by_cases hc : ∃ b ∈ s.intf.bundles,
        b.pwr_state = PwrState.ON ∨ b.pwr_state = PwrState.SUSPEND
    · rw [gb_interface_pm_power_off_veto env s hst hc]
      exact Or.inl rfl
    · rw [gb_interface_pm_power_off_reach env s hst (fun b hb hon => hc ⟨b, hb, hon⟩)]
      split_ifs
      · rw [hst]
        exact Or.inr rfl
      · exact Or.inl rfl
  · have : (gb_interface_pm_power_off env s).2 = s := by
      cases hs : s.intf.pwr_state <;> simp_all [gb_interface_pm_power_off]
    rw [this]
    exact Or.inl rfl

/-- C24: only legal transitions.  For each of the six power operations and
every environment: the power state of the interface is unchanged or made one
of the transitions OFF to ON, SUSPEND to ON, ON to SUSPEND, ON to OFF; so does
the power state of the target bundle; no step is SUSPEND to OFF or OFF to
SUSPEND; and the bundle list after the call is the list before it with at most
the power state of the target bundle changed, so no connection and no sibling
bundle changes. -/
theorem legal_transitions_only (env : Remote) (s : PmState) :
    (∀ a b, legal_step a b →
      ¬ (a = PwrState.SUSPEND ∧ b = PwrState.OFF) ∧
      ¬ (a = PwrState.OFF ∧ b = PwrState.SUSPEND)) ∧
    (legal_step s.intf.pwr_state (gb_interface_pm_power_on env s).2.intf.pwr_state ∧
      (gb_interface_pm_power_on env s).2.intf.bundles = s.intf.bundles) ∧
    (legal_step s.intf.pwr_state (gb_interface_pm_power_suspend env s).2.intf.pwr_state ∧
      (gb_interface_pm_power_suspend env s).2.intf.bundles = s.intf.bundles) ∧
    (legal_step s.intf.pwr_state (gb_interface_pm_power_off env s).2.intf.pwr_state ∧
      (gb_interface_pm_power_off env s).2.intf.bundles = s.intf.bundles) ∧
    ∀ i bundle, s.intf.bundles[i]? = some bundle →
      (∃ r s' st, gb_bundle_pm_power_on env s i = some (r, s') ∧
        s'.intf.bundles = s.intf.bundles.set i { bundle with pwr_state := st } ∧
        legal_step bundle.pwr_state st ∧
        legal_step s.intf.pwr_state s'.intf.pwr_state) ∧
      (∃ r s' st, gb_bundle_pm_power_suspend env s i = some (r, s') ∧
        s'.intf.bundles = s.intf.bundles.set i { bundle with pwr_state := st } ∧
        legal_step bundle.pwr_state st ∧
        legal_step s.intf.pwr_state s'.intf.pwr_state) ∧
      (∃ r s' st, gb_bundle_pm_power_off env s i = some (r, s') ∧
        s'.intf.bundles = s.intf.bundles.set i { bundle with pwr_state := st } ∧
        legal_step bundle.pwr_state st ∧
        legal_step s.intf.pwr_state s'.intf.pwr_state) := by
  refine ⟨?_, ⟨gb_interface_pm_power_on_legal env s, (gb_interface_pm_power_on_frame env s).1⟩,
    ⟨gb_interface_pm_power_suspend_legal env s, (gb_interface_pm_power_suspend_frame env s).1⟩,
    ⟨gb_interface_pm_power_off_legal env s, (gb_interface_pm_power_off_frame env s).1⟩, ?_⟩
  · intro a b h
    cases a <;> cases b <;> simp_all [legal_step, legal_transition]
  intro i bundle hb
  have hself : s.intf.bundles = s.intf.bundles.set i { bundle with pwr_state := bundle.pwr_state } := by
    rw [bundle_with_self, set_eq_self _ _ _ hb]
  refine ⟨?_, ?_, ?_⟩
  · by_cases hst : bundle.pwr_state = PwrState.ON
    · exact ⟨0, s, bundle.pwr_state, by simp [gb_bundle_pm_power_on, hb, hst], hself,
        Or.inl rfl, Or.inl rfl⟩
    · rw [gb_bundle_pm_power_on_reach env s i bundle hb hst]
      have hl := gb_interface_pm_power_on_legal env s
      have hbs := (gb_interface_pm_power_on_frame env s).1
      split_ifs
      · refine ⟨0, _, PwrState.ON, rfl, ?_, legal_step_to_ON _, ?_⟩
        · simp [PmState.set_bundle_pwr_state, PmState.call, hbs]
        · simpa [PmState.set_bundle_pwr_state, PmState.call] using hl
      · refine ⟨_, _, bundle.pwr_state, rfl, ?_, Or.inl rfl, ?_⟩
        · simp only [PmState.call, hbs]
          exact hself
        · simpa [PmState.call] using hl
      · exact ⟨(gb_interface_pm_power_on env s).1, (gb_interface_pm_power_on env s).2,
          bundle.pwr_state, rfl, hbs.trans hself, Or.inl rfl, hl⟩
  · cases hst : bundle.pwr_state with
    | OFF =>
      exact ⟨-1, s, PwrState.OFF, by simp [gb_bundle_pm_power_suspend, hb, hst],
        by rw [← hst]; exact hself, Or.inl rfl, Or.inl rfl⟩
    | SUSPEND =>
      exact ⟨0, s, PwrState.SUSPEND, by simp [gb_bundle_pm_power_suspend, hb, hst],
        by rw [← hst]; exact hself, Or.inl rfl, Or.inl rfl⟩
    | ON =>
      by_cases hc : ∃ c ∈ bundle.connections, c.pwr_state = PwrState.ON
      · exact ⟨0, s, PwrState.ON, gb_bundle_pm_power_suspend_veto env s i bundle hb hst hc,
          by rw [← hst]; exact hself, Or.inl rfl, Or.inl rfl⟩
      · rw [gb_bundle_pm_power_suspend_reach env s i bundle hb hst
          (fun c hm hon => hc ⟨c, hm, hon⟩)]
        split_ifs
        · refine ⟨0, _, PwrState.SUSPEND, rfl, ?_, Or.inr rfl, ?_⟩
          · rw [(gb_interface_pm_power_suspend_frame env _).1]
            rfl
          · exact gb_interface_pm_power_suspend_legal env
              ((s.call env (Call.gb_control_bundle_power_state_set s.intf.interface_id
                bundle.id PwrState.SUSPEND)).2.set_bundle_pwr_state i bundle PwrState.SUSPEND)
        · exact ⟨_, _, PwrState.ON, rfl, by rw [← hst]; exact hself, Or.inl rfl, Or.inl rfl⟩
  · cases hst : bundle.pwr_state with
    | OFF =>
      exact ⟨0, s, PwrState.OFF, by simp [gb_bundle_pm_power_off, hb, hst],
        by rw [← hst]; exact hself, Or.inl rfl, Or.inl rfl⟩
    | SUSPEND =>
      exact ⟨-1, s, PwrState.SUSPEND, by simp [gb_bundle_pm_power_off, hb, hst],
        by rw [← hst]; exact hself, Or.inl rfl, Or.inl rfl⟩
    | ON =>
      by_cases hc : ∃ c ∈ bundle.connections,
          c.pwr_state = PwrState.ON ∨ c.pwr_state = PwrState.SUSPEND
      · exact ⟨0, s, PwrState.ON, gb_bundle_pm_power_off_veto env s i bundle hb hst hc,
          by rw [← hst]; exact hself, Or.inl rfl, Or.inl rfl⟩
      · rw [gb_bundle_pm_power_off_reach env s i bundle hb hst
          (fun c hm hon => hc ⟨c, hm, hon⟩)]
        split_ifs
        · refine ⟨0, _, PwrState.OFF, rfl, ?_, Or.inr rfl, ?_⟩
          · rw [(gb_interface_pm_power_off_frame env _).1]
            rfl
          · exact gb_interface_pm_power_off_legal env
              ((s.call env (Call.gb_control_bundle_power_state_set s.intf.interface_id
                bundle.id PwrState.OFF)).2.set_bundle_pwr_state i bundle PwrState.OFF)
        · exact ⟨_, _, PwrState.ON, rfl, by rw [← hst]; exact hself, Or.inl rfl, Or.inl rfl⟩

/-- Witness for C24: bundle 1 of an interface whose other bundle is suspended
is suspended by a legal step, the interface follows by a legal step, and the
other bundle is untouched. -/
theorem legal_transitions_only_witness :
    (stateTwo PwrState.SUSPEND).intf.bundles[0]? = some (mkBundleS 1 PwrState.ON) ∧
    ∃ r s' st, gb_bundle_pm_power_suspend envOk (stateTwo PwrState.SUSPEND) 0 = some (r, s') ∧
      s'.intf.bundles = (stateTwo PwrState.SUSPEND).intf.bundles.set 0
        { mkBundleS 1 PwrState.ON with pwr_state := st } ∧
      legal_step (mkBundleS 1 PwrState.ON).pwr_state st ∧
      legal_step (stateTwo PwrState.SUSPEND).intf.pwr_state s'.intf.pwr_state :=
  ⟨rfl, ((legal_transitions_only envOk (stateTwo PwrState.SUSPEND)).2.2.2.2 0
    (mkBundleS 1 PwrState.ON) rfl).2.1⟩

/-- A `gb_bundle_pm_power_suspend` that left the bundle in SUSPEND was not
vetoed and its bundle request succeeded. -/
theorem gb_bundle_pm_power_suspend_moved (env : Remote) (s : PmState) (i : Nat)
    (bundle : gb_bundle) (hb : s.intf.bundles[i]? = some bundle)
    (hst : bundle.pwr_state = PwrState.ON) (r : Int) (s' : PmState)
    (h : gb_bundle_pm_power_suspend env s i = some (r, s'))
    (hafter : s'.bundle_pwr_state i = some PwrState.SUSPEND) :
    (∀ c ∈ bundle.connections, ¬ c.pwr_state = PwrState.ON) ∧
    env s.trace (Call.gb_control_bundle_power_state_set s.intf.interface_id bundle.id
      PwrState.SUSPEND) = 0 := by
  by_cases hc : ∃ c ∈ bundle.connections, c.pwr_state = PwrState.ON
  · rw [gb_bundle_pm_power_suspend_veto env s i bundle hb hst hc] at h
    simp only [Option.some.injEq, Prod.mk.injEq] at h
    rw [← h.2] at hafter
    simp [PmState.bundle_pwr_state, hb, hst] at hafter
  · refine ⟨fun c hm hon => hc ⟨c, hm, hon⟩, ?_⟩
    by_contra hreq
    rw [gb_bundle_pm_power_suspend_reach env s i bundle hb hst
      (fun c hm hon => hc ⟨c, hm, hon⟩), if_neg hreq] at h
    simp only [Option.some.injEq, PmState.call, Prod.mk.injEq] at h
    rw [← h.2] at hafter
    simp [PmState.bundle_pwr_state, hb, hst] at hafter

/-- A `gb_bundle_pm_power_off` that left the bundle in OFF was not vetoed and
its bundle request succeeded. -/
theorem gb_bundle_pm_power_off_moved (env : Remote) (s : PmState) (i : Nat)
    (bundle : gb_bundle) (hb : s.intf.bundles[i]? = some bundle)
    (hst : bundle.pwr_state = PwrState.ON) (r : Int) (s' : PmState)
    (h : gb_bundle_pm_power_off env s i = some (r, s'))
    (hafter : s'.bundle_pwr_state i = some PwrState.OFF) :
    (∀ c ∈ bundle.connections,
      ¬ (c.pwr_state = PwrState.ON ∨ c.pwr_state = PwrState.SUSPEND)) ∧
    env s.trace (Call.gb_control_bundle_power_state_set s.intf.interface_id bundle.id
      PwrState.OFF) = 0 := by
  by_cases hc : ∃ c ∈ bundle.connections,
      c.pwr_state = PwrState.ON ∨ c.pwr_state = PwrState.SUSPEND
  · rw [gb_bundle_pm_power_off_veto env s i bundle hb hst hc] at h
    simp only [Option.some.injEq, Prod.mk.injEq] at h
    rw [← h.2] at hafter
    simp [PmState.bundle_pwr_state, hb, hst] at hafter
  · refine ⟨fun c hm hon => hc ⟨c, hm, hon⟩, ?_⟩
    by_contra hreq
    rw [gb_bundle_pm_power_off_reach env s i bundle hb hst
      (fun c hm hon => hc ⟨c, hm, hon⟩), if_neg hreq] at h
    simp only [Option.some.injEq, PmState.call, Prod.mk.injEq] at h
    rw [← h.2] at hafter
    simp [PmState.bundle_pwr_state, hb, hst] at hafter

/-- C25: effect of the courtesy cascade.  Let the bundle at position `i` be ON
and its interface be ON.  If `gb_bundle_pm_power_suspend` returns leaving that
bundle in SUSPEND, then: when no other bundle is ON and the interface SUSPEND
request returns 0, the interface is in SUSPEND and the requests added are the
bundle request, the interface request and one refclk disable (no power
disable); when some other bundle is ON, the interface is still ON and the only
request added is the bundle request.  If `gb_bundle_pm_power_off` returns
leaving that bundle in OFF, every other bundle is OFF and the interface OFF
request returns 0, then the interface is in OFF and the requests added are the
bundle request, the interface request, one refclk disable and one power
disable. -/
theorem courtesy_cascade_effect (env : Remote) (s : PmState) (i : Nat) (bundle : gb_bundle)
    (hb : s.intf.bundles[i]? = some bundle)
    (hst : bundle.pwr_state = PwrState.ON)
    (hintf : s.intf.pwr_state = PwrState.ON) :
    (∀ r s', gb_bundle_pm_power_suspend env s i = some (r, s') →
      s'.bundle_pwr_state i = some PwrState.SUSPEND →
      ((∀ j b, j ≠ i → s.intf.bundles[j]? = some b → ¬ b.pwr_state = PwrState.ON) →
        env (s.trace ++ [Call.gb_control_bundle_power_state_set s.intf.interface_id
            bundle.id PwrState.SUSPEND])
          (Call.gb_control_interface_power_state_set s.intf.interface_id
            PwrState.SUSPEND) = 0 →
        s'.intf.pwr_state = PwrState.SUSPEND ∧
        s'.trace = s.trace ++
          [Call.gb_control_bundle_power_state_set s.intf.interface_id bundle.id
             PwrState.SUSPEND,
           Call.gb_control_interface_power_state_set s.intf.interface_id PwrState.SUSPEND,
           Call.gb_svc_intf_refclk_state_set s.intf.interface_id
             GB_SVC_INTF_REFCLK_DISABLE]) ∧
      ((∃ j b, j ≠ i ∧ s.intf.bundles[j]? = some b ∧ b.pwr_state = PwrState.ON) →
        s'.intf.pwr_state = PwrState.ON ∧
        s'.trace = s.trace ++
          [Call.gb_control_bundle_power_state_set s.intf.interface_id bundle.id
             PwrState.SUSPEND])) ∧
    (∀ r s', gb_bundle_pm_power_off env s i = some (r, s') →
      s'.bundle_pwr_state i = some PwrState.OFF →
      (∀ j b, j ≠ i → s.intf.bundles[j]? = some b → b.pwr_state = PwrState.OFF) →
      env (s.trace ++ [Call.gb_control_bundle_power_state_set s.intf.interface_id
          bundle.id PwrState.OFF])
        (Call.gb_control_interface_power_state_set s.intf.interface_id
          PwrState.OFF) = 0 →
      s'.intf.pwr_state = PwrState.OFF ∧
      s'.trace = s.trace ++
        [Call.gb_control_bundle_power_state_set s.intf.interface_id bundle.id
           PwrState.OFF,
         Call.gb_control_interface_power_state_set s.intf.interface_id PwrState.OFF,
         Call.gb_svc_intf_refclk_state_set s.intf.interface_id
           GB_SVC_INTF_REFCLK_DISABLE,
         Call.gb_svc_intf_power_state_set s.intf.interface_id
           GB_SVC_INTF_PWR_DISABLE]) := by
  constructor
  · intro r s' h hafter
    obtain ⟨hc, hreq⟩ := gb_bundle_pm_power_suspend_moved env s i bundle hb hst r s' h hafter
    rw [gb_bundle_pm_power_suspend_reach env s i bundle hb hst hc, if_pos hreq] at h
    simp only [Option.some.injEq, Prod.mk.injEq] at h
    obtain ⟨-, rfl⟩ := h
    constructor
    · intro hoth hireq
      rw [gb_interface_pm_power_suspend_reach env
        ((s.call env (Call.gb_control_bundle_power_state_set s.intf.interface_id
          bundle.id PwrState.SUSPEND)).2.set_bundle_pwr_state i bundle PwrState.SUSPEND) hintf
        (forall_mem_set _ i _ (fun b : gb_bundle => ¬ b.pwr_state = PwrState.ON) (by simp) hoth)]
      simp only [PmState.call, PmState.set_bundle_pwr_state]
      rw [if_pos hireq]
      simp
    · rintro ⟨j, b, hj, hbj, hon⟩
      rw [gb_interface_pm_power_suspend_veto env
        ((s.call env (Call.gb_control_bundle_power_state_set s.intf.interface_id
          bundle.id PwrState.SUSPEND)).2.set_bundle_pwr_state i bundle PwrState.SUSPEND) hintf
        ⟨b, List.getElem?_mem (by
          show (s.intf.bundles.set i _)[j]? = some b
          rw [List.getElem?_set_ne (fun e => hj e.symm)]
          exact hbj), hon⟩]
      simp [PmState.call, PmState.set_bundle_pwr_state, hintf]
  · intro r s' h hafter hoth hireq
    obtain ⟨hc, hreq⟩ := gb_bundle_pm_power_off_moved env s i bundle hb hst r s' h hafter
    rw [gb_bundle_pm_power_off_reach env s i bundle hb hst hc, if_pos hreq] at h
    simp only [Option.some.injEq, Prod.mk.injEq] at h
    obtain ⟨-, rfl⟩ := h
    rw [gb_interface_pm_power_off_reach env
      ((s.call env (Call.gb_control_bundle_power_state_set s.intf.interface_id
          bundle.id PwrState.OFF)).2.set_bundle_pwr_state i bundle PwrState.OFF) hintf
      (forall_mem_set _ i _
        (fun b : gb_bundle => ¬ (b.pwr_state = PwrState.ON ∨ b.pwr_state = PwrState.SUSPEND))
        (by simp)
        (fun j b hj hbj => by simp [hoth j b hj hbj]))]
    simp only [PmState.call, PmState.set_bundle_pwr_state]
    rw [if_pos hireq]
    simp

/-- The bundles of `stateTwo st` other than the first are bundle 2. -/
theorem stateTwo_others (st : PwrState) (p : gb_bundle → Prop) (hp : p (mkBundleS 2 st)) :
    ∀ j b, j ≠ 0 → (stateTwo st).intf.bundles[j]? = some b → p b := by
  intro j b hj h
  match j, hj, h with
  | 0, hj, _ => exact absurd rfl hj
  | 1, _, h =>
    simp only [stateTwo, mkState, List.getElem?_cons_succ, List.getElem?_cons_zero,
      Option.some.injEq] at h
    rw [← h]
    exact hp
  | n + 2, _, h => simp [stateTwo, mkState] at h

/-- Witness for C25: bundle 1 of an interface that is ON is suspended while
bundle 2 is suspended (the interface follows) and while bundle 2 is ON (the
interface stays); bundle 1 is powered off while bundle 2 is OFF (the interface
follows). -/
theorem courtesy_cascade_effect_witness :
    (gb_bundle_pm_power_suspend envOk (stateTwo PwrState.SUSPEND) 0 =
        some (0, stateTwoSuspend PwrState.SUSPEND) ∧
      (stateTwoSuspend PwrState.SUSPEND).bundle_pwr_state 0 = some PwrState.SUSPEND ∧
      (stateTwoSuspend PwrState.SUSPEND).intf.pwr_state = PwrState.SUSPEND ∧
      (stateTwoSuspend PwrState.SUSPEND).trace =
        [Call.gb_control_bundle_power_state_set 3 1 PwrState.SUSPEND,
         Call.gb_control_interface_power_state_set 3 PwrState.SUSPEND,
         Call.gb_svc_intf_refclk_state_set 3 GB_SVC_INTF_REFCLK_DISABLE]) ∧
    (gb_bundle_pm_power_suspend envOk (stateTwo PwrState.ON) 0 =
        some (0, stateTwoSuspend PwrState.ON) ∧
      (stateTwoSuspend PwrState.ON).bundle_pwr_state 0 = some PwrState.SUSPEND ∧
      (stateTwoSuspend PwrState.ON).intf.pwr_state = PwrState.ON ∧
      (stateTwoSuspend PwrState.ON).trace =
        [Call.gb_control_bundle_power_state_set 3 1 PwrState.SUSPEND]) ∧
    (gb_bundle_pm_power_off envOk (stateTwo PwrState.OFF) 0 =
        some (0, stateTwoOff PwrState.OFF) ∧
      (stateTwoOff PwrState.OFF).bundle_pwr_state 0 = some PwrState.OFF ∧
      (stateTwoOff PwrState.OFF).intf.pwr_state = PwrState.OFF ∧
      (stateTwoOff PwrState.OFF).trace =
        [Call.gb_control_bundle_power_state_set 3 1 PwrState.OFF,
         Call.gb_control_interface_power_state_set 3 PwrState.OFF,
         Call.gb_svc_intf_refclk_state_set 3 GB_SVC_INTF_REFCLK_DISABLE,
         Call.gb_svc_intf_power_state_set 3 GB_SVC_INTF_PWR_DISABLE]) :=
  ⟨⟨rfl, rfl,
      ((courtesy_cascade_effect envOk (stateTwo PwrState.SUSPEND) 0
        (mkBundleS 1 PwrState.ON) rfl rfl rfl).1 0 (stateTwoSuspend PwrState.SUSPEND)
        rfl rfl).1
        (stateTwo_others PwrState.SUSPEND (fun b => ¬ b.pwr_state = PwrState.ON)
          (by decide)) rfl⟩,
    ⟨rfl, rfl,
      ((courtesy_cascade_effect envOk (stateTwo PwrState.ON) 0
        (mkBundleS 1 PwrState.ON) rfl rfl rfl).1 0 (stateTwoSuspend PwrState.ON)
        rfl rfl).2 ⟨1, mkBundleS 2 PwrState.ON, by decide, rfl, rfl⟩⟩,
    ⟨rfl, rfl,
      (courtesy_cascade_effect envOk (stateTwo PwrState.OFF) 0
        (mkBundleS 1 PwrState.ON) rfl rfl rfl).2 0 (stateTwoOff PwrState.OFF)
        rfl rfl
        (stateTwo_others PwrState.OFF (fun b => b.pwr_state = PwrState.OFF) rfl) rfl⟩⟩

end Greybus
